import Mathlib

/-! # VICIdial non-agent REST gateway: shallow embedding and verified properties

The Go sources embedded here are `config/config.go`, `middleware/auth.go`,
`models/models.go`, `handlers/handler.go`, `handlers/leads.go`,
`handlers/campaigns.go`, `handlers/lists.go`, `handlers/users.go`,
`handlers/phones.go`, `handlers/advanced.go`, `handlers/dnc.go`,
`handlers/kpi.go`, `handlers/sip.go` and `handlers/testcall.go`.

Conventions of the embedding:

* Go `string` is `String` and `len` is the UTF-8 byte length. Go `int` /
  `int64` are `Int`; where a handler multiplies or adds values read from the
  database (the dial timeout in milliseconds, the call total of a campaign) the
  result is wrapped to 64 bits with `wrapInt64`, and a property that needs the
  exact value states the range as a hypothesis. The count of rows inserted into
  the hopper is at most the length of the request and is left unwrapped.
* Go `float64` is `Float64`: an integer mantissa and a binary exponent, every
  operation rounded to 53 bits, ties to even.
* `net/http` values (`http.Header`, `url.Values`, the parsed form) are
  association lists in arrival order; `Get` returns the first value of a key and
  the empty string when the key is absent, as the library does.
* A handler that writes a response and returns is a function returning the
  response that was written; a middleware either writes a response or calls the
  next handler, which is a two-constructor result type. A response whose object
  the JSON encoder refuses (a `float64` that is not finite) has its status and
  headers and no body, which `Response.bodyWritten` records.
* Calls into `database/sql` are recorded in a trace so that "no query is
  issued" and "commit is never called" are statements about a value.
* Where a property is about what the server does with a statement (a `DELETE`,
  a `LIKE` filter, an `INSERT` into a table read back later) the statement is
  evaluated on explicit tables, with the collation as a parameter.
* A `time.Time` read from or written to a `DATETIME` column by the test-call
  handlers is kept as the datetime text of the column.
-/

namespace Vicidial

/-! ## config/config.go -/

/-- Config holds the application configuration (`config.Config`). -/
structure Config where
  DBHost : String
  DBPort : String
  DBUser : String
  DBPassword : String
  DBName : String
  APIPort : String
  APIKey : String
  Timezone : String
  LogLevel : String
  deriving DecidableEq, Repr

/-- The process environment as `os.Getenv` sees it: the empty string for an
unset variable. -/
abbrev Environ := String → String

/-- Mirror of `getEnv`: the variable's value, or the default when it is empty. -/
def getEnv (env : Environ) (key defaultValue : String) : String :=
  let value := env key
  if value = "" then defaultValue else value

/-- Mirror of `LoadConfig`. -/
def LoadConfig (env : Environ) : Config :=
  { DBHost := getEnv env "DB_HOST" "localhost"
    DBPort := getEnv env "DB_PORT" "3306"
    DBUser := getEnv env "DB_USER" "root"
    DBPassword := getEnv env "DB_PASSWORD" ""
    DBName := getEnv env "DB_NAME" "asterisk"
    APIPort := getEnv env "API_PORT" "8080"
    APIKey := getEnv env "API_KEY" ""
    Timezone := getEnv env "TIMEZONE" "America/New_York"
    LogLevel := getEnv env "LOG_LEVEL" "info" }

/-! ## net/http request data -/

/-- Ordered key/value pairs (`url.Values`, `http.Header`, `Request.Form`). -/
abbrev Values := List (String × String)

/-- First value stored under `key`, the empty string when there is none
(`url.Values.Get`). -/
def Values.Get : Values → String → String
  | [], _ => ""
  | (k, v) :: rest, key => if k = key then v else Values.Get rest key

/-- Bytes that may appear in a header field name (`httpguts` token table):
letters, digits and the punctuation of RFC 7230 `tchar`. -/
def validHeaderFieldByte (c : Char) : Bool :=
  c.isAlphanum || [33, 35, 36, 37, 38, 39, 42, 43, 45, 46, 94, 95, 96, 124, 126].contains c.toNat

/-- The letter-case pass of `textproto.CanonicalMIMEHeaderKey`: a letter is
upper-cased at the start and after a hyphen and lower-cased elsewhere. -/
def canonicalChars : Bool → List Char → List Char
  | _, [] => []
  | upper, c :: cs =>
    let d := if upper then c.toUpper else c.toLower
    d :: canonicalChars (d.toNat == 45) cs

/-- Mirror of `textproto.CanonicalMIMEHeaderKey`: a key holding a byte that is
not a token byte is returned unchanged. -/
def CanonicalMIMEHeaderKey (s : String) : String :=
  if s.data.all validHeaderFieldByte then String.mk (canonicalChars true s.data) else s

/-- Mirror of `http.Header.Get`: the first value under the canonical form of
the key. The header list holds canonical names, as the server stores them. -/
def Header.Get (h : Values) (key : String) : String :=
  Values.Get h (CanonicalMIMEHeaderKey key)

/-- Keys of a request context: the middleware's private `contextKey` type and
keys of any other type, which never compare equal to it. -/
inductive CtxKey where
  | contextKey (s : String)
  | foreign (s : String)
  deriving DecidableEq, Repr

/-- Values stored in a context (`interface{}`): a string or something else. -/
inductive CtxVal where
  | str (s : String)
  | other (n : Nat)
  deriving DecidableEq, Repr

/-- A request context as the chain of `context.WithValue` layers, innermost
layer first. -/
abbrev Context := List (CtxKey × CtxVal)

/-- Mirror of `context.WithValue`. -/
def Context.WithValue (ctx : Context) (k : CtxKey) (v : CtxVal) : Context :=
  (k, v) :: ctx

/-- Mirror of `Context.Value`: the value of the nearest layer with that key. -/
def Context.Value : Context → CtxKey → Option CtxVal
  | [], _ => none
  | (k, v) :: rest, key => if k = key then some v else Context.Value rest key

/-- The parts of an `*http.Request` the middleware reads. `Query` is
`r.URL.Query()`, `PostForm` the parameters parsed from a url-encoded body,
`MultipartForm` the values of a `multipart/form-data` body (a request has at
most one of the two kinds of body). -/
structure Request where
  Header : Values
  Query : Values
  PostForm : Values
  Ctx : Context
  MultipartForm : Values := []
  deriving DecidableEq, Repr

/-- Mirror of `Request.FormValue`: the first value of the key in `r.Form`.
`ParseForm` puts the parameters of a url-encoded body before the URL query
values, and `ParseMultipartForm` appends the values of a multipart body after
both. -/
def Request.FormValue (r : Request) (key : String) : String :=
  Values.Get (r.PostForm ++ r.Query ++ r.MultipartForm) key

/-- Mirror of `Request.WithContext`. -/
def Request.WithContext (r : Request) (ctx : Context) : Request :=
  { r with Ctx := ctx }

/-! ## middleware/auth.go -/

/-- The constant `userContextKey`. -/
def userContextKey : CtxKey := CtxKey.contextKey "user"

/-- ErrorResponse is the JSON body of a middleware error (`middleware.ErrorResponse`). -/
structure ErrorResponse where
  Error : String
  Message : String
  deriving DecidableEq, Repr

def StatusOK : Nat := 200
def StatusBadRequest : Nat := 400
def StatusUnauthorized : Nat := 401
def StatusNotFound : Nat := 404
def StatusInternalServerError : Nat := 500

/-- What one run of the middleware's handler function does: it either writes
an error response (`respondWithError`) or calls `next.ServeHTTP` with a request. -/
inductive MiddlewareResult where
  | respond (code : Nat) (contentType : String) (body : ErrorResponse)
  | callNext (r : Request)
  deriving DecidableEq, Repr

/-- Mirror of the middleware's `respondWithError`. -/
def middleware.respondWithError (code : Nat) (error message : String) : MiddlewareResult :=
  MiddlewareResult.respond code "application/json" { Error := error, Message := message }

/-- Mirror of `AuthenticationMiddleware(cfg)(next)` applied to a request. -/
def AuthenticationMiddleware (cfg : Config) (r : Request) : MiddlewareResult :=
  if cfg.APIKey = "" then
    middleware.respondWithError StatusInternalServerError
      "Authentication not configured" "Missing API_KEY in environment"
  else
    let providedKey := Header.Get r.Header "X-API-Key"
    let providedKey := if providedKey = "" then Values.Get r.Query "api_key" else providedKey
    let providedKey := if providedKey = "" then r.FormValue "api_key" else providedKey
    if providedKey = "" then
      middleware.respondWithError StatusUnauthorized "Authentication required"
        "Missing API key (use header X-API-Key or query param api_key)"
    else if providedKey ≠ cfg.APIKey then
      middleware.respondWithError StatusUnauthorized "Authentication failed" "Invalid API key"
    else
      let user := Header.Get r.Header "X-User"
      let user := if user = "" then Values.Get r.Query "user" else user
      let user := if user = "" then r.FormValue "user" else user
      let user := if user = "" then "api-key" else user
      let ctx := Context.WithValue r.Ctx userContextKey (CtxVal.str user)
      MiddlewareResult.callNext (r.WithContext ctx)

/-- Mirror of `GetUserFromContext`. -/
def GetUserFromContext (ctx : Context) : String :=
  match Context.Value ctx userContextKey with
  | some (CtxVal.str user) => user
  | _ => ""

/-! ### Vocabulary of the specification for the authentication gate -/

/-- The first non-empty string of a list, the empty string when there is none. -/
def firstNonEmpty : List String → String
  | [] => ""
  | s :: rest => if s = "" then firstNonEmpty rest else s

/-- The credential a request presents, in the words of the specification: the
first non-empty value among the header, the query parameter and the form field. -/
def presentedKey (r : Request) : String :=
  firstNonEmpty [Header.Get r.Header "X-API-Key", Values.Get r.Query "api_key",
    r.FormValue "api_key"]

/-- The caller label a request presents: the first non-empty value among the
`X-User` header, the `user` query parameter and the `user` form field. -/
def presentedUser (r : Request) : String :=
  firstNonEmpty [Header.Get r.Header "X-User", Values.Get r.Query "user", r.FormValue "user"]

/-- The next handler was invoked. -/
def MiddlewareResult.accepted : MiddlewareResult → Bool
  | MiddlewareResult.callNext _ => true
  | MiddlewareResult.respond _ _ _ => false

/-- Status code of the response the middleware wrote, if it wrote one. -/
def MiddlewareResult.status : MiddlewareResult → Option Nat
  | MiddlewareResult.callNext _ => none
  | MiddlewareResult.respond code _ _ => some code

/-- Body of the response the middleware wrote, if it wrote one. -/
def MiddlewareResult.errorBody : MiddlewareResult → Option ErrorResponse
  | MiddlewareResult.callNext _ => none
  | MiddlewareResult.respond _ _ body => some body

/-- A request with the given header, query and body values and an empty context. -/
def sampleRequest (header query form : Values) : Request :=
  { Header := header, Query := query, PostForm := form, Ctx := [] }

/-- A configuration whose API key is the given string. -/
def sampleConfig (key : String) : Config :=
  { (LoadConfig fun _ => "") with APIKey := key }

/-! ## Machine numbers

Go `int` is a 64-bit two's complement integer: where a handler multiplies or
accumulates values taken from the database the result is wrapped
(`wrapInt64`). Go `float64` is IEEE 754 binary64 with round-to-nearest-even.
A finite value is kept as an integer significand and a binary exponent and
every operation rounds the exact result to 53 significant bits; the exponent
range (overflow to infinity, subnormal numbers) is not modelled, the values the
handlers compute being quotients of 64-bit integers times one hundred. -/

/-- The value a Go `int` holds after an arithmetic operation whose exact
result is `x`. -/
def wrapInt64 (x : Int) : Int :=
  (x + 2 ^ 63) % 2 ^ 64 - 2 ^ 63

/-- A `float64`: a finite value `mant * 2 ^ exp`, or a value that is not a
finite number (NaN, an infinity). -/
inductive Float64 where
  | finite (mant : Int) (exp : Int)
  | nonFinite
  deriving DecidableEq, Repr

/-- The integer nearest to `N / D`, a tie going to the even one. -/
def roundHalfEven (N D : Nat) : Nat :=
  let q := N / D
  let r := N % D
  if 2 * r < D then q else if D < 2 * r then q + 1 else if q % 2 = 0 then q else q + 1

/-- Floor of the binary logarithm, by halving at most `fuel` times. -/
def log2Aux : Nat → Nat → Nat
  | 0, _ => 0
  | fuel + 1, n => if 2 ≤ n then log2Aux fuel (n / 2) + 1 else 0

/-- Position of the leading bit of `n`. -/
def floorLog2 (n : Nat) : Nat := log2Aux n n

/-- Significand and exponent of the binary64 value nearest to
`n / d * 2 ^ e`, for positive `n` and `d`: the quotient is scaled into
`[2^52, 2^53)`, rounded to an integer, and renormalised when rounding carries
into the next binade. -/
def Float64.roundPos (n d : Nat) (e : Int) : Int × Int :=
  let k := floorLog2 n
  let l := floorLog2 d
  let N₀ := n * 2 ^ (52 + l)
  let D := d * 2 ^ k
  let r : Nat × Int :=
    if N₀ < 2 ^ 52 * D then (roundHalfEven (2 * N₀) D, e + k - l - 53)
    else (roundHalfEven N₀ D, e + k - l - 52)
  if r.1 = 2 ^ 53 then (2 ^ 52, r.2 + 1) else (r.1, r.2)

/-- The binary64 value nearest to `± n / d * 2 ^ e`. -/
def Float64.round (negative : Bool) (n d : Nat) (e : Int) : Float64 :=
  if n = 0 then Float64.finite 0 0
  else
    let r := Float64.roundPos n d e
    Float64.finite (if negative then -r.1 else r.1) r.2

/-- The conversion `float64(n)` of an integer. -/
def Float64.ofInt (n : Int) : Float64 :=
  Float64.round (decide (n < 0)) n.natAbs 1 0

/-- The operation `a / b` on `float64`; a zero divisor gives NaN or an infinity. -/
def Float64.div : Float64 → Float64 → Float64
  | Float64.finite a ea, Float64.finite b eb =>
    if b = 0 then Float64.nonFinite
    else Float64.round (decide (a < 0) != decide (b < 0)) a.natAbs b.natAbs (ea - eb)
  | _, _ => Float64.nonFinite

/-- The operation `a * b` on `float64`. -/
def Float64.mul : Float64 → Float64 → Float64
  | Float64.finite a ea, Float64.finite b eb =>
    Float64.round (decide (a < 0) != decide (b < 0)) (a.natAbs * b.natAbs) 1 (ea + eb)
  | _, _ => Float64.nonFinite

/-- The rational number a finite `float64` denotes (0 for a non-finite one). -/
def Float64.toRat : Float64 → ℚ
  | Float64.finite m e => (m : ℚ) * (2 : ℚ) ^ e
  | Float64.nonFinite => 0

/-- The conversion `int(x)` of a `float64` on amd64: truncation toward zero,
and the minimum integer when the value is out of range or not finite. -/
def Float64.toInt : Float64 → Int
  | Float64.finite m e =>
    let t : Int := if 0 ≤ e then m * 2 ^ e.toNat
      else if 0 ≤ m then m / 2 ^ (-e).toNat else -((-m) / 2 ^ (-e).toNat)
    if -(2 ^ 63) ≤ t ∧ t < 2 ^ 63 then t else -(2 ^ 63)
  | Float64.nonFinite => -(2 ^ 63)

/-! ## handlers/kpi.go: types -/

/-- DispositionStats represents disposition statistics. -/
structure DispositionStats where
  Status : String
  Count : Int
  Percentage : Float64
  AvgTalkTime : Float64
  TotalTalkTime : Int
  deriving DecidableEq, Repr

/-- CampaignDispositionStats represents disposition stats for a specific campaign. -/
structure CampaignDispositionStats where
  CampaignID : String
  CampaignName : String
  TotalCalls : Int
  Dispositions : List DispositionStats
  deriving DecidableEq, Repr

/-- A scalar member of a `map[string]interface{}` payload. -/
inductive JsonValue where
  | str (s : String)
  | int (n : Int)
  | bool (b : Bool)
  | null
  deriving DecidableEq, Repr

/-! ## handlers/testcall.go: types -/

/-- The `TestCallEntry` struct of `ListTestCalls`; `CallDate` is kept as the
datetime text of the column. -/
structure TestCallEntry where
  CallerCode : String
  CallDate : String
  Extension : String
  Channel : String
  ServerIP : String
  Status : String
  Response : String
  deriving DecidableEq, Repr

/-! ## models/models.go -/

/-- A `time.Time` instant, as nanoseconds since the zero time. -/
abbrev Time := Int

/-- Lead represents a lead in the system (`models.Lead`). -/
structure Lead where
  LeadID : Int
  ListID : Int
  PhoneNumber : String
  FirstName : String
  LastName : String
  MiddleInitial : String
  Address1 : String
  Address2 : String
  Address3 : String
  City : String
  State : String
  Province : String
  PostalCode : String
  CountryCode : String
  Gender : String
  DateOfBirth : String
  AltPhone : String
  Email : String
  Security : String
  Comments : String
  Status : String
  EntryDate : Time
  ModifyDate : Time
  LastLocalCallTime : Time
  CalledSinceLastRest : String
  CalledCount : Int
  Rank : Int
  Owner : String
  deriving DecidableEq, Repr

/-- The zero value of `models.Lead`, which `json.Decode` fills from the payload. -/
def Lead.zero : Lead :=
  { LeadID := 0, ListID := 0, PhoneNumber := "", FirstName := "", LastName := "",
    MiddleInitial := "", Address1 := "", Address2 := "", Address3 := "", City := "",
    State := "", Province := "", PostalCode := "", CountryCode := "", Gender := "",
    DateOfBirth := "", AltPhone := "", Email := "", Security := "", Comments := "",
    Status := "", EntryDate := 0, ModifyDate := 0, LastLocalCallTime := 0,
    CalledSinceLastRest := "", CalledCount := 0, Rank := 0, Owner := "" }

/-- List represents a call list (`models.List`). -/
structure models.List where
  ListID : Int
  ListName : String
  CampaignID : String
  Active : String
  ListDescription : String
  Script : String
  WebForm : String
  ExpDate : Time
  ListChangeUser : String
  ResetTime : String
  deriving DecidableEq, Repr

set_option linter.dupNamespace false in
/-- User represents a VICIdial user (`models.User`). -/
structure models.User where
  UserID : String
  User : String
  Pass : String
  FullName : String
  UserLevel : Int
  UserGroup : String
  PhoneLogin : String
  PhonePass : String
  Active : String
  Email : String
  CustomOne : String
  CustomTwo : String
  CustomThree : String
  CustomFour : String
  CustomFive : String
  VoicemailID : String
  AgentChooseInGroups : String
  AgentChooseBlended : String
  CloserDefaultBlended : String
  UserStart : Time
  deriving DecidableEq, Repr

/-- The anonymous `callInfo` struct of `CallidInfo`. -/
structure CallInfo where
  UniqueID : String
  LeadID : Int
  ListID : Int
  CampaignID : String
  CallDate : String
  StartEpoch : Int
  EndEpoch : Int
  Length : Int
  Status : String
  PhoneNumber : String
  User : String
  Comments : String
  Processed : String
  UserGroup : String
  TermReason : String
  deriving DecidableEq, Repr

/-- The values handlers put in the `data` field (`interface{}`): a lead, a
`map[string]int` / `map[string]int64`, a `map[string]string`, a
`map[string]interface{}` of scalars (entries in source order; the encoder sorts
the keys), the KPI map with its `count` and `campaigns` entries, the map of
`ListInfo` with its `list` and `lead_count` entries, a user, a call record, a
list, or the map of `ListTestCalls` with its `count` and `calls` entries. -/
inductive Payload where
  | lead (l : Lead)
  | intMap (m : List (String × Int))
  | stringMap (m : List (String × String))
  | object (fields : List (String × JsonValue))
  | kpiCampaigns (count : Int) (campaigns : List CampaignDispositionStats)
  | listInfo (list : models.List) (leadCount : Int)
  | user (u : models.User)
  | callInfo (c : CallInfo)
  | list (l : models.List)
  | testCalls (count : Int) (calls : List TestCallEntry)
  deriving DecidableEq, Repr

/-- A `float64` the JSON encoder accepts: `json.Marshal` fails with an
`UnsupportedValueError` on NaN and on the infinities. -/
def Float64.isFinite : Float64 → Bool
  | Float64.finite _ _ => true
  | Float64.nonFinite => false

/-- Whether `encoding/json` can encode the payload: the only payload with
`float64` members is the KPI map, whose `percentage` and `avg_talk_time` must
be finite. -/
def Payload.encodable : Payload → Bool
  | Payload.kpiCampaigns _ campaigns =>
    campaigns.all fun g => g.Dispositions.all fun d =>
      d.Percentage.isFinite && d.AvgTalkTime.isFinite
  | _ => true

/-- APIResponse represents a standard API response (`models.APIResponse`);
`Data` is `none` for a nil interface. -/
structure APIResponse where
  Success : Bool
  Message : String
  Data : Option Payload
  Error : String
  deriving DecidableEq, Repr

/-- Whether `encoding/json` can encode the response object. -/
def APIResponse.encodable (a : APIResponse) : Bool :=
  match a.Data with
  | some p => p.encodable
  | Option.none => true

/-! ## handlers/handler.go -/

/-- What a handler wrote to the `http.ResponseWriter`: the status code, the
content type, and the object handed to the JSON encoder. `bodyWritten` is false
when the encoder failed: the status line and the headers are sent and the body
is empty. -/
structure Response where
  code : Nat
  contentType : String
  body : APIResponse
  bodyWritten : Bool := true
  deriving DecidableEq, Repr

/-- Mirror of `respondWithJSON`: the header and the status are written first,
then `Encode` writes the body, or nothing when it fails (its error is
discarded). -/
def respondWithJSON (code : Nat) (payload : APIResponse) : Response :=
  { code := code, contentType := "application/json", body := payload,
    bodyWritten := payload.encodable }

/-- Mirror of the handlers' `respondWithError`. -/
def respondWithError (code : Nat) (message : String) : Response :=
  respondWithJSON code { Success := false, Message := "", Data := none, Error := message }

/-- Mirror of `respondWithSuccess`. -/
def respondWithSuccess (message : String) (data : Payload) : Response :=
  respondWithJSON StatusOK { Success := true, Message := message, Data := some data, Error := "" }

/-! ## database/sql as seen by the handlers -/

/-- A bound statement parameter. -/
inductive SqlArg where
  | int (n : Int)
  | str (s : String)
  deriving DecidableEq, Repr

/-- One call into `database/sql`, in program order. -/
inductive DBCall where
  | QueryRow (query : String) (args : List SqlArg)
  | Query (query : String) (args : List SqlArg)
  | Exec (query : String) (args : List SqlArg)
  | Begin
  | TxExec (query : String) (args : List SqlArg)
  | Commit
  | Rollback
  deriving DecidableEq, Repr

/-- The `sql.Result` of a statement: the first return values of `LastInsertId()`
and `RowsAffected()` (the handlers discard the error of both). -/
structure SqlResult where
  LastInsertId : Int
  RowsAffected : Int
  deriving DecidableEq, Repr

/-- Error of `QueryRow(...).Scan(...)`: `sql.ErrNoRows` or any other error. -/
inductive RowError where
  | ErrNoRows
  | other (msg : String)
  deriving DecidableEq, Repr

/-! ## handlers/leads.go: AddLead -/

/-- The statement text of `AddLead`. -/
def addLeadQuery : String :=
  "\n\t\tINSERT INTO vicidial_list (\n\t\t\tlist_id, phone_number, first_name, last_name, middle_initial,\n\t\t\taddress1, address2, address3, city, state, province, postal_code,\n\t\t\tcountry_code, gender, date_of_birth, alt_phone, email, security,\n\t\t\tcomments, status, entry_date, modify_date, rank, owner\n\t\t) VALUES (?, ?, ?, ?, ?, ?, ?, ?, ?, ?, ?, ?, ?, ?, ?, ?, ?, ?, ?, ?, NOW(), NOW(), ?, ?)\n\t"

/-- The parameters `AddLead` binds, in order. -/
def addLeadArgs (lead : Lead) : List SqlArg :=
  [SqlArg.int lead.ListID, SqlArg.str lead.PhoneNumber, SqlArg.str lead.FirstName,
   SqlArg.str lead.LastName, SqlArg.str lead.MiddleInitial, SqlArg.str lead.Address1,
   SqlArg.str lead.Address2, SqlArg.str lead.Address3, SqlArg.str lead.City,
   SqlArg.str lead.State, SqlArg.str lead.Province, SqlArg.str lead.PostalCode,
   SqlArg.str lead.CountryCode, SqlArg.str lead.Gender, SqlArg.str lead.DateOfBirth,
   SqlArg.str lead.AltPhone, SqlArg.str lead.Email, SqlArg.str lead.Security,
   SqlArg.str lead.Comments, SqlArg.str lead.Status, SqlArg.int lead.Rank,
   SqlArg.str lead.Owner]

/-- Mirror of `AddLead`. `exec` is `h.DB.Exec`; `decoded` is the outcome of
`json.NewDecoder(r.Body).Decode(&lead)`: `none` for a decode error, otherwise
the zero lead overwritten by the fields the payload carries. The result is the
response and the statements sent. -/
def AddLead (exec : String → List SqlArg → Except String SqlResult) (decoded : Option Lead) :
    Response × List DBCall :=
  match decoded with
  | none => (respondWithError StatusBadRequest "Invalid request payload", [])
  | some lead =>
    if lead.PhoneNumber = "" ∨ lead.ListID = 0 then
      (respondWithError StatusBadRequest "Phone number and list ID are required", [])
    else
      let lead := if lead.Status = "" then { lead with Status := "NEW" } else lead
      let lead := if lead.CountryCode = "" then { lead with CountryCode := "1" } else lead
      match exec addLeadQuery (addLeadArgs lead) with
      | Except.error err =>
        (respondWithError StatusInternalServerError ("Failed to add lead: " ++ err),
          [DBCall.Exec addLeadQuery (addLeadArgs lead)])
      | Except.ok result =>
        let leadID := result.LastInsertId
        let lead := { lead with LeadID := leadID }
        (respondWithSuccess "Lead added successfully" (Payload.lead lead),
          [DBCall.Exec addLeadQuery (addLeadArgs lead)])

/-- The lead `AddLead` sends to the database: the payload with the two defaults
applied. -/
def leadWithDefaults (lead : Lead) : Lead :=
  { lead with
    Status := if lead.Status = "" then "NEW" else lead.Status
    CountryCode := if lead.CountryCode = "" then "1" else lead.CountryCode }

/-! ## handlers/leads.go: LeadFieldInfo -/

/-- The `validFields` map literal of `LeadFieldInfo`. -/
def validFields : List (String × Bool) :=
  [("phone_number", true), ("first_name", true), ("last_name", true), ("email", true),
   ("status", true), ("comments", true), ("address1", true), ("city", true), ("state", true)]

/-- Indexing a `map[string]bool`: the zero value `false` for an absent key. -/
def mapIndex : List (String × Bool) → String → Bool
  | [], _ => false
  | (k, v) :: rest, key => if k = key then v else mapIndex rest key

/-- Mirror of `LeadFieldInfo`. `leadID` is `mux.Vars(r)["lead_id"]`, `field` is
`r.URL.Query().Get("field")`, `queryRow` is `h.DB.QueryRow(...).Scan(&value)`. -/
def LeadFieldInfo (queryRow : String → List SqlArg → Except RowError String)
    (leadID field : String) : Response × List DBCall :=
  if field = "" then
    (respondWithError StatusBadRequest "Field parameter is required", [])
  else if !(mapIndex validFields field) then
    (respondWithError StatusBadRequest "Invalid field name", [])
  else
    let query := "SELECT " ++ field ++ " FROM vicidial_list WHERE lead_id = ?"
    match queryRow query [SqlArg.str leadID] with
    | Except.error RowError.ErrNoRows =>
      (respondWithError StatusNotFound "Lead not found",
        [DBCall.QueryRow query [SqlArg.str leadID]])
    | Except.error (RowError.other msg) =>
      (respondWithError StatusInternalServerError ("Failed to retrieve field: " ++ msg),
        [DBCall.QueryRow query [SqlArg.str leadID]])
    | Except.ok value =>
      (respondWithSuccess "Field retrieved" (Payload.stringMap [(field, value)]),
        [DBCall.QueryRow query [SqlArg.str leadID]])

/-- The nine field names the specification lists as allowed. -/
def allowListedFields : List String :=
  ["phone_number", "first_name", "last_name", "email", "status", "comments", "address1",
   "city", "state"]

/-! ## The tables behind the transactional handlers

`HopperBulkInsert` and `LeadDearchive` run several statements in one
`database/sql` transaction. Their statements are given the meaning MySQL gives
them on a transactional storage engine: `Begin` opens a working copy, the
statements act on the working copy, `Commit` publishes it and `Rollback`
discards it. The schema is owned by the dialer platform and is not part of the
repository, so what depends on it is a parameter (`Engine`). Driver failures
(lost connection, timeout, lock wait) are scripted by `Faults`. Column
coercions on insert (width, range) are not modelled: a stored row holds the
values that were bound. -/

/-- A row of `vicidial_list` or `vicidial_list_archive`: the columns the
handlers name, and the remaining columns in table order. -/
structure ListRow where
  lead_id : Int
  list_id : Int
  phone_number : String
  other : List String
  deriving DecidableEq, Repr

/-- A row of `vicidial_hopper`: the columns the bulk insert writes (the other
columns take their schema defaults). -/
structure HopperRow where
  lead_id : Int
  campaign_id : String
  status : String
  priority : Int
  source : String
  list_id : Int
  deriving DecidableEq, Repr

/-- The three tables the transactional handlers touch. -/
structure DB where
  vicidial_list : List ListRow
  vicidial_list_archive : List ListRow
  vicidial_hopper : List HopperRow
  deriving DecidableEq, Repr

/-- What the externally owned schema and the server decide. -/
structure Engine where
  /-- Comparison `lead_id = ?` of the integer column with a bound string. -/
  intEqString : Int → String → Bool
  /-- A row violates a primary or unique key of `vicidial_list`. -/
  listKeyClash : ListRow → List ListRow → Bool
  /-- A row violates a primary or unique key of `vicidial_hopper`. -/
  hopperKeyClash : HopperRow → List HopperRow → Bool

/-- Driver-level failures of one request: of the row lookup, of `Begin`, of the
n-th `tx.Exec` (counted from 0) and of `Commit`. `none` means the call goes
through. -/
structure Faults where
  queryRow : Option String
  beginTx : Option String
  exec : Nat → Option String
  commit : Option String

/-- No driver failure at all. -/
def Faults.none : Faults :=
  { queryRow := Option.none, beginTx := Option.none, exec := fun _ => Option.none,
    commit := Option.none }

/-- What a handler run did: the response written, the committed database after
the run, and the `database/sql` calls it made. -/
structure HandlerRun where
  response : Response
  db : DB
  calls : List DBCall
  deriving DecidableEq, Repr

/-- The database after `tx.Commit()`: the working copy, or the state at `Begin`
when the commit fails. -/
def commitTx (faults : Faults) (db working : DB) : DB :=
  match faults.commit with
  | some _ => db
  | Option.none => working

/-! ## handlers/campaigns.go: HopperBulkInsert -/

/-- The decoded request body of `HopperBulkInsert`. -/
structure HopperRequest where
  LeadIDs : List Int
  Priority : Int
  Source : String
  deriving DecidableEq, Repr

/-- The statement text `insertStmt`. -/
def insertStmt : String :=
  "\n\t\tINSERT IGNORE INTO vicidial_hopper (lead_id, campaign_id, status, priority, source, list_id)\n\t\tSELECT lead_id, ?, 'READY', ?, ?, list_id FROM vicidial_list WHERE lead_id = ?\n\t"

/-- Rows inserted one after the other under `INSERT IGNORE`: a row that clashes
with a key is skipped. Returns the table and the number of rows inserted. -/
def insertIgnore (eng : Engine) : List HopperRow → List HopperRow → List HopperRow × Int
  | table, [] => (table, 0)
  | table, row :: rest =>
    if eng.hopperKeyClash row table then insertIgnore eng table rest
    else
      let out := insertIgnore eng (table ++ [row]) rest
      (out.1, out.2 + 1)

/-- Meaning of `insertStmt` bound to `(campaignID, priority, source, leadID)`:
one hopper row per `vicidial_list` row with that lead id. -/
def execHopperInsert (eng : Engine) (w : DB) (campaignID : String) (priority : Int)
    (source : String) (leadID : Int) : DB × SqlResult :=
  let selected := (w.vicidial_list.filter fun row => row.lead_id = leadID).map fun row =>
    ({ lead_id := row.lead_id, campaign_id := campaignID, status := "READY",
       priority := priority, source := source, list_id := row.list_id } : HopperRow)
  let out := insertIgnore eng w.vicidial_hopper selected
  ({ w with vicidial_hopper := out.1 }, { LastInsertId := 0, RowsAffected := out.2 })

/-- The call `tx.Exec(insertStmt, campaignID, req.Priority, req.Source, leadID)`. -/
def hopperExecCall (campaignID : String) (priority : Int) (source : String) (leadID : Int) :
    DBCall :=
  DBCall.TxExec insertStmt
    [SqlArg.str campaignID, SqlArg.int priority, SqlArg.str source, SqlArg.int leadID]

/-- The `for _, leadID := range req.LeadIDs` loop of `HopperBulkInsert`, from
the k-th statement of the transaction on, with working copy `w`, running
`insertCount` and call trace `tr`. An error carries the driver's message. -/
def hopperInsertLoop (eng : Engine) (faults : Faults) (campaignID : String) (priority : Int)
    (source : String) :
    List Int → Nat → DB → Int → List DBCall → Except (String × List DBCall) (DB × Int × List DBCall)
  | [], _, w, insertCount, tr => Except.ok (w, insertCount, tr)
  | leadID :: rest, k, w, insertCount, tr =>
    match faults.exec k with
    | some err => Except.error (err, tr ++ [hopperExecCall campaignID priority source leadID])
    | Option.none =>
      let out := execHopperInsert eng w campaignID priority source leadID
      let rows := out.2.RowsAffected
      hopperInsertLoop eng faults campaignID priority source rest (k + 1) out.1
        (insertCount + rows) (tr ++ [hopperExecCall campaignID priority source leadID])

/-- Mirror of `HopperBulkInsert`. `campaignID` is `mux.Vars(r)["campaign_id"]`,
`decoded` the outcome of decoding the body (`none` for a decode error). -/
def HopperBulkInsert (eng : Engine) (faults : Faults) (db : DB) (campaignID : String)
    (decoded : Option HopperRequest) : HandlerRun :=
  match decoded with
  | Option.none =>
    { response := respondWithError StatusBadRequest "Invalid request payload", db := db,
      calls := [] }
  | some req =>
    if req.LeadIDs.length = 0 then
      { response := respondWithError StatusBadRequest "No lead IDs provided", db := db,
        calls := [] }
    else
      let req := if req.Source = "" then { req with Source := "API" } else req
      match faults.beginTx with
      | some _ =>
        { response := respondWithError StatusInternalServerError "Failed to start transaction",
          db := db, calls := [DBCall.Begin] }
      | Option.none =>
        match hopperInsertLoop eng faults campaignID req.Priority req.Source req.LeadIDs 0 db 0
            [DBCall.Begin] with
        | Except.error (err, tr) =>
          { response := respondWithError StatusInternalServerError
              ("Failed to insert lead: " ++ err),
            db := db, calls := tr ++ [DBCall.Rollback] }
        | Except.ok (w, insertCount, tr) =>
          { response := respondWithSuccess "Leads inserted to hopper"
              (Payload.intMap [("requested", (req.LeadIDs.length : Int)),
                ("inserted", insertCount)]),
            db := commitTx faults db w, calls := tr ++ [DBCall.Commit] }

/-! ## handlers/leads.go: LeadDearchive -/

/-- The lookup statement of `LeadDearchive`. -/
def dearchiveLookupQuery : String :=
  "SELECT lead_id, list_id, phone_number FROM vicidial_list_archive WHERE lead_id = ?"

/-- The copy statement of `LeadDearchive`. -/
def dearchiveInsertStmt : String :=
  "INSERT INTO vicidial_list SELECT * FROM vicidial_list_archive WHERE lead_id = ?"

/-- The delete statement of `LeadDearchive`. -/
def dearchiveDeleteStmt : String :=
  "DELETE FROM vicidial_list_archive WHERE lead_id = ?"

/-- Meaning of `QueryRow(dearchiveLookupQuery, leadID).Scan(...)`: the driver's
error, `ErrNoRows` when no archive row matches, else the first matching row
scanned into a zero lead. -/
def dearchiveLookup (eng : Engine) (faults : Faults) (db : DB) (leadID : String) :
    Except RowError Lead :=
  match faults.queryRow with
  | some err => Except.error (RowError.other err)
  | Option.none =>
    match db.vicidial_list_archive.filter fun row => eng.intEqString row.lead_id leadID with
    | [] => Except.error RowError.ErrNoRows
    | row :: _ =>
      Except.ok { Lead.zero with LeadID := row.lead_id, ListID := row.list_id,
                                 PhoneNumber := row.phone_number }

/-- Rows inserted one after the other by a plain `INSERT`: a key clash fails
the statement, which then inserts nothing. -/
def insertAll (eng : Engine) : List ListRow → List ListRow → Option (List ListRow)
  | table, [] => some table
  | table, row :: rest =>
    if eng.listKeyClash row table then Option.none else insertAll eng (table ++ [row]) rest

/-- Meaning of `dearchiveInsertStmt`: the matching archive rows are appended to
`vicidial_list`; `none` when the server rejects the statement. -/
def execDearchiveInsert (eng : Engine) (w : DB) (leadID : String) : Option DB :=
  match insertAll eng w.vicidial_list
      (w.vicidial_list_archive.filter fun row => eng.intEqString row.lead_id leadID) with
  | Option.none => Option.none
  | some table => some { w with vicidial_list := table }

/-- Meaning of `dearchiveDeleteStmt`: the matching archive rows are removed. -/
def execDearchiveDelete (eng : Engine) (w : DB) (leadID : String) : DB :=
  { w with vicidial_list_archive :=
      w.vicidial_list_archive.filter fun row => !(eng.intEqString row.lead_id leadID) }

/-- Mirror of `LeadDearchive`. `leadID` is `mux.Vars(r)["lead_id"]`. Only
`sql.ErrNoRows` stops the handler after the lookup; with any other lookup error
it goes on with a zero `archivedLead`. -/
def LeadDearchive (eng : Engine) (faults : Faults) (db : DB) (leadID : String) : HandlerRun :=
  let q := DBCall.QueryRow dearchiveLookupQuery [SqlArg.str leadID]
  match dearchiveLookup eng faults db leadID with
  | Except.error RowError.ErrNoRows =>
    { response := respondWithError StatusNotFound "Archived lead not found", db := db,
      calls := [q] }
  | lookup =>
    let archivedLead := match lookup with
      | Except.ok lead => lead
      | Except.error _ => Lead.zero
    match faults.beginTx with
    | some _ =>
      { response := respondWithError StatusInternalServerError "Failed to start transaction",
        db := db, calls := [q, DBCall.Begin] }
    | Option.none =>
      let ins := DBCall.TxExec dearchiveInsertStmt [SqlArg.str leadID]
      let del := DBCall.TxExec dearchiveDeleteStmt [SqlArg.str leadID]
      match faults.exec 0, execDearchiveInsert eng db leadID with
      | Option.none, some w₁ =>
        match faults.exec 1 with
        | some _ =>
          { response := respondWithError StatusInternalServerError
              "Failed to remove from archive",
            db := db, calls := [q, DBCall.Begin, ins, del, DBCall.Rollback] }
        | Option.none =>
          let w₂ := execDearchiveDelete eng w₁ leadID
          { response := respondWithSuccess "Lead restored successfully"
              (Payload.intMap [("lead_id", archivedLead.LeadID)]),
            db := commitTx faults db w₂,
            calls := [q, DBCall.Begin, ins, del, DBCall.Commit] }
      | _, _ =>
        { response := respondWithError StatusInternalServerError "Failed to restore lead",
          db := db, calls := [q, DBCall.Begin, ins, DBCall.Rollback] }

/-! ## Go library functions the handlers call -/

/-- Mirror of `unicode.IsSpace`. -/
def isSpace (c : Char) : Bool :=
  let n := c.toNat
  (9 ≤ n && n ≤ 13) || n == 32 || n == 133 || n == 160 || n == 5760 ||
    (8192 ≤ n && n ≤ 8202) || n == 8232 || n == 8233 || n == 8239 || n == 8287 || n == 12288

/-- Mirror of `strings.TrimSpace`: leading and trailing white space removed. -/
def TrimSpace (s : String) : String :=
  String.mk ((((s.data.dropWhile isSpace).reverse).dropWhile isSpace).reverse)

/-- One list of characters starts with another. -/
def startsWith : List Char → List Char → Bool
  | _, [] => true
  | [], _ :: _ => false
  | c :: cs, p :: ps => c == p && startsWith cs ps

/-- One list of characters occurs inside another. -/
def containsChars : List Char → List Char → Bool
  | [], sub => sub.isEmpty
  | c :: cs, sub => startsWith (c :: cs) sub || containsChars cs sub

/-- Mirror of `strings.Contains`. -/
def Contains (s substr : String) : Bool :=
  containsChars s.data substr.data

/-- Mirror of `strings.Split(s, sep)[0]` for a one-character separator: the
text before the first separator, the whole string when there is none. -/
def splitFirst (s : String) (sep : Char) : String :=
  String.mk (s.data.takeWhile fun c => c != sep)

/-- Mirror of `strings.ToUpper` on the ASCII letters (other letters are left
alone, which does not change a comparison with an ASCII string). -/
def ToUpper (s : String) : String :=
  String.mk (s.data.map Char.toUpper)

/-- The number a list of decimal digits denotes, most significant first. -/
def digitsValue (ds : List Char) : Nat :=
  ds.foldl (fun n c => n * 10 + (c.toNat - 48)) 0

/-- Mirror of `strconv.Atoi`: the value and whether the error is nil. A
syntax error gives 0; a value outside the 64-bit range gives the nearest bound
together with an error. -/
def Atoi (s : String) : Int × Bool :=
  let signed : Bool × List Char := match s.data with
    | '-' :: rest => (true, rest)
    | '+' :: rest => (false, rest)
    | cs => (false, cs)
  if signed.2.isEmpty || !(signed.2.all Char.isDigit) then (0, false)
  else
    let n : Int := (digitsValue signed.2 : Int)
    let v : Int := if signed.1 then -n else n
    if 2 ^ 63 - 1 < v then (2 ^ 63 - 1, false)
    else if v < -(2 ^ 63) then (-(2 ^ 63), false)
    else (v, true)

/-- Mirror of `len(s)`: the length of the string in bytes. -/
def len (s : String) : Nat := s.utf8ByteSize

/-- Mirror of `sql.NullString`. -/
structure NullString where
  String : String
  Valid : Bool
  deriving DecidableEq, Repr

/-- The zero `sql.NullString` (what a variable holds when no scan filled it). -/
def NullString.zero : NullString := { String := "", Valid := false }

/-- Mirror of `error.Error()` for the error of a row lookup. -/
def RowError.Error : RowError → String
  | RowError.ErrNoRows => "sql: no rows in result set"
  | RowError.other msg => msg

/-! ## Point lookups: LeadAllInfo, ListInfo, UserDetails, CallidInfo -/

/-- The statement text of `LeadAllInfo`. -/
def leadAllInfoQuery : String :=
  "\n\t\tSELECT lead_id, list_id, phone_number, first_name, last_name, middle_initial,\n\t\t\t   address1, address2, address3, city, state, province, postal_code,\n\t\t\t   country_code, gender, date_of_birth, alt_phone, email, security,\n\t\t\t   comments, status, entry_date, modify_date, called_count, rank, owner\n\t\tFROM vicidial_list WHERE lead_id = ?\n\t"

/-- Mirror of `LeadAllInfo`. `leadIDVar` is `mux.Vars(r)["lead_id"]`; `queryRow`
is `h.DB.QueryRow(query, leadID).Scan(...)` into a lead. -/
def LeadAllInfo (queryRow : String → List SqlArg → Except RowError Lead) (leadIDVar : String) :
    Response × List DBCall :=
  let parsed := Atoi leadIDVar
  if !parsed.2 then (respondWithError StatusBadRequest "Invalid lead ID", [])
  else
    let leadID := parsed.1
    let call := DBCall.QueryRow leadAllInfoQuery [SqlArg.int leadID]
    match queryRow leadAllInfoQuery [SqlArg.int leadID] with
    | Except.error RowError.ErrNoRows => (respondWithError StatusNotFound "Lead not found", [call])
    | Except.error (RowError.other msg) =>
      (respondWithError StatusInternalServerError ("Failed to retrieve lead: " ++ msg), [call])
    | Except.ok lead => (respondWithSuccess "Lead information retrieved" (Payload.lead lead), [call])

/-- The statement text of `ListInfo`. -/
def listInfoQuery : String :=
  "\n\t\tSELECT list_id, list_name, campaign_id, active, list_description, script, web_form\n\t\tFROM vicidial_lists WHERE list_id = ?\n\t"

/-- Mirror of `ListInfo`. `listID` is `mux.Vars(r)["list_id"]`; `queryRow` is the
list lookup, `countRow` the lead count lookup, whose error the handler ignores
(the count is then 0). -/
def ListInfo (queryRow : String → List SqlArg → Except RowError models.List)
    (countRow : String → List SqlArg → Except RowError Int) (listID : String) :
    Response × List DBCall :=
  let call := DBCall.QueryRow listInfoQuery [SqlArg.str listID]
  match queryRow listInfoQuery [SqlArg.str listID] with
  | Except.error RowError.ErrNoRows => (respondWithError StatusNotFound "List not found", [call])
  | Except.error (RowError.other msg) =>
    (respondWithError StatusInternalServerError ("Failed to retrieve list: " ++ msg), [call])
  | Except.ok list =>
    let countQuery := "SELECT COUNT(*) FROM vicidial_list WHERE list_id = ?"
    let leadCount : Int := match countRow countQuery [SqlArg.str listID] with
      | Except.ok n => n
      | Except.error _ => 0
    (respondWithSuccess "List retrieved" (Payload.listInfo list leadCount),
      [call, DBCall.QueryRow countQuery [SqlArg.str listID]])

/-- The statement text of `UserDetails`. -/
def userDetailsQuery : String :=
  "\n\t\tSELECT user, full_name, user_level, user_group, phone_login, active, email,\n\t\t\t   custom_one, custom_two, custom_three, custom_four, custom_five\n\t\tFROM vicidial_users WHERE user = ?\n\t"

/-- Mirror of `UserDetails`. `userID` is `mux.Vars(r)["user_id"]`. -/
def UserDetails (queryRow : String → List SqlArg → Except RowError models.User)
    (userID : String) : Response × List DBCall :=
  let call := DBCall.QueryRow userDetailsQuery [SqlArg.str userID]
  match queryRow userDetailsQuery [SqlArg.str userID] with
  | Except.error RowError.ErrNoRows => (respondWithError StatusNotFound "User not found", [call])
  | Except.error (RowError.other msg) =>
    (respondWithError StatusInternalServerError ("Failed to retrieve user: " ++ msg), [call])
  | Except.ok user => (respondWithSuccess "User details retrieved" (Payload.user user), [call])

/-- The first statement text of `CallidInfo` (table `vicidial_log`). -/
def callidInfoQuery : String :=
  "\n\t\tSELECT uniqueid, lead_id, list_id, campaign_id, call_date,\n\t\t\t   start_epoch, end_epoch, length_in_sec, status, phone_number,\n\t\t\t   user, comments, processed, user_group, term_reason\n\t\tFROM vicidial_log WHERE uniqueid = ?\n\t"

/-- The second statement text of `CallidInfo` (table `vicidial_closer_log`). -/
def callidInfoCloserQuery : String :=
  "\n\t\t\tSELECT closecallid as uniqueid, lead_id, list_id, campaign_id, call_date,\n\t\t\t\t   start_epoch, end_epoch, length_in_sec, status, phone_number,\n\t\t\t\t   user, comments, queue_seconds, user_group, term_reason\n\t\t\tFROM vicidial_closer_log WHERE closecallid = ?\n\t\t"

/-- Mirror of `CallidInfo`. `callID` is `mux.Vars(r)["call_id"]`. The second
lookup runs only when the first finds no row; it scans `queue_seconds` into a
local variable, so `Processed` keeps its zero value. -/
def CallidInfo (queryRow : String → List SqlArg → Except RowError CallInfo) (callID : String) :
    Response × List DBCall :=
  let first := DBCall.QueryRow callidInfoQuery [SqlArg.str callID]
  let second := DBCall.QueryRow callidInfoCloserQuery [SqlArg.str callID]
  match queryRow callidInfoQuery [SqlArg.str callID] with
  | Except.error RowError.ErrNoRows =>
    match queryRow callidInfoCloserQuery [SqlArg.str callID] with
    | Except.error RowError.ErrNoRows =>
      (respondWithError StatusNotFound "Call ID not found", [first, second])
    | Except.error (RowError.other msg) =>
      (respondWithError StatusInternalServerError ("Failed to retrieve call info: " ++ msg),
        [first, second])
    | Except.ok callInfo =>
      (respondWithSuccess "Call information retrieved"
        (Payload.callInfo { callInfo with Processed := "" }), [first, second])
  | Except.error (RowError.other msg) =>
    (respondWithError StatusInternalServerError ("Failed to retrieve call info: " ++ msg), [first])
  | Except.ok callInfo =>
    (respondWithSuccess "Call information retrieved" (Payload.callInfo callInfo), [first])

/-! ## handlers/testcall.go: SendTestCall -/

/-- The instant `time.Now()` returns, as its local calendar fields. -/
structure Clock where
  year : Nat
  month : Nat
  day : Nat
  hour : Nat
  minute : Nat
  second : Nat
  deriving DecidableEq, Repr

/-- A number in decimal, zero-padded on the left to at least `width` digits. -/
def zeroPad (width n : Nat) : List Char :=
  List.replicate (width - (Nat.repr n).data.length) '0' ++ (Nat.repr n).data

/-- The hour on the 12-hour clock. -/
def hour12 (h : Nat) : Nat :=
  if h % 12 = 0 then 12 else h % 12

/-- Mirror of `Time.Format` for layouts built from the numeric reference
elements (`2006`, `01`, `02`, `03`, `04`, `05`, `06`, `15`, `1`, `2`, `3`, `4`,
`5`) and literal text; the layout is read left to right as `nextStdChunk` does.
Month and weekday names, AM/PM, zones and fractional seconds are not modelled. -/
def formatLayout : List Char → Clock → List Char
  | [], _ => []
  | '2' :: '0' :: '0' :: '6' :: rest, t => zeroPad 4 t.year ++ formatLayout rest t
  | '0' :: '1' :: rest, t => zeroPad 2 t.month ++ formatLayout rest t
  | '0' :: '2' :: rest, t => zeroPad 2 t.day ++ formatLayout rest t
  | '0' :: '3' :: rest, t => zeroPad 2 (hour12 t.hour) ++ formatLayout rest t
  | '0' :: '4' :: rest, t => zeroPad 2 t.minute ++ formatLayout rest t
  | '0' :: '5' :: rest, t => zeroPad 2 t.second ++ formatLayout rest t
  | '0' :: '6' :: rest, t => zeroPad 2 (t.year % 100) ++ formatLayout rest t
  | '1' :: '5' :: rest, t => zeroPad 2 t.hour ++ formatLayout rest t
  | '1' :: rest, t => zeroPad 1 t.month ++ formatLayout rest t
  | '2' :: rest, t => zeroPad 1 t.day ++ formatLayout rest t
  | '3' :: rest, t => zeroPad 1 (hour12 t.hour) ++ formatLayout rest t
  | '4' :: rest, t => zeroPad 1 t.minute ++ formatLayout rest t
  | '5' :: rest, t => zeroPad 1 t.second ++ formatLayout rest t
  | c :: rest, t => c :: formatLayout rest t

/-- Mirror of `now.Format(layout)`. -/
def Clock.Format (t : Clock) (layout : String) : String :=
  String.mk (formatLayout layout.data t)

/-- Mirror of `fmt.Sprintf("%010d", n)`: sign, then zeros up to a total width
of 10, then the digits. -/
def sprintfD010 (n : Int) : String :=
  let digits := (Nat.repr n.natAbs).data
  let sign : List Char := if n < 0 then ['-'] else []
  String.mk (sign ++ List.replicate (10 - (sign.length + digits.length)) '0' ++ digits)

/-- Mirror of `fmt.Sprintf("%d", n)`. -/
def sprintfD (n : Int) : String :=
  if n < 0 then "-" ++ Nat.repr n.natAbs else Nat.repr n.natAbs

/-- The decoded request body of `SendTestCall`. -/
structure TestCallRequest where
  CampaignID : String
  PhoneNumber : String
  PhoneCode : String
  User : String
  VdadExten : String
  ServerIP : String
  deriving DecidableEq, Repr

/-- The variables the campaign lookup scans into. -/
structure CampaignScan where
  campaignName : String
  dialPrefix : String
  campaignCID : String
  dialTimeout : Int
  omitPhoneCode : NullString
  campaignVdadExten : NullString
  manualDialListID : Int
  extContext : String
  active : String
  userGroup : String
  deriving DecidableEq, Repr

/-- The variables the server lookup scans into. -/
structure ServerScan where
  serverIP : String
  serverExtContext : NullString
  answerTransferAgent : NullString
  asteriskVersion : String
  routingPrefix : String
  serverID : String
  deriving DecidableEq, Repr

/-- The database as `SendTestCall` uses it: the row lookups with the values
their `Scan` stores, and `Exec`. `serverPartial` is what a failing `Scan` of the
first server lookup has already stored in `serverExtContext` and
`answerTransferAgent` (the zero values when it fails before storing them, as it
does when no row is found or the statement is refused); it is all the handler
reads of a failed lookup. -/
structure TestCallDB where
  campaign : String → List SqlArg → Except RowError CampaignScan
  server : String → List SqlArg → Except RowError ServerScan
  list : String → List SqlArg → Except RowError (NullString × NullString)
  exec : String → List SqlArg → Except String SqlResult
  serverPartial : String → List SqlArg → NullString × NullString :=
    fun _ _ => (NullString.zero, NullString.zero)

def campaignQuery : String :=
  "\n\t\tSELECT campaign_name, dial_prefix, campaign_cid, dial_timeout,\n\t\t       omit_phone_code, campaign_vdad_exten, manual_dial_list_id,\n\t\t       ext_context, active, user_group\n\t\tFROM vicidial_campaigns\n\t\tWHERE campaign_id = ?\n\t"

def campaignFallbackQuery : String :=
  "\n\t\t\t\tSELECT campaign_name, dial_prefix, campaign_cid, dial_timeout,\n\t\t\t\t       omit_phone_code, campaign_vdad_exten, manual_dial_list_id,\n\t\t\t\t       active, user_group\n\t\t\t\tFROM vicidial_campaigns\n\t\t\t\tWHERE campaign_id = ?\n\t\t\t"

/-- The text `fmt.Sprintf(serverInfoQuery, serverWhere)`. -/
def serverInfoQuery (serverWhere : String) : String :=
  "\n\t\tSELECT server_ip, ext_context, answer_transfer_agent, asterisk_version, routing_prefix, server_id\n\t\tFROM servers\n\t\tWHERE " ++ serverWhere ++ "\n\t\tLIMIT 1\n\t"

/-- The text `fmt.Sprintf(fallbackQuery, serverWhere)` of the server lookup. -/
def serverFallbackQuery (serverWhere : String) : String :=
  "\n\t\t\tSELECT server_ip, asterisk_version, routing_prefix, server_id\n\t\t\tFROM servers\n\t\t\tWHERE " ++ serverWhere ++ "\n\t\t\tLIMIT 1\n\t\t"

def leadQuery : String :=
  "\n\t\tINSERT INTO vicidial_list SET\n\t\tphone_code=?, phone_number=?, list_id=?, status='CTCALL',\n\t\tuser='VDAD', called_since_last_reset='Y', entry_date=?,\n\t\tlast_local_call_time=?, called_count='1', first_name='Test',\n\t\tlast_name='Call', address1='Test Call', address2='2', address3='3',\n\t\tcity='Springfield', state='IL', vendor_lead_code='999999',\n\t\tcomments=?, rank='99', owner='Test Outbound Call'\n\t"

def listQuery : String :=
  "SELECT campaign_cid_override, cid_group_id FROM vicidial_lists WHERE list_id = ?"

def managerQuery : String :=
  "\n\t\tINSERT INTO vicidial_manager\n\t\t(uniqueid, entry_date, status, response, server_ip, channel, action,\n\t\t callerid, cmd_line_b, cmd_line_c, cmd_line_d, cmd_line_e, cmd_line_f,\n\t\t cmd_line_g, cmd_line_k)\n\t\tVALUES ('', ?, 'NEW', 'N', ?, '', 'Originate', ?, ?, ?, ?, ?, ?, ?, ?)\n\t"

def autoCallQuery : String :=
  "\n\t\tINSERT INTO vicidial_auto_calls\n\t\t(server_ip, campaign_id, status, lead_id, callerid, phone_code,\n\t\t phone_number, call_time, call_type, alt_dial, queue_priority)\n\t\tVALUES (?, ?, 'SENT', ?, ?, ?, ?, ?, 'OUT', 'MAIN', '99')\n\t"

def dialLogQuery : String :=
  "\n\t\tINSERT INTO vicidial_dial_log SET\n\t\tcaller_code=?, lead_id=?, server_ip=?, call_date=?, extension=?,\n\t\tchannel=?, timeout=?, outbound_cid=?, context=?\n\t"

def cidLogQuery : String :=
  "\n\t\tINSERT INTO vicidial_dial_cid_log SET\n\t\tcaller_code=?, call_date=?, call_type='MANUAL', call_alt='MAIN',\n\t\toutbound_cid=?, outbound_cid_type='CAMPAIGN_TEST'\n\t"

def userDialLogQuery : String :=
  "\n\t\tINSERT INTO vicidial_user_dial_log SET\n\t\tcaller_code=?, user=?, call_date=?, call_type='M',\n\t\tnotes='API test call CAMPAIGN_TEST'\n\t"

def userCallLogQuery : String :=
  "\n\t\tINSERT INTO user_call_log\n\t\t(user, call_date, call_type, server_ip, phone_number, number_dialed,\n\t\t lead_id, callerid, group_alias_id, preset_name)\n\t\tVALUES (?, ?, 'API', ?, ?, ?, ?, ?, '', '')\n\t"

/-- The campaign lookup of `SendTestCall` (source lines 56-89): the ten-column
query, and the nine-column fallback when the error text names the missing
`ext_context` column. The result is the final `err`, the scanned variables and
the calls made. -/
def testCallCampaignLookup (db : TestCallDB) (campaignID : String) :
    Except RowError CampaignScan × List DBCall :=
  let args := [SqlArg.str campaignID]
  match db.campaign campaignQuery args with
  | Except.ok row => (Except.ok row, [DBCall.QueryRow campaignQuery args])
  | Except.error err =>
    if Contains err.Error "Unknown column 'ext_context'" then
      match db.campaign campaignFallbackQuery args with
      | Except.ok row =>
        (Except.ok { row with extContext := "" },
          [DBCall.QueryRow campaignQuery args, DBCall.QueryRow campaignFallbackQuery args])
      | Except.error err₂ =>
        (Except.error err₂,
          [DBCall.QueryRow campaignQuery args, DBCall.QueryRow campaignFallbackQuery args])
    else (Except.error err, [DBCall.QueryRow campaignQuery args])

/-- The server lookup of `SendTestCall` (source lines 100-135): the six-column
query, and on any error the four-column fallback, whose `Scan` stores the other
four variables and leaves `serverExtContext` and `answerTransferAgent` as the
failed first `Scan` left them (`db.serverPartial`). `serverIP` is the trimmed
`req.ServerIP`. -/
def testCallServerLookup (db : TestCallDB) (serverIP : String) :
    Except RowError ServerScan × List DBCall :=
  let serverWhere := if serverIP ≠ "" then "server_ip = ?" else "active = 'Y'"
  let args : List SqlArg := if serverIP ≠ "" then [SqlArg.str serverIP] else []
  match db.server (serverInfoQuery serverWhere) args with
  | Except.ok row => (Except.ok row, [DBCall.QueryRow (serverInfoQuery serverWhere) args])
  | Except.error _ =>
    match db.server (serverFallbackQuery serverWhere) args with
    | Except.ok row =>
      (Except.ok { row with
          serverExtContext := (db.serverPartial (serverInfoQuery serverWhere) args).1,
          answerTransferAgent := (db.serverPartial (serverInfoQuery serverWhere) args).2 },
        [DBCall.QueryRow (serverInfoQuery serverWhere) args,
         DBCall.QueryRow (serverFallbackQuery serverWhere) args])
    | Except.error err =>
      (Except.error err,
        [DBCall.QueryRow (serverInfoQuery serverWhere) args,
         DBCall.QueryRow (serverFallbackQuery serverWhere) args])

/-- The values `SendTestCall` derives between the list lookup and the insert
into `vicidial_manager` (source lines 168-268), under the names of the source. -/
structure TestCallPlan where
  asteriskVersion : String
  serverID : String
  localOutPrefix : String
  localDialTimeout : Int
  localDialTimeoutMS : Int
  vdadDialExten : String
  nDialString : String
  extContext : String
  padLeadID : String
  vQueryCID : String
  ccid : String
  cidString : String
  channel : String
  cmdLineB : String
  cmdLineC : String
  cmdLineD : String
  cmdLineE : String
  cmdLineF : String
  cmdLineG : String
  cmdLineK : String
  deriving DecidableEq, Repr

/-- Source lines 168-268 of `SendTestCall`. `req` is the request after the
defaults for `PhoneCode` and `User`; `leadID` the id of the inserted test lead;
`campaignCIDOverride` what the list lookup stored; `cidDate` the date stamp. -/
def testCallPlan (req : TestCallRequest) (camp : CampaignScan) (srv : ServerScan) (leadID : Int)
    (campaignCIDOverride : NullString) (cidDate : String) : TestCallPlan :=
  let asteriskVersion := if srv.asteriskVersion = "" then "11" else srv.asteriskVersion
  let serverID := if srv.serverID = "" then srv.serverIP else srv.serverID
  let localOutPrefix := "9"
  let localDialTimeout : Int := 60
  let localDialTimeout := if camp.dialTimeout > 4 then camp.dialTimeout else localDialTimeout
  let localDialTimeoutMS := wrapInt64 (localDialTimeout * 1000)
  let localOutPrefix :=
    if len camp.dialPrefix > 0 && !(Contains camp.dialPrefix "x") then camp.dialPrefix
    else if Contains camp.dialPrefix "x" then ""
    else localOutPrefix
  let reqVdadExten := TrimSpace req.VdadExten
  let extContext := TrimSpace camp.extContext
  let vdadDialExten := "8368"
  let vdadDialExten :=
    if srv.answerTransferAgent.Valid && len (TrimSpace srv.answerTransferAgent.String) > 0 then
      TrimSpace srv.answerTransferAgent.String
    else vdadDialExten
  let vdadDialExten :=
    if len reqVdadExten > 0 then reqVdadExten
    else if camp.campaignVdadExten.Valid && len (TrimSpace camp.campaignVdadExten.String) > 0 then
      TrimSpace camp.campaignVdadExten.String
    else vdadDialExten
  let majorVersionStr := splitFirst asteriskVersion '.'
  let majorVersion := (Atoi majorVersionStr).1
  let vdadDialExten :=
    if majorVersion ≥ 12 && len srv.routingPrefix > 0 then srv.routingPrefix ++ vdadDialExten
    else vdadDialExten
  let nDialString :=
    if camp.omitPhoneCode.Valid && ToUpper camp.omitPhoneCode.String = "Y" then
      localOutPrefix ++ req.PhoneNumber
    else localOutPrefix ++ req.PhoneCode ++ req.PhoneNumber
  let extContext :=
    if srv.serverExtContext.Valid && len (TrimSpace srv.serverExtContext.String) > 0 then
      TrimSpace srv.serverExtContext.String
    else extContext
  let extContext := if len extContext < 1 then "default" else extContext
  let padLeadID := sprintfD010 leadID
  let padLeadID :=
    if len padLeadID > 10 then String.mk (padLeadID.data.drop (padLeadID.data.length - 10))
    else padLeadID
  let vQueryCID := "V" ++ cidDate ++ padLeadID
  let ccid := camp.campaignCID
  let ccid :=
    if campaignCIDOverride.Valid && len campaignCIDOverride.String > 6 then
      campaignCIDOverride.String
    else ccid
  let cidString := if len ccid > 6 then "\"" ++ vQueryCID ++ "\" <" ++ ccid ++ ">" else vQueryCID
  let localDEF := "Local/"
  let localAMP := "@"
  let channel := localDEF ++ nDialString ++ localAMP ++ extContext
  { asteriskVersion := asteriskVersion, serverID := serverID, localOutPrefix := localOutPrefix,
    localDialTimeout := localDialTimeout, localDialTimeoutMS := localDialTimeoutMS,
    vdadDialExten := vdadDialExten, nDialString := nDialString, extContext := extContext,
    padLeadID := padLeadID, vQueryCID := vQueryCID, ccid := ccid, cidString := cidString,
    channel := channel,
    cmdLineB := "Exten: " ++ vdadDialExten,
    cmdLineC := "Context: " ++ extContext,
    cmdLineD := "Channel: " ++ channel,
    cmdLineE := "Priority: 1",
    cmdLineF := "Callerid: " ++ cidString,
    cmdLineG := "Timeout: " ++ sprintfD localDialTimeoutMS,
    cmdLineK := "VDACnote: " ++ req.CampaignID ++ "|" ++ sprintfD leadID ++ "|" ++ req.PhoneCode
      ++ "|" ++ req.PhoneNumber ++ "|OUT|MAIN|99" }

/-- The five audit inserts of `SendTestCall` (source lines 279-337), whose
errors only produce a printed warning. -/
def testCallAuditCalls (req : TestCallRequest) (serverIP sqlDate : String) (leadID : Int)
    (plan : TestCallPlan) : List DBCall :=
  [DBCall.Exec autoCallQuery
     [SqlArg.str serverIP, SqlArg.str req.CampaignID, SqlArg.int leadID,
      SqlArg.str plan.vQueryCID, SqlArg.str req.PhoneCode, SqlArg.str req.PhoneNumber,
      SqlArg.str sqlDate],
   DBCall.Exec dialLogQuery
     [SqlArg.str plan.vQueryCID, SqlArg.int leadID, SqlArg.str serverIP, SqlArg.str sqlDate,
      SqlArg.str plan.vdadDialExten, SqlArg.str plan.channel, SqlArg.int plan.localDialTimeoutMS,
      SqlArg.str plan.cidString, SqlArg.str plan.extContext],
   DBCall.Exec cidLogQuery
     [SqlArg.str plan.vQueryCID, SqlArg.str sqlDate, SqlArg.str plan.ccid],
   DBCall.Exec userDialLogQuery
     [SqlArg.str plan.vQueryCID, SqlArg.str req.User, SqlArg.str sqlDate],
   DBCall.Exec userCallLogQuery
     [SqlArg.str req.User, SqlArg.str sqlDate, SqlArg.str serverIP, SqlArg.str req.PhoneNumber,
      SqlArg.str plan.nDialString, SqlArg.int leadID, SqlArg.str plan.ccid]]

/-- Mirror of `SendTestCall`. `decoded` is the outcome of decoding the body
(`none` for a decode error), `now` is `time.Now()`. The result is the response
and the database calls made, in order. -/
def SendTestCall (db : TestCallDB) (now : Clock) (decoded : Option TestCallRequest) :
    Response × List DBCall :=
  match decoded with
  | Option.none => (respondWithError StatusBadRequest "Invalid request payload", [])
  | some req =>
    if req.CampaignID = "" then
      (respondWithError StatusBadRequest "campaign_id is required", [])
    else if req.PhoneNumber = "" then
      (respondWithError StatusBadRequest "phone_number is required", [])
    else if len req.PhoneNumber < 6 then
      (respondWithError StatusBadRequest "phone_number too small, must be at least 6 digits", [])
    else
      let req := if req.PhoneCode = "" then { req with PhoneCode := "1" } else req
      let req := if req.User = "" then { req with User := "API" } else req
      let sqlDate := now.Format "2006-01-02 15:04:05"
      let cidDate := now.Format "010215"
      match testCallCampaignLookup db req.CampaignID with
      | (Except.error RowError.ErrNoRows, tr₁) =>
        (respondWithError StatusNotFound "Campaign not found", tr₁)
      | (Except.error (RowError.other msg), tr₁) =>
        (respondWithError StatusInternalServerError ("Failed to retrieve campaign: " ++ msg), tr₁)
      | (Except.ok camp, tr₁) =>
        let req := { req with ServerIP := TrimSpace req.ServerIP }
        match testCallServerLookup db req.ServerIP with
        | (Except.error err, tr₂) =>
          (respondWithError StatusInternalServerError
            ("Failed to retrieve server: " ++ err.Error), tr₁ ++ tr₂)
        | (Except.ok srv, tr₂) =>
          let comments := req.CampaignID ++ " test call placed " ++ sqlDate
          let leadArgs := [SqlArg.str req.PhoneCode, SqlArg.str req.PhoneNumber,
            SqlArg.int camp.manualDialListID, SqlArg.str sqlDate, SqlArg.str sqlDate,
            SqlArg.str comments]
          let tr₃ := tr₁ ++ tr₂ ++ [DBCall.Exec leadQuery leadArgs]
          match db.exec leadQuery leadArgs with
          | Except.error err =>
            (respondWithError StatusInternalServerError
              ("Failed to create test lead: " ++ err), tr₃)
          | Except.ok result =>
            let leadID := result.LastInsertId
            let listArgs := [SqlArg.int camp.manualDialListID]
            let campaignCIDOverride := match db.list listQuery listArgs with
              | Except.ok row => row.1
              | Except.error _ => NullString.zero
            let plan := testCallPlan req camp srv leadID campaignCIDOverride cidDate
            let managerArgs := [SqlArg.str sqlDate, SqlArg.str srv.serverIP,
              SqlArg.str plan.vQueryCID, SqlArg.str plan.cmdLineB, SqlArg.str plan.cmdLineC,
              SqlArg.str plan.cmdLineD, SqlArg.str plan.cmdLineE, SqlArg.str plan.cmdLineF,
              SqlArg.str plan.cmdLineG, SqlArg.str plan.cmdLineK]
            let tr₄ := tr₃ ++ [DBCall.QueryRow listQuery listArgs,
              DBCall.Exec managerQuery managerArgs]
            match db.exec managerQuery managerArgs with
            | Except.error err =>
              (respondWithError StatusInternalServerError
                ("Failed to queue test call: " ++ err), tr₄)
            | Except.ok result =>
              let managerID := result.LastInsertId
              (respondWithSuccess "Test call placed successfully"
                (Payload.object
                  [("caller_code", JsonValue.str plan.vQueryCID),
                   ("manager_id", JsonValue.int managerID),
                   ("lead_id", JsonValue.int leadID),
                   ("campaign_id", JsonValue.str req.CampaignID),
                   ("campaign_name", JsonValue.str camp.campaignName),
                   ("phone_number", JsonValue.str req.PhoneNumber),
                   ("phone_code", JsonValue.str req.PhoneCode),
                   ("server_ip", JsonValue.str srv.serverIP),
                   ("server_id", JsonValue.str plan.serverID),
                   ("channel", JsonValue.str plan.channel),
                   ("extension", JsonValue.str plan.vdadDialExten),
                   ("dial_string", JsonValue.str plan.nDialString),
                   ("caller_id", JsonValue.str plan.cidString),
                   ("call_date", JsonValue.str sqlDate)]),
                tr₄ ++ testCallAuditCalls req srv.serverIP sqlDate leadID plan)

/-- The request as `SendTestCall` uses it after validation: the defaults of
source lines 44-50 and the trimming of `ServerIP` of line 110. -/
def testCallDefaults (req : TestCallRequest) : TestCallRequest :=
  let req := if req.PhoneCode = "" then { req with PhoneCode := "1" } else req
  let req := if req.User = "" then { req with User := "API" } else req
  { req with ServerIP := TrimSpace req.ServerIP }

/-- The arguments `SendTestCall` binds to `leadQuery` (source lines 152-155). -/
def testCallLeadArgs (req : TestCallRequest) (camp : CampaignScan) (sqlDate : String) :
    List SqlArg :=
  [SqlArg.str req.PhoneCode, SqlArg.str req.PhoneNumber, SqlArg.int camp.manualDialListID,
   SqlArg.str sqlDate, SqlArg.str sqlDate,
   SqlArg.str (req.CampaignID ++ " test call placed " ++ sqlDate)]

/-- What the list lookup of source lines 163-166 leaves in `campaignCIDOverride`:
the scanned value, or the zero value when the lookup fails (its error is
discarded). -/
def testCallListOverride (db : TestCallDB) (camp : CampaignScan) : NullString :=
  match db.list listQuery [SqlArg.int camp.manualDialListID] with
  | Except.ok row => row.1
  | Except.error _ => NullString.zero

/-- The arguments `SendTestCall` binds to `managerQuery` (source lines 270-271). -/
def testCallManagerArgs (srv : ServerScan) (sqlDate : String) (plan : TestCallPlan) :
    List SqlArg :=
  [SqlArg.str sqlDate, SqlArg.str srv.serverIP, SqlArg.str plan.vQueryCID,
   SqlArg.str plan.cmdLineB, SqlArg.str plan.cmdLineC, SqlArg.str plan.cmdLineD,
   SqlArg.str plan.cmdLineE, SqlArg.str plan.cmdLineF, SqlArg.str plan.cmdLineG,
   SqlArg.str plan.cmdLineK]

/-- The payload of a successful `SendTestCall` (source lines 339-354). -/
def testCallPayload (req : TestCallRequest) (camp : CampaignScan) (srv : ServerScan)
    (sqlDate : String) (leadID managerID : Int) (plan : TestCallPlan) : Payload :=
  Payload.object
    [("caller_code", JsonValue.str plan.vQueryCID),
     ("manager_id", JsonValue.int managerID),
     ("lead_id", JsonValue.int leadID),
     ("campaign_id", JsonValue.str req.CampaignID),
     ("campaign_name", JsonValue.str camp.campaignName),
     ("phone_number", JsonValue.str req.PhoneNumber),
     ("phone_code", JsonValue.str req.PhoneCode),
     ("server_ip", JsonValue.str srv.serverIP),
     ("server_id", JsonValue.str plan.serverID),
     ("channel", JsonValue.str plan.channel),
     ("extension", JsonValue.str plan.vdadDialExten),
     ("dial_string", JsonValue.str plan.nDialString),
     ("caller_id", JsonValue.str plan.cidString),
     ("call_date", JsonValue.str sqlDate)]

/-- The part of `SendTestCall` after the two lookups (source lines 142-355),
for the request `req` after its defaults, the scanned campaign and server rows
and the calls `tr` made so far. -/
def testCallWrites (db : TestCallDB) (now : Clock) (req : TestCallRequest) (camp : CampaignScan)
    (srv : ServerScan) (tr : List DBCall) : Response × List DBCall :=
  let sqlDate := now.Format "2006-01-02 15:04:05"
  let cidDate := now.Format "010215"
  let leadArgs := testCallLeadArgs req camp sqlDate
  match db.exec leadQuery leadArgs with
  | Except.error err =>
    (respondWithError StatusInternalServerError ("Failed to create test lead: " ++ err),
      tr ++ [DBCall.Exec leadQuery leadArgs])
  | Except.ok result =>
    let leadID := result.LastInsertId
    let plan := testCallPlan req camp srv leadID (testCallListOverride db camp) cidDate
    let managerArgs := testCallManagerArgs srv sqlDate plan
    let tr₄ := tr ++ [DBCall.Exec leadQuery leadArgs]
      ++ [DBCall.QueryRow listQuery [SqlArg.int camp.manualDialListID],
          DBCall.Exec managerQuery managerArgs]
    match db.exec managerQuery managerArgs with
    | Except.error err =>
      (respondWithError StatusInternalServerError ("Failed to queue test call: " ++ err), tr₄)
    | Except.ok result =>
      (respondWithSuccess "Test call placed successfully"
          (testCallPayload req camp srv sqlDate leadID result.LastInsertId plan),
        tr₄ ++ testCallAuditCalls req srv.serverIP sqlDate leadID plan)

/-- The database `db` with the results of every `Exec` other than the lead
insert and the origination command replaced by those of `audit`. -/
def TestCallDB.withAudit (db : TestCallDB)
    (audit : String → List SqlArg → Except String SqlResult) : TestCallDB :=
  { db with
    exec := fun q args => if q = leadQuery ∨ q = managerQuery then db.exec q args else audit q args }

/-- A call that writes: an `Exec` on the connection or on a transaction. -/
def DBCall.isWrite : DBCall → Bool
  | DBCall.Exec _ _ => true
  | DBCall.TxExec _ _ => true
  | _ => false

/-- Phone represents a phone extension (`models.Phone`). -/
structure models.Phone where
  Extension : String
  Dialplan : String
  VoicemailExt : String
  PhoneIP : String
  ComputerIP : String
  ServerIP : String
  Login : String
  Pass : String
  Status : String
  Active : String
  PhoneType : String
  FullName : String
  CompanyName : String
  PictureURL : String
  Messages : Int
  OutboundCID : String
  Template : String
  LastUpdateTime : Time
  deriving DecidableEq, Repr

/-- DID represents a Direct Inward Dial number (`models.DID`). -/
structure models.DID where
  DIDID : String
  DIDPattern : String
  DIDDescription : String
  DIDRoute : String
  RecordCall : String
  Extension : String
  Exten : String
  VoicemailExt : String
  FilterInboundGroup : String
  Group : String
  User : String
  UserDirect : String
  CallMenu : String
  Active : String
  EntryDate : Time
  deriving DecidableEq, Repr

/-! ## Create handlers with an active flag -/

def addListQuery : String :=
  "\n\t\tINSERT INTO vicidial_lists (list_name, campaign_id, active, list_description, script, web_form)\n\t\tVALUES (?, ?, ?, ?, ?, ?)\n\t"

/-- Mirror of `AddList` (handlers/lists.go). `decoded` is the outcome of
decoding the body (`none` for a decode error), `exec` is `h.DB.Exec`. -/
def AddList (exec : String → List SqlArg → Except String SqlResult)
    (decoded : Option models.List) : Response × List DBCall :=
  match decoded with
  | Option.none => (respondWithError StatusBadRequest "Invalid request payload", [])
  | some list =>
    if list.ListName = "" then
      (respondWithError StatusBadRequest "List name is required", [])
    else
      let list := if list.Active = "" then { list with Active := "Y" } else list
      let args := [SqlArg.str list.ListName, SqlArg.str list.CampaignID, SqlArg.str list.Active,
        SqlArg.str list.ListDescription, SqlArg.str list.Script, SqlArg.str list.WebForm]
      match exec addListQuery args with
      | Except.error err =>
        (respondWithError StatusInternalServerError ("Failed to create list: " ++ err),
          [DBCall.Exec addListQuery args])
      | Except.ok result =>
        let listID := result.LastInsertId
        let list := { list with ListID := listID }
        (respondWithSuccess "List created successfully" (Payload.list list),
          [DBCall.Exec addListQuery args])

def addUserQuery : String :=
  "\n\t\tINSERT INTO vicidial_users (user, pass, full_name, user_level, user_group, phone_login, phone_pass, active, email)\n\t\tVALUES (?, ?, ?, ?, ?, ?, ?, ?, ?)\n\t"

/-- Mirror of `AddUser` (handlers/users.go). -/
def AddUser (exec : String → List SqlArg → Except String SqlResult)
    (decoded : Option models.User) : Response × List DBCall :=
  match decoded with
  | Option.none => (respondWithError StatusBadRequest "Invalid request payload", [])
  | some user =>
    if user.User = "" ∨ user.Pass = "" then
      (respondWithError StatusBadRequest "Username and password are required", [])
    else
      let user := if user.Active = "" then { user with Active := "Y" } else user
      let args := [SqlArg.str user.User, SqlArg.str user.Pass, SqlArg.str user.FullName,
        SqlArg.int user.UserLevel, SqlArg.str user.UserGroup, SqlArg.str user.PhoneLogin,
        SqlArg.str user.PhonePass, SqlArg.str user.Active, SqlArg.str user.Email]
      match exec addUserQuery args with
      | Except.error err =>
        (respondWithError StatusInternalServerError ("Failed to create user: " ++ err),
          [DBCall.Exec addUserQuery args])
      | Except.ok _ =>
        (respondWithSuccess "User created successfully" (Payload.stringMap [("user", user.User)]),
          [DBCall.Exec addUserQuery args])

def addPhoneQuery : String :=
  "\n\t\tINSERT INTO phones (extension, dialplan_number, voicemail_ext, phone_ip,\n\t\t\t\t\t\t\tcomputer_ip, server_ip, login, pass, status, active,\n\t\t\t\t\t\t\tphone_type, fullname, company, outbound_cid)\n\t\tVALUES (?, ?, ?, ?, ?, ?, ?, ?, ?, ?, ?, ?, ?, ?)\n\t"

/-- Mirror of `AddPhone` (handlers/phones.go). -/
def AddPhone (exec : String → List SqlArg → Except String SqlResult)
    (decoded : Option models.Phone) : Response × List DBCall :=
  match decoded with
  | Option.none => (respondWithError StatusBadRequest "Invalid request payload", [])
  | some phone =>
    if phone.Extension = "" then
      (respondWithError StatusBadRequest "Extension is required", [])
    else
      let phone := if phone.Active = "" then { phone with Active := "Y" } else phone
      let args := [SqlArg.str phone.Extension, SqlArg.str phone.Dialplan,
        SqlArg.str phone.VoicemailExt, SqlArg.str phone.PhoneIP, SqlArg.str phone.ComputerIP,
        SqlArg.str phone.ServerIP, SqlArg.str phone.Login, SqlArg.str phone.Pass,
        SqlArg.str phone.Status, SqlArg.str phone.Active, SqlArg.str phone.PhoneType,
        SqlArg.str phone.FullName, SqlArg.str phone.CompanyName, SqlArg.str phone.OutboundCID]
      match exec addPhoneQuery args with
      | Except.error err =>
        (respondWithError StatusInternalServerError ("Failed to add phone: " ++ err),
          [DBCall.Exec addPhoneQuery args])
      | Except.ok _ =>
        (respondWithSuccess "Phone added successfully"
            (Payload.stringMap [("extension", phone.Extension)]),
          [DBCall.Exec addPhoneQuery args])

/-- The anonymous request struct of `AddPhoneAlias`. -/
structure PhoneAliasRequest where
  AliasID : String
  AliasName : String
  Extension : String
  Active : String
  deriving DecidableEq, Repr

def addPhoneAliasQuery : String :=
  "INSERT INTO phone_aliases (alias_id, alias_name, logins_list, active) VALUES (?, ?, ?, ?)"

/-- Mirror of `AddPhoneAlias` (handlers/phones.go). -/
def AddPhoneAlias (exec : String → List SqlArg → Except String SqlResult)
    (decoded : Option PhoneAliasRequest) : Response × List DBCall :=
  match decoded with
  | Option.none => (respondWithError StatusBadRequest "Invalid request payload", [])
  | some req =>
    let args := [SqlArg.str req.AliasID, SqlArg.str req.AliasName, SqlArg.str req.Extension,
      SqlArg.str req.Active]
    match exec addPhoneAliasQuery args with
    | Except.error err =>
      (respondWithError StatusInternalServerError ("Failed to add phone alias: " ++ err),
        [DBCall.Exec addPhoneAliasQuery args])
    | Except.ok _ =>
      (respondWithSuccess "Phone alias added successfully"
          (Payload.stringMap [("alias_id", req.AliasID)]),
        [DBCall.Exec addPhoneAliasQuery args])

def addDIDQuery : String :=
  "\n\t\tINSERT INTO vicidial_inbound_dids (did_pattern, did_description, did_route,\n\t\t\t\t\t\t\t\t\t\t   record_call, extension, exten, voicemail_ext,\n\t\t\t\t\t\t\t\t\t\t   filter_inbound_group, group_id, user, active)\n\t\tVALUES (?, ?, ?, ?, ?, ?, ?, ?, ?, ?, ?)\n\t"

/-- Mirror of `AddDID` (handlers/phones.go). -/
def AddDID (exec : String → List SqlArg → Except String SqlResult)
    (decoded : Option models.DID) : Response × List DBCall :=
  match decoded with
  | Option.none => (respondWithError StatusBadRequest "Invalid request payload", [])
  | some did =>
    if did.DIDPattern = "" then
      (respondWithError StatusBadRequest "DID pattern is required", [])
    else
      let did := if did.Active = "" then { did with Active := "Y" } else did
      let args := [SqlArg.str did.DIDPattern, SqlArg.str did.DIDDescription,
        SqlArg.str did.DIDRoute, SqlArg.str did.RecordCall, SqlArg.str did.Extension,
        SqlArg.str did.Exten, SqlArg.str did.VoicemailExt, SqlArg.str did.FilterInboundGroup,
        SqlArg.str did.Group, SqlArg.str did.User, SqlArg.str did.Active]
      match exec addDIDQuery args with
      | Except.error err =>
        (respondWithError StatusInternalServerError ("Failed to add DID: " ++ err),
          [DBCall.Exec addDIDQuery args])
      | Except.ok result =>
        let didID := result.LastInsertId
        (respondWithSuccess "DID added successfully" (Payload.intMap [("did_id", didID)]),
          [DBCall.Exec addDIDQuery args])

/-- The anonymous request struct of `AddGroupAlias`. -/
structure GroupAliasRequest where
  GroupAliasID : String
  GroupAliasName : String
  CallerIDGroup : String
  Active : String
  deriving DecidableEq, Repr

def addGroupAliasQuery : String :=
  "\n\t\tINSERT INTO vicidial_group_aliases (group_alias_id, group_alias_name, caller_id_group, active)\n\t\tVALUES (?, ?, ?, ?)\n\t"

/-- Mirror of `AddGroupAlias` (handlers/advanced.go). -/
def AddGroupAlias (exec : String → List SqlArg → Except String SqlResult)
    (decoded : Option GroupAliasRequest) : Response × List DBCall :=
  match decoded with
  | Option.none => (respondWithError StatusBadRequest "Invalid request payload", [])
  | some req =>
    let req := if req.Active = "" then { req with Active := "Y" } else req
    let args := [SqlArg.str req.GroupAliasID, SqlArg.str req.GroupAliasName,
      SqlArg.str req.CallerIDGroup, SqlArg.str req.Active]
    match exec addGroupAliasQuery args with
    | Except.error err =>
      (respondWithError StatusInternalServerError ("Failed to add group alias: " ++ err),
        [DBCall.Exec addGroupAliasQuery args])
    | Except.ok _ =>
      (respondWithSuccess "Group alias added successfully"
          (Payload.stringMap [("group_alias_id", req.GroupAliasID)]),
        [DBCall.Exec addGroupAliasQuery args])

/-! ## Statement builders: LeadSearch, LeadStatusSearch, BatchUpdateLead, GetSIPLog, getKPIByList -/

/-- A statement as a handler hands it to `database/sql`: the `query` text and
the `args` slice. -/
abbrev Statement := String × List SqlArg

/-- The idiom `if cond { query += clause; args = append(args, arg) }` applied to
the statement under construction. -/
def Statement.andIf (st : Statement) (cond : Bool) (clause : String) (arg : SqlArg) :
    Statement :=
  if cond then (st.1 ++ clause, st.2 ++ [arg]) else st

/-- The statement `LeadSearch` (handlers/leads.go) passes to `h.DB.Query`; the
parameters are the values `r.URL.Query().Get` returns for `phone_number`,
`first_name`, `last_name`, `email`, `list_id` and `status`. -/
def leadSearchStatement (phoneNumber firstName lastName email listID status : String) :
    Statement :=
  let st : Statement :=
    ("SELECT lead_id, list_id, phone_number, first_name, last_name, email, status, entry_date FROM vicidial_list WHERE 1=1", [])
  let st := st.andIf (phoneNumber ≠ "") " AND phone_number LIKE ?"
    (SqlArg.str ("%" ++ phoneNumber ++ "%"))
  let st := st.andIf (firstName ≠ "") " AND first_name LIKE ?"
    (SqlArg.str ("%" ++ firstName ++ "%"))
  let st := st.andIf (lastName ≠ "") " AND last_name LIKE ?"
    (SqlArg.str ("%" ++ lastName ++ "%"))
  let st := st.andIf (email ≠ "") " AND email LIKE ?" (SqlArg.str ("%" ++ email ++ "%"))
  let st := st.andIf (listID ≠ "") " AND list_id = ?" (SqlArg.str listID)
  let st := st.andIf (status ≠ "") " AND status = ?" (SqlArg.str status)
  (st.1 ++ " LIMIT 100", st.2)

/-- The statement `LeadStatusSearch` (handlers/leads.go) passes to
`h.DB.Query`, `none` when it answers 400 for an empty `status`. -/
def leadStatusSearchStatement (status listID : String) : Option Statement :=
  if status = "" then Option.none
  else
    let st : Statement :=
      ("SELECT lead_id, list_id, phone_number, first_name, last_name, status FROM vicidial_list WHERE status = ?",
        [SqlArg.str status])
    let st := st.andIf (listID ≠ "") " AND list_id = ?" (SqlArg.str listID)
    some (st.1 ++ " LIMIT 100", st.2)

/-- The loop `for i, id := range req.LeadIDs` of `BatchUpdateLead`, from index
`i` on: a comma before every placeholder but the first. -/
def batchUpdateIn : List Int → Nat → Statement → Statement
  | [], _, st => st
  | id :: rest, i, st =>
    let query := if i > 0 then st.1 ++ "," else st.1
    batchUpdateIn rest (i + 1) (query ++ "?", st.2 ++ [SqlArg.int id])

/-- The statement `BatchUpdateLead` (handlers/leads.go) passes to `h.DB.Exec`
for the decoded request, `none` when it answers 400 for an empty id list. -/
def batchUpdateLeadStatement (leadIDs : List Int) (status owner : String) : Option Statement :=
  if leadIDs.length = 0 then Option.none
  else
    let st : Statement := ("UPDATE vicidial_list SET modify_date = NOW()", [])
    let st := st.andIf (status ≠ "") ", status = ?" (SqlArg.str status)
    let st := st.andIf (owner ≠ "") ", owner = ?" (SqlArg.str owner)
    let st : Statement := (st.1 ++ " WHERE lead_id IN (", st.2)
    let st := batchUpdateIn leadIDs 0 st
    some (st.1 ++ ")", st.2)

/-- The statement `GetSIPLog` (handlers/sip.go) passes to `h.DB.Query`; the
parameters are the values of `start_date`, `end_date`, `lead_id`, `server_ip`,
`dialstatus`, `sip_hangup_cause` and `limit`. -/
def sipLogStatement (startDate endDate leadID serverIP dialStatus sipHangupCause limit : String) :
    Statement :=
  let limit := if limit = "" then "100" else limit
  let st : Statement :=
    ("\n\t\tSELECT uniqueid, call_date, server_ip, lead_id, hangup_cause,\n\t\t\t   dialstatus, channel, dial_time, answered_time,\n\t\t\t   sip_hangup_cause, sip_hangup_reason, caller_code\n\t\tFROM vicidial_carrier_log\n\t\tWHERE 1=1\n\t", [])
  let st := st.andIf (startDate ≠ "") " AND call_date >= ?" (SqlArg.str startDate)
  let st := st.andIf (endDate ≠ "") " AND call_date <= ?" (SqlArg.str endDate)
  let st := st.andIf (leadID ≠ "") " AND lead_id = ?" (SqlArg.str leadID)
  let st := st.andIf (serverIP ≠ "") " AND server_ip = ?" (SqlArg.str serverIP)
  let st := st.andIf (dialStatus ≠ "") " AND dialstatus = ?" (SqlArg.str dialStatus)
  let st := st.andIf (sipHangupCause ≠ "") " AND sip_hangup_cause = ?" (SqlArg.str sipHangupCause)
  (st.1 ++ " ORDER BY call_date DESC LIMIT ?", st.2 ++ [SqlArg.str limit])

/-- The statement `getKPIByList` (handlers/kpi.go) passes to `h.DB.Query`. -/
def kpiListStatement (listID campaignID startDate endDate : String) : Statement :=
  let st : Statement :=
    ("\n\t\tSELECT\n\t\t\tvl.list_id,\n\t\t\tvl.list_name,\n\t\t\tlog.status,\n\t\t\tCOUNT(*) as count,\n\t\t\tAVG(log.length_in_sec) as avg_talk_time,\n\t\t\tSUM(log.length_in_sec) as total_talk_time\n\t\tFROM vicidial_log log\n\t\tINNER JOIN vicidial_lists vl ON log.list_id = vl.list_id\n\t\tWHERE 1=1\n\t", [])
  let st := st.andIf (listID ≠ "") " AND log.list_id = ?" (SqlArg.str listID)
  let st := st.andIf (campaignID ≠ "") " AND log.campaign_id = ?" (SqlArg.str campaignID)
  let st := st.andIf (startDate ≠ "") " AND log.call_date >= ?" (SqlArg.str startDate)
  let st := st.andIf (endDate ≠ "") " AND log.call_date <= ?" (SqlArg.str endDate)
  (st.1 ++ "\n\t\tGROUP BY vl.list_id, vl.list_name, log.status\n\t\tORDER BY vl.list_id, count DESC\n\t", st.2)

/-! ## handlers/testcall.go: GetTestCallStatus, ListTestCalls -/

/-- A row of `vicidial_manager`: the columns `SendTestCall` sets and
`GetTestCallStatus` and `ListTestCalls` read. `entry_date` is kept as the
datetime text. -/
structure ManagerRow where
  man_id : Int
  uniqueid : String
  entry_date : String
  status : String
  response : String
  server_ip : String
  channel : String
  action : String
  callerid : String
  cmd_line_b : String
  cmd_line_c : String
  cmd_line_d : String
  cmd_line_e : String
  cmd_line_f : String
  cmd_line_g : String
  cmd_line_k : String
  deriving DecidableEq, Repr

/-- The row the statement `managerQuery` inserts for its ten bound arguments
when the server assigns `manID`: the column list `(uniqueid, entry_date,
status, response, server_ip, channel, action, callerid, cmd_line_b, cmd_line_c,
cmd_line_d, cmd_line_e, cmd_line_f, cmd_line_g, cmd_line_k)` against
`VALUES ('', ?, 'NEW', 'N', ?, '', 'Originate', ?, ?, ?, ?, ?, ?, ?, ?)`. -/
def managerRowWritten (manID : Int) : List SqlArg → Option ManagerRow
  | [SqlArg.str entryDate, SqlArg.str serverIP, SqlArg.str callerid, SqlArg.str b,
      SqlArg.str c, SqlArg.str d, SqlArg.str e, SqlArg.str f, SqlArg.str g, SqlArg.str k] =>
    some { man_id := manID, uniqueid := "", entry_date := entryDate, status := "NEW",
           response := "N", server_ip := serverIP, channel := "", action := "Originate",
           callerid := callerid, cmd_line_b := b, cmd_line_c := c, cmd_line_d := d,
           cmd_line_e := e, cmd_line_f := f, cmd_line_g := g, cmd_line_k := k }
  | _ => Option.none

/-- A row of `vicidial_dial_log` with the columns `SendTestCall` sets. -/
structure DialLogRow where
  caller_code : String
  lead_id : Int
  server_ip : String
  call_date : String
  extension : String
  channel : String
  timeout : Int
  outbound_cid : String
  context : String
  deriving DecidableEq, Repr

/-- The row the statement `dialLogQuery` inserts for its nine bound arguments:
`caller_code=?, lead_id=?, server_ip=?, call_date=?, extension=?, channel=?,
timeout=?, outbound_cid=?, context=?`. -/
def dialLogRowWritten : List SqlArg → Option DialLogRow
  | [SqlArg.str callerCode, SqlArg.int leadID, SqlArg.str serverIP, SqlArg.str callDate,
      SqlArg.str extension, SqlArg.str channel, SqlArg.int timeout, SqlArg.str outboundCID,
      SqlArg.str context] =>
    some { caller_code := callerCode, lead_id := leadID, server_ip := serverIP,
           call_date := callDate, extension := extension, channel := channel,
           timeout := timeout, outbound_cid := outboundCID, context := context }
  | _ => Option.none

/-- Mirror of `strings.TrimPrefix`. -/
def TrimPrefix (s pre : String) : String :=
  if startsWith s.data pre.data then String.mk (s.data.drop pre.data.length) else s

/-- The zero `time.Time`, as datetime text. -/
def zeroTime : String := "0001-01-01 00:00:00"

def testCallStatusQuery : String :=
  "\n\t\tSELECT man_id, entry_date, status, response, action, cmd_line_b, cmd_line_c\n\t\tFROM vicidial_manager\n\t\tWHERE callerid LIKE ?\n\t\tORDER BY entry_date DESC\n\t\tLIMIT 1\n\t"

def testCallStatusDialQuery : String :=
  "\n\t\tSELECT call_date, extension, channel\n\t\tFROM vicidial_dial_log\n\t\tWHERE caller_code = ?\n\t\tORDER BY call_date DESC\n\t\tLIMIT 1\n\t"

/-- What the `Scan` of the dial-log lookup of `GetTestCallStatus` leaves in
`callDate`, `extension` and `dialChannel`. -/
structure DialLogScan where
  callDate : String
  extension : String
  dialChannel : String
  deriving DecidableEq, Repr

/-- Mirror of `GetTestCallStatus`. `callerCode` is
`r.URL.Query().Get("caller_code")`. `manager` is the first `QueryRow` lookup,
which answers with the row the server selects; its `Scan` stores the columns of
the select list, `man_id, entry_date, status, response, action, cmd_line_b,
cmd_line_c`, in that order into `manID, entryDate, status, response, action,
channel, context`. The error of the second lookup is discarded, so `dialLog`
gives what its `Scan` leaves in the three variables: the columns it stored, and
the zero value for those it did not reach (all three when no row is found). -/
def GetTestCallStatus (manager : String → List SqlArg → Except RowError ManagerRow)
    (dialLog : String → List SqlArg → DialLogScan) (callerCode : String) :
    Response × List DBCall :=
  if callerCode = "" then
    (respondWithError StatusBadRequest "caller_code is required", [])
  else
    let args := [SqlArg.str ("%" ++ callerCode ++ "%")]
    match manager testCallStatusQuery args with
    | Except.error RowError.ErrNoRows =>
      (respondWithError StatusNotFound "Test call not found",
        [DBCall.QueryRow testCallStatusQuery args])
    | Except.error (RowError.other msg) =>
      (respondWithError StatusInternalServerError ("Failed to retrieve call status: " ++ msg),
        [DBCall.QueryRow testCallStatusQuery args])
    | Except.ok row =>
      let manID := row.man_id
      let entryDate := row.entry_date
      let status := row.status
      let response := row.response
      let action := row.action
      let channel := row.cmd_line_b
      let context := row.cmd_line_c
      let channelClean := TrimPrefix channel "Channel: "
      let dialArgs := [SqlArg.str callerCode]
      let callDate := (dialLog testCallStatusDialQuery dialArgs).callDate
      let extension := (dialLog testCallStatusDialQuery dialArgs).extension
      (respondWithSuccess "Test call status retrieved"
          (Payload.object
            [("caller_code", JsonValue.str callerCode),
             ("manager_id", JsonValue.int manID),
             ("entry_date", JsonValue.str entryDate),
             ("status", JsonValue.str status),
             ("response", JsonValue.str response),
             ("action", JsonValue.str action),
             ("channel", JsonValue.str channelClean),
             ("context", JsonValue.str (TrimPrefix context "Context: ")),
             ("extension", JsonValue.str extension),
             ("call_date", JsonValue.str callDate)]),
        [DBCall.QueryRow testCallStatusQuery args,
         DBCall.QueryRow testCallStatusDialQuery dialArgs])

/-- The server's `LIKE` on lists of characters, under a collation that
compares characters after `fold`: `%` matches any run of characters, `_` any
one character, a backslash makes the next pattern character literal. -/
def sqlLike (fold : Char → Char) : List Char → List Char → Bool
  | [], v => v.isEmpty
  | '%' :: ps, v => v.tails.any fun t => sqlLike fold ps t
  | '_' :: _, [] => false
  | '_' :: ps, _ :: cs => sqlLike fold ps cs
  | '\\' :: _ :: _, [] => false
  | '\\' :: p :: ps, c :: cs => fold p == fold c && sqlLike fold ps cs
  | _ :: _, [] => false
  | p :: ps, c :: cs => fold p == fold c && sqlLike fold ps cs

def listTestCallsQuery : String :=
  "\n\t\tSELECT dl.caller_code, dl.call_date, dl.extension, dl.channel, dl.server_ip,\n\t\t\t   vm.status, vm.response\n\t\tFROM vicidial_dial_log dl\n\t\tLEFT JOIN vicidial_manager vm ON dl.caller_code = vm.callerid\n\t\tWHERE dl.caller_code LIKE 'TC%'\n\t"

/-- The rows the server returns for the statement of `ListTestCalls` on the
tables `dialLog` and `manager`: the dial-log rows whose `caller_code` is
`LIKE 'TC%'` and, when the optional clause is present, `LIKE` the bound
pattern; each joined to the manager rows with the same `callerid` (once with
NULLs when there is none); latest `call_date` first; at most `maxRows` rows. -/
def listTestCallsRows (fold : Char → Char) (maxRows : Nat) (dialLog : List DialLogRow)
    (manager : List ManagerRow) (pattern : Option String) :
    List (DialLogRow × Option ManagerRow) :=
  let selected := dialLog.filter fun dl =>
    sqlLike fold "TC%".data dl.caller_code.data &&
      (match pattern with
       | Option.none => true
       | some p => sqlLike fold p.data dl.caller_code.data)
  let joined := selected.flatMap fun dl =>
    match manager.filter (fun vm => dl.caller_code.data.map fold == vm.callerid.data.map fold) with
    | [] => [(dl, Option.none)]
    | vms => vms.map fun vm => (dl, some vm)
  let ordered := joined.insertionSort fun a b => ¬ a.1.call_date < b.1.call_date
  ordered.take maxRows

/-- Mirror of `ListTestCalls`. `limit` and `phoneLogin` are the query values.
The statement is evaluated on the tables `dialLog` and `manager`; `fold` is the
collation of `caller_code`, `limitRows` the row count the server reads from the
bound `LIMIT` value, `fault` a failure of the `Query`. -/
def ListTestCalls (fold : Char → Char) (limitRows : String → Nat) (fault : Option String)
    (dialLog : List DialLogRow) (manager : List ManagerRow) (limit phoneLogin : String) :
    Response × List DBCall :=
  let limit := if limit = "" then "50" else limit
  let st : Statement := (listTestCallsQuery, [])
  let st := st.andIf (phoneLogin ≠ "") " AND dl.caller_code LIKE ?"
    (SqlArg.str ("%" ++ phoneLogin))
  let st : Statement := (st.1 ++ " ORDER BY dl.call_date DESC LIMIT ?", st.2 ++ [SqlArg.str limit])
  match fault with
  | some err =>
    (respondWithError StatusInternalServerError ("Failed to retrieve test calls: " ++ err),
      [DBCall.Query st.1 st.2])
  | Option.none =>
    let rows := listTestCallsRows fold (limitRows limit) dialLog manager
      (if phoneLogin ≠ "" then some ("%" ++ phoneLogin) else Option.none)
    let testCalls : List TestCallEntry := rows.map fun row =>
      { CallerCode := row.1.caller_code, CallDate := row.1.call_date,
        Extension := row.1.extension, Channel := row.1.channel, ServerIP := row.1.server_ip,
        Status := match row.2 with
          | some vm => vm.status
          | Option.none => "",
        Response := match row.2 with
          | some vm => vm.response
          | Option.none => "" }
    (respondWithSuccess "Test calls retrieved"
        (Payload.testCalls (testCalls.length : Int) testCalls),
      [DBCall.Query st.1 st.2])

/-! ## handlers/dnc.go: DeleteDNCPhone -/

/-- A row of `vicidial_dnc`. -/
structure DNCRow where
  phone_number : String
  campaign_id : String
  entry_date : String
  deriving DecidableEq, Repr

/-- Mirror of `DeleteDNCPhone`. `phoneNumber` is `mux.Vars(r)["phone"]`,
`campaignID` is `r.URL.Query().Get("campaign_id")`. `collate` is the server's
`=` on the two string columns (it depends on the column collation), `fault` a
driver failure of the `Exec`, `table` the rows of `vicidial_dnc`. The result is
the response, the table afterwards and the statements sent. -/
def DeleteDNCPhone (collate : String → String → Bool) (fault : Option String)
    (table : List DNCRow) (phoneNumber campaignID : String) :
    Response × List DNCRow × List DBCall :=
  if phoneNumber = "" then
    (respondWithError StatusBadRequest "Phone number is required", table, [])
  else
    let query := if campaignID ≠ "" then
        "DELETE FROM vicidial_dnc WHERE phone_number = ? AND campaign_id = ?"
      else "DELETE FROM vicidial_dnc WHERE phone_number = ?"
    let args := if campaignID ≠ "" then [SqlArg.str phoneNumber, SqlArg.str campaignID]
      else [SqlArg.str phoneNumber]
    let selected : DNCRow → Bool := fun row =>
      if campaignID ≠ "" then
        collate row.phone_number phoneNumber && collate row.campaign_id campaignID
      else collate row.phone_number phoneNumber
    match fault with
    | some err =>
      (respondWithError StatusInternalServerError ("Failed to delete DNC entry: " ++ err),
        table, [DBCall.Exec query args])
    | Option.none =>
      let rowsAffected : Int := ((table.filter selected).length : Int)
      (respondWithSuccess "DNC entry deleted" (Payload.intMap [("rows_deleted", rowsAffected)]),
        table.filter (fun row => !(selected row)), [DBCall.Exec query args])

/-! ## handlers/kpi.go: getKPIByCampaign -/

/-- The values one `rows.Scan` of `getKPIByCampaign` stores. -/
structure KPICampaignRow where
  campaignID : String
  campaignName : String
  status : String
  count : Int
  avgTalkTime : Float64
  totalTalkTime : Float64
  deriving DecidableEq, Repr

/-- The `DispositionStats` literal the loop of `getKPIByCampaign` appends for a
row (its `Percentage` is the zero value until the second pass). -/
def kpiDisposition (row : KPICampaignRow) : DispositionStats :=
  { Status := row.status, Count := row.count, Percentage := Float64.finite 0 0,
    AvgTalkTime := row.avgTalkTime, TotalTalkTime := row.totalTalkTime.toInt }

/-- One pass of the `for rows.Next()` loop of `getKPIByCampaign` on
`campaignMap`, kept as the list of its entries in insertion order: the entry of
the row's campaign is created when missing, then its total grows by the row's
count and the row's disposition is appended. -/
def kpiCampaignMapAdd :
    List CampaignDispositionStats → KPICampaignRow → List CampaignDispositionStats
  | [], row =>
    [{ CampaignID := row.campaignID, CampaignName := row.campaignName,
       TotalCalls := wrapInt64 (0 + row.count),
       Dispositions := [] ++ [kpiDisposition row] }]
  | campStats :: rest, row =>
    if campStats.CampaignID = row.campaignID then
      { campStats with
        TotalCalls := wrapInt64 (campStats.TotalCalls + row.count),
        Dispositions := campStats.Dispositions ++ [kpiDisposition row] } :: rest
    else campStats :: kpiCampaignMapAdd rest row

/-- The "Calculate percentages" pass on one entry:
`float64(Count) / float64(TotalCalls) * 100` for each disposition. -/
def kpiCampaignPercentages (campStats : CampaignDispositionStats) : CampaignDispositionStats :=
  { campStats with
    Dispositions := campStats.Dispositions.map fun d =>
      { d with
        Percentage := Float64.mul
          (Float64.div (Float64.ofInt d.Count) (Float64.ofInt campStats.TotalCalls))
          (Float64.ofInt 100) } }

/-- The `campaigns` slice `getKPIByCampaign` builds from the scanned rows. Go
ranges over the map in an unspecified order; the entries are listed here in
insertion order. -/
def kpiCampaigns (rows : List KPICampaignRow) : List CampaignDispositionStats :=
  (rows.foldl kpiCampaignMapAdd []).map kpiCampaignPercentages

/-- The statement text of `getKPIByCampaign` for the given filters. -/
def kpiCampaignQuery (campaignID startDate endDate : String) : String :=
  let query := "\n\t\tSELECT\n\t\t\tlog.campaign_id,\n\t\t\tvc.campaign_name,\n\t\t\tlog.status,\n\t\t\tCOUNT(*) as count,\n\t\t\tAVG(log.length_in_sec) as avg_talk_time,\n\t\t\tSUM(log.length_in_sec) as total_talk_time\n\t\tFROM vicidial_log log\n\t\tINNER JOIN vicidial_campaigns vc ON log.campaign_id = vc.campaign_id\n\t\tWHERE 1=1\n\t"
  let query := if campaignID ≠ "" then query ++ " AND log.campaign_id = ?" else query
  let query := if startDate ≠ "" then query ++ " AND log.call_date >= ?" else query
  let query := if endDate ≠ "" then query ++ " AND log.call_date <= ?" else query
  query ++ "\n\t\tGROUP BY log.campaign_id, vc.campaign_name, log.status\n\t\tORDER BY log.campaign_id, count DESC\n\t"

/-- The parameters `getKPIByCampaign` binds for the given filters. -/
def kpiCampaignArgs (campaignID startDate endDate : String) : List SqlArg :=
  let args : List SqlArg := []
  let args := if campaignID ≠ "" then args ++ [SqlArg.str campaignID] else args
  let args := if startDate ≠ "" then args ++ [SqlArg.str startDate] else args
  let args := if endDate ≠ "" then args ++ [SqlArg.str endDate] else args
  args

/-- Mirror of `getKPIByCampaign`. `query` is `h.DB.Query` followed by the scan
of every row (scan errors are ignored by the handler, so a row is whatever the
scan left in the variables). -/
def getKPIByCampaign (query : String → List SqlArg → Except String (List KPICampaignRow))
    (campaignID startDate endDate : String) : Response × List DBCall :=
  let text := kpiCampaignQuery campaignID startDate endDate
  let args := kpiCampaignArgs campaignID startDate endDate
  match query text args with
  | Except.error err =>
    (respondWithError StatusInternalServerError ("Failed to retrieve KPI data: " ++ err),
      [DBCall.Query text args])
  | Except.ok rows =>
    let campaigns := kpiCampaigns rows
    (respondWithSuccess "KPI dispositions by campaign retrieved successfully"
        (Payload.kpiCampaigns (campaigns.length : Int) campaigns),
      [DBCall.Query text args])

/-! ## The JSON objects the service writes -/

/-- A top-level member value of a response object. -/
inductive JsonField where
  | flag (b : Bool)
  | text (s : String)
  | payload (p : Payload)
  deriving DecidableEq, Repr

/-- The members `encoding/json` writes for a `models.APIResponse`, in field
order: `success` always; `message`, `data` and `error` only when non-empty
(`omitempty`; a nil interface is empty). -/
def APIResponse.jsonFields (a : APIResponse) : List (String × JsonField) :=
  [("success", JsonField.flag a.Success)]
    ++ (if a.Message = "" then [] else [("message", JsonField.text a.Message)])
    ++ (match a.Data with
        | Option.none => []
        | some p => [("data", JsonField.payload p)])
    ++ (if a.Error = "" then [] else [("error", JsonField.text a.Error)])

/-- The members `encoding/json` writes for a `middleware.ErrorResponse`: both
fields, always. -/
def ErrorResponse.jsonFields (e : ErrorResponse) : List (String × JsonField) :=
  [("error", JsonField.text e.Error), ("message", JsonField.text e.Message)]

/-- The value of a member of a JSON object, if the object has it. -/
def jsonMember : List (String × JsonField) → String → Option JsonField
  | [], _ => Option.none
  | (k, v) :: rest, key => if k = key then some v else jsonMember rest key

/-- The error envelope of the specification: success flag false, no payload. -/
def Response.isErrorEnvelope (r : Response) : Prop :=
  r.body.Success = false ∧ r.body.Data = Option.none ∧
  jsonMember r.body.jsonFields "success" = some (JsonField.flag false) ∧
  jsonMember r.body.jsonFields "data" = Option.none

/-! ### Sample data -/

/-- The payload of the specification's scenario after decoding:
`phone_number` "5551234567", `list_id` 10, every other field zero. -/
def scenarioLead : Lead :=
  { Lead.zero with PhoneNumber := "5551234567", ListID := 10 }

/-- A database connection whose every `Exec` succeeds and reports the given
insert id. -/
def execAssigning (id : Int) : String → List SqlArg → Except String SqlResult :=
  fun _ _ => Except.ok { LastInsertId := id, RowsAffected := 1 }

/-- A connection whose lookups return the given value. -/
def queryRowReturning (value : String) : String → List SqlArg → Except RowError String :=
  fun _ _ => Except.ok value

/-- A server that compares `lead_id` with the decimal rendering of the bound
string, keys `vicidial_list` on `lead_id` and `vicidial_hopper` on `lead_id`. -/
def sampleEngine : Engine :=
  { intEqString := fun n s => toString n = s
    listKeyClash := fun row table => table.any fun r => r.lead_id = row.lead_id
    hopperKeyClash := fun row table => table.any fun r => r.lead_id = row.lead_id }

/-- Two active leads, one archived lead, one lead already in the hopper. -/
def sampleDB : DB :=
  { vicidial_list :=
      [{ lead_id := 1, list_id := 10, phone_number := "5550000001", other := [] },
       { lead_id := 2, list_id := 10, phone_number := "5550000002", other := [] }]
    vicidial_list_archive :=
      [{ lead_id := 7, list_id := 11, phone_number := "5550000007", other := ["old"] }]
    vicidial_hopper :=
      [{ lead_id := 2, campaign_id := "CAMP", status := "READY", priority := 0, source := "S",
         list_id := 10 }] }

/-- The driver fails the n-th `tx.Exec` of the request and nothing else. -/
def failExecAt (n : Nat) (msg : String) : Faults :=
  { Faults.none with exec := fun k => if k = n then some msg else Option.none }

/-- Three DNC rows: one number on two campaigns and another number. -/
def sampleDNC : List DNCRow :=
  [{ phone_number := "5551234567", campaign_id := "---ALL---", entry_date := "2024-01-01" },
   { phone_number := "5559999999", campaign_id := "CAMP", entry_date := "2024-01-02" },
   { phone_number := "5551234567", campaign_id := "CAMP", entry_date := "2024-01-03" }]

/-- String comparison of a binary collation. -/
def binaryCollation : String → String → Bool := fun a b => a = b

/-- The float `f` is a finite non-negative value within relative error `2^-53` of `x`. -/
def Float64.Near (f : Float64) (x : ℚ) : Prop :=
  ∃ m e, f = Float64.finite m e ∧ 0 ≤ m ∧ |(m : ℚ) * (2 : ℚ) ^ e - x| ≤ x / 2 ^ 53

/-- The counts of the rows that carry a campaign id, in row order. -/
def campaignCounts (campaignID : String) (rows : List KPICampaignRow) : List Int :=
  (rows.filter fun r => r.campaignID = campaignID).map fun r => r.count

/-- The aggregated rows of the specification's KPI scenario: three SALE calls
and one NI call for campaign TESTCAMP. -/
def scenarioKPIRows : List KPICampaignRow :=
  [{ campaignID := "TESTCAMP", campaignName := "Test campaign", status := "SALE", count := 3,
     avgTalkTime := Float64.ofInt 30, totalTalkTime := Float64.ofInt 90 },
   { campaignID := "TESTCAMP", campaignName := "Test campaign", status := "NI", count := 1,
     avgTalkTime := Float64.ofInt 12, totalTalkTime := Float64.ofInt 12 }]

/-- Aggregated rows with one call of status A and two of status B. -/
def thirdsKPIRows : List KPICampaignRow :=
  [{ campaignID := "C", campaignName := "c", status := "A", count := 1,
     avgTalkTime := Float64.ofInt 0, totalTalkTime := Float64.ofInt 0 },
   { campaignID := "C", campaignName := "c", status := "B", count := 2,
     avgTalkTime := Float64.ofInt 0, totalTalkTime := Float64.ofInt 0 }]

/-- The moment 7 March 2024, 14:05:09. -/
def sampleClock : Clock :=
  { year := 2024, month := 3, day := 7, hour := 14, minute := 5, second := 9 }

/-- A test-call request with only the required fields. -/
def sampleTestCallRequest : TestCallRequest :=
  { CampaignID := "TESTCAMP", PhoneNumber := "5551234567", PhoneCode := "", User := "",
    VdadExten := "", ServerIP := "" }

/-- A campaign row with the given dial prefix and dial timeout. -/
def sampleCampaignScan (dialPrefix : String) (dialTimeout : Int) : CampaignScan :=
  { campaignName := "Test campaign", dialPrefix := dialPrefix, campaignCID := "5551112222",
    dialTimeout := dialTimeout, omitPhoneCode := { String := "N", Valid := true },
    campaignVdadExten := NullString.zero, manualDialListID := 998, extContext := "",
    active := "Y", userGroup := "ADMIN" }

/-- A server row of an Asterisk 13 server with a routing prefix. -/
def sampleServerScan : ServerScan :=
  { serverIP := "10.0.0.1", serverExtContext := NullString.zero,
    answerTransferAgent := { String := " 8365 ", Valid := true },
    asteriskVersion := "13.29.2-vici", routingPrefix := "13", serverID := "srv1" }

/-- A database where the campaign row has the given dial prefix, the server
row is `sampleServerScan`, the list has no override and every insert is given
id 12345. -/
def sampleTestCallDB (dialPrefix : String) : TestCallDB :=
  { campaign := fun _ _ => Except.ok (sampleCampaignScan dialPrefix 30)
    server := fun _ _ => Except.ok sampleServerScan
    list := fun _ _ => Except.error RowError.ErrNoRows
    exec := fun _ _ => Except.ok { LastInsertId := 12345, RowsAffected := 1 } }

/-- The same database with no row in `servers`. -/
def noServerTestCallDB : TestCallDB :=
  { sampleTestCallDB "9" with server := fun _ _ => Except.error RowError.ErrNoRows }

/-- A `sql.NullString` read as text: empty when NULL, else trimmed. -/
def nullStringText (ns : NullString) : String :=
  if ns.Valid then TrimSpace ns.String else ""

/-- The last `n` elements of a list. -/
def lastN (n : Nat) (l : List Char) : List Char :=
  l.drop (l.length - n)

/-- A response written by one of the two helpers of handlers/handler.go: an
error written by `respondWithError`, or a 200. -/
def Response.isStandard (r : Response) : Prop :=
  (∃ code message, r = respondWithError code message) ∨ r.code = 200

/-- A request `SendTestCall` does not reject with 400. -/
def TestCallRequest.passesValidation (req : TestCallRequest) : Prop :=
  req.CampaignID ≠ "" ∧ req.PhoneNumber ≠ "" ∧ ¬ len req.PhoneNumber < 6

/-- A lookup that finds no row, whatever the statement. -/
def noRows {α : Type} : String → List SqlArg → Except RowError α :=
  fun _ _ => Except.error RowError.ErrNoRows

/-- The value of a member of the `data` object of a response, if it is an
object of scalars with that member. -/
def Response.dataField (r : Response) (key : String) : Option JsonValue :=
  match r.body.Data with
  | some (Payload.object fields) => (fields.find? fun kv => kv.1 = key).map Prod.snd
  | _ => Option.none

/-- The sample database with every insert given the id `leadID`. -/
def testCallDBAssigning (leadID : Int) : TestCallDB :=
  { sampleTestCallDB "9" with
    exec := fun _ _ => Except.ok { LastInsertId := leadID, RowsAffected := 1 } }

/-- The sample database with `omit_phone_code` set to "Y" on the campaign. -/
def omitCodeTestCallDB : TestCallDB :=
  { sampleTestCallDB "9" with
    campaign := fun _ _ => Except.ok
      { sampleCampaignScan "9" 30 with omitPhoneCode := { String := "Y", Valid := true } } }

/-- The sample database whose target list carries the given caller-id override. -/
def overrideTestCallDB (campaignCIDOverride : String) : TestCallDB :=
  { sampleTestCallDB "9" with
    list := fun _ _ => Except.ok ({ String := campaignCIDOverride, Valid := true },
      NullString.zero) }

/-- The number of decimal digits in a string. -/
def digitCount (s : String) : Nat :=
  s.data.countP Char.isDigit

/-- The active flag the specification has a create operation store for the
flag `sent` in the request. -/
def storedActive (sent : String) : String :=
  if sent = "" then "Y" else sent

/-- A phone-alias request without an active flag. -/
def samplePhoneAlias : PhoneAliasRequest :=
  { AliasID := "front", AliasName := "Front desk", Extension := "100,101", Active := "" }

/-- A request to one of the five statement builders, with the values the
caller controls. -/
inductive BuilderRequest where
  | leadSearch (phoneNumber firstName lastName email listID status : String)
  | leadStatusSearch (status listID : String)
  | batchUpdateLead (leadIDs : List Int) (status owner : String)
  | sipLog (startDate endDate leadID serverIP dialStatus sipHangupCause limit : String)
  | kpiByList (listID campaignID startDate endDate : String)
  deriving DecidableEq, Repr

/-- The statement the handler sends for a request, `none` when it answers 400
without sending one. -/
def BuilderRequest.statement : BuilderRequest → Option Statement
  | BuilderRequest.leadSearch phoneNumber firstName lastName email listID status =>
    some (leadSearchStatement phoneNumber firstName lastName email listID status)
  | BuilderRequest.leadStatusSearch status listID => leadStatusSearchStatement status listID
  | BuilderRequest.batchUpdateLead leadIDs status owner =>
    batchUpdateLeadStatement leadIDs status owner
  | BuilderRequest.sipLog startDate endDate leadID serverIP dialStatus sipHangupCause limit =>
    some (sipLogStatement startDate endDate leadID serverIP dialStatus sipHangupCause limit)
  | BuilderRequest.kpiByList listID campaignID startDate endDate =>
    some (kpiListStatement listID campaignID startDate endDate)

/-- What the specification lets the text depend on: the handler, which of the
optional parameters are non-empty (in source order), and how many lead ids
were supplied. The `limit` of `GetSIPLog` is always bound and is no part of it. -/
def BuilderRequest.shape : BuilderRequest → Nat × List Bool × Nat
  | BuilderRequest.leadSearch phoneNumber firstName lastName email listID status =>
    (0, [phoneNumber ≠ "", firstName ≠ "", lastName ≠ "", email ≠ "", listID ≠ "",
      status ≠ ""], 0)
  | BuilderRequest.leadStatusSearch status listID => (1, [status ≠ "", listID ≠ ""], 0)
  | BuilderRequest.batchUpdateLead leadIDs status owner =>
    (2, [status ≠ "", owner ≠ ""], leadIDs.length)
  | BuilderRequest.sipLog startDate endDate leadID serverIP dialStatus sipHangupCause _ =>
    (3, [startDate ≠ "", endDate ≠ "", leadID ≠ "", serverIP ≠ "", dialStatus ≠ "",
      sipHangupCause ≠ ""], 0)
  | BuilderRequest.kpiByList listID campaignID startDate endDate =>
    (4, [listID ≠ "", campaignID ≠ "", startDate ≠ "", endDate ≠ ""], 0)

/-- The number of `?` placeholders in a statement text. -/
def placeholders (query : String) : Nat :=
  query.data.count '?'

/-- What the dial-log `Scan` leaves when no row is found: the zero values. -/
def DialLogScan.zero : DialLogScan :=
  { callDate := zeroTime, extension := "", dialChannel := "" }

/-- The entries of a `ListTestCalls` response. -/
def Response.testCalls (r : Response) : List TestCallEntry :=
  match r.body.Data with
  | some (Payload.testCalls _ calls) => calls
  | _ => []

/-- The arguments `SendTestCall` binds to `dialLogQuery` (source lines 298-299). -/
def testCallDialLogArgs (srv : ServerScan) (sqlDate : String) (leadID : Int)
    (plan : TestCallPlan) : List SqlArg :=
  [SqlArg.str plan.vQueryCID, SqlArg.int leadID, SqlArg.str srv.serverIP, SqlArg.str sqlDate,
   SqlArg.str plan.vdadDialExten, SqlArg.str plan.channel, SqlArg.int plan.localDialTimeoutMS,
   SqlArg.str plan.cidString, SqlArg.str plan.extContext]

/-- The plan of the sample test call: lead 12345 placed at `sampleClock`. -/
def samplePlan : TestCallPlan :=
  testCallPlan (testCallDefaults sampleTestCallRequest) (sampleCampaignScan "9" 30)
    sampleServerScan 12345 NullString.zero "030714"

/-- A dial log holding the row of the sample test call and a row whose caller
code follows the `TC` convention. -/
def sampleDialLog : List DialLogRow :=
  [{ caller_code := "V0307140000012345", lead_id := 12345, server_ip := "10.0.0.1",
     call_date := "2024-03-07 14:05:09", extension := "138365",
     channel := "Local/915551234567@default", timeout := 30000,
     outbound_cid := "\"V0307140000012345\" <5551112222>", context := "default" },
   { caller_code := "TC1001", lead_id := 7, server_ip := "10.0.0.1",
     call_date := "2024-03-06 09:00:00", extension := "8368",
     channel := "Local/915550000007@default", timeout := 60000, outbound_cid := "TC1001",
     context := "default" }]

/-- The command row of the sample test call, as `managerQuery` inserts it
with `man_id` 1. -/
def sampleManagerRow : ManagerRow :=
  { man_id := 1, uniqueid := "", entry_date := "2024-03-07 14:05:09", status := "NEW",
    response := "N", server_ip := "10.0.0.1", channel := "", action := "Originate",
    callerid := "V0307140000012345", cmd_line_b := "Exten: 138365",
    cmd_line_c := "Context: default", cmd_line_d := "Channel: Local/915551234567@default",
    cmd_line_e := "Priority: 1", cmd_line_f := "Callerid: \"V0307140000012345\" <5551112222>",
    cmd_line_g := "Timeout: 30000",
    cmd_line_k := "VDACnote: TESTCAMP|12345|1|5551234567|OUT|MAIN|99" }

/-- What holds of `campaignMap` after the rows `pre` have been read, whatever
the counts: one entry per campaign id seen and no other, whose total is the sum
of the counts of the rows of that campaign reduced to a Go int, and whose
disposition counts are those of these rows in order. -/
def KpiMapWrapInv (m : List CampaignDispositionStats) (pre : List KPICampaignRow) : Prop :=
  (m.map fun g => g.CampaignID).Nodup ∧
  (∀ r ∈ pre, r.campaignID ∈ m.map fun g => g.CampaignID) ∧
  (∀ g ∈ m, g.TotalCalls = wrapInt64 (campaignCounts g.CampaignID pre).sum ∧
    (g.Dispositions.map fun d => d.Count) = campaignCounts g.CampaignID pre)

/-- Two aggregated rows of one campaign with 2^62 calls each. -/
def wrapKPIRows : List KPICampaignRow :=
  [{ campaignID := "C", campaignName := "c", status := "A", count := 4611686018427387904,
     avgTalkTime := Float64.ofInt 0, totalTalkTime := Float64.ofInt 0 },
   { campaignID := "C", campaignName := "c", status := "B", count := 4611686018427387904,
     avgTalkTime := Float64.ofInt 0, totalTalkTime := Float64.ofInt 0 }]

/-- The sample database with a campaign whose dial_timeout is 9223372036854776
seconds. -/
def longTimeoutTestCallDB : TestCallDB :=
  { sampleTestCallDB "9" with
    campaign := fun _ _ => Except.ok (sampleCampaignScan "9" 9223372036854776) }

/-! ## Theorems: authentication gate -/

theorem firstNonEmpty_three (a b c : String) :
    firstNonEmpty [a, b, c]
      = (let k := a
         let k := if k = "" then b else k
         let k := if k = "" then c else k
         k) := by
  by_cases ha : a = "" <;> by_cases hb : b = "" <;> by_cases hc : c = "" <;>
    simp [firstNonEmpty, ha, hb, hc]

theorem auth_unfold (cfg : Config) (r : Request) (h : cfg.APIKey ≠ "") :
    AuthenticationMiddleware cfg r =
      if presentedKey r = "" then
        middleware.respondWithError StatusUnauthorized "Authentication required"
          "Missing API key (use header X-API-Key or query param api_key)"
      else if presentedKey r ≠ cfg.APIKey then
        middleware.respondWithError StatusUnauthorized "Authentication failed" "Invalid API key"
      else
        MiddlewareResult.callNext (r.WithContext (Context.WithValue r.Ctx userContextKey
          (CtxVal.str (if presentedUser r = "" then "api-key" else presentedUser r)))) := by
  simp only [AuthenticationMiddleware, presentedKey, presentedUser, firstNonEmpty_three, if_neg h]

theorem auth_decision (cfg : Config) (r : Request) (h : cfg.APIKey ≠ "") :
    ((AuthenticationMiddleware cfg r).accepted = true ↔ presentedKey r = cfg.APIKey) ∧
    (presentedKey r ≠ cfg.APIKey →
      (AuthenticationMiddleware cfg r).accepted = false ∧
      (AuthenticationMiddleware cfg r).status = some 401) := by
  rw [auth_unfold cfg r h]
  by_cases hk : presentedKey r = cfg.APIKey
  · have hne : presentedKey r ≠ "" := by rw [hk]; exact h
    simp [hk, h, MiddlewareResult.accepted]
  · by_cases he : presentedKey r = ""
    · have hne : ¬ "" = cfg.APIKey := fun e => h e.symm
      simp [he, hne, middleware.respondWithError, MiddlewareResult.accepted,
        MiddlewareResult.status, StatusUnauthorized]
    · simp [hk, he, middleware.respondWithError, MiddlewareResult.accepted,
        MiddlewareResult.status, StatusUnauthorized]

/-- C1: with a non-empty configured key the next handler is invoked exactly when
the presented key (first non-empty of header, query parameter, form field)
equals the configured key; otherwise it is not invoked and the status is 401. -/
theorem auth_next_iff_key_matches (cfg : Config) (r : Request) (h : cfg.APIKey ≠ "") :
    ((AuthenticationMiddleware cfg r).accepted = true ↔ presentedKey r = cfg.APIKey) ∧
    (presentedKey r ≠ cfg.APIKey →
      (AuthenticationMiddleware cfg r).accepted = false ∧
      (AuthenticationMiddleware cfg r).status = some 401) :=
  auth_decision cfg r h

theorem auth_next_iff_key_matches_witness :
    ((AuthenticationMiddleware (sampleConfig "s3cret")
        (sampleRequest [] [("api_key", "s3cret")] [])).accepted = true
      ↔ presentedKey (sampleRequest [] [("api_key", "s3cret")] []) = "s3cret") ∧
    (presentedKey (sampleRequest [] [("api_key", "s3cret")] []) ≠ "s3cret" →
      (AuthenticationMiddleware (sampleConfig "s3cret")
        (sampleRequest [] [("api_key", "s3cret")] [])).accepted = false ∧
      (AuthenticationMiddleware (sampleConfig "s3cret")
        (sampleRequest [] [("api_key", "s3cret")] [])).status = some 401) :=
  auth_next_iff_key_matches (sampleConfig "s3cret")
    (sampleRequest [] [("api_key", "s3cret")] []) (by decide)

/-- C2: a request with no X-API-Key header value and no api_key query or form
value, against a service with a configured key, gets 401 with the message
"Missing API key (use header X-API-Key or query param api_key)". -/
theorem auth_missing_key_message (cfg : Config) (r : Request) (h : cfg.APIKey ≠ "")
    (hh : Header.Get r.Header "X-API-Key" = "") (hq : Values.Get r.Query "api_key" = "")
    (hf : r.FormValue "api_key" = "") :
    AuthenticationMiddleware cfg r =
      MiddlewareResult.respond 401 "application/json"
        { Error := "Authentication required",
          Message := "Missing API key (use header X-API-Key or query param api_key)" } := by
  simp [AuthenticationMiddleware, h, hh, hq, hf, middleware.respondWithError, StatusUnauthorized]

theorem auth_missing_key_message_witness :
    AuthenticationMiddleware (sampleConfig "s3cret") (sampleRequest [("Accept", "*/*")] [] []) =
      MiddlewareResult.respond 401 "application/json"
        { Error := "Authentication required",
          Message := "Missing API key (use header X-API-Key or query param api_key)" } :=
  auth_missing_key_message (sampleConfig "s3cret") (sampleRequest [("Accept", "*/*")] [] [])
    (by decide) (by decide) (by decide) (by decide)

/-- C3: the header decides before the query parameter and the query parameter
before the form field. Two requests with the same non-empty X-API-Key header get
the same accept/reject decision whatever their query and form values; a non-empty
header that is not the configured key is rejected; with an empty header, two
requests with the same non-empty api_key query value get the same decision
whatever their form values. -/
theorem auth_source_precedence (cfg : Config) (r₁ r₂ : Request) :
    (Header.Get r₁.Header "X-API-Key" ≠ "" →
      Header.Get r₁.Header "X-API-Key" = Header.Get r₂.Header "X-API-Key" →
      (AuthenticationMiddleware cfg r₁).accepted = (AuthenticationMiddleware cfg r₂).accepted) ∧
    (Header.Get r₁.Header "X-API-Key" ≠ "" →
      Header.Get r₁.Header "X-API-Key" ≠ cfg.APIKey →
      (AuthenticationMiddleware cfg r₁).accepted = false) ∧
    (Header.Get r₁.Header "X-API-Key" = "" → Header.Get r₂.Header "X-API-Key" = "" →
      Values.Get r₁.Query "api_key" ≠ "" →
      Values.Get r₁.Query "api_key" = Values.Get r₂.Query "api_key" →
      (AuthenticationMiddleware cfg r₁).accepted = (AuthenticationMiddleware cfg r₂).accepted) := by
  by_cases h : cfg.APIKey = ""
  · simp [AuthenticationMiddleware, h, middleware.respondWithError, MiddlewareResult.accepted]
  · have key : ∀ r : Request, (AuthenticationMiddleware cfg r).accepted
        = decide (presentedKey r = cfg.APIKey) := by
      intro r
      have := (auth_decision cfg r h).1
      by_cases hk : presentedKey r = cfg.APIKey
      · simp [hk, this.2 hk]
      · have hf : (AuthenticationMiddleware cfg r).accepted ≠ true := fun ht => hk (this.1 ht)
        simp [hk] at hf ⊢
        exact hf
    refine ⟨?_, ?_, ?_⟩
    · intro hne heq
      have hne2 : Header.Get r₂.Header "X-API-Key" ≠ "" := heq ▸ hne
      rw [key, key]
      simp [presentedKey, firstNonEmpty, hne, hne2, heq]
    · intro hne hbad
      rw [key]
      simp [presentedKey, firstNonEmpty, hne, hbad]
    · intro h1 h2 hne heq
      have hne2 : Values.Get r₂.Query "api_key" ≠ "" := heq ▸ hne
      rw [key, key]
      simp [presentedKey, firstNonEmpty, h1, h2, hne, hne2, heq]

theorem auth_source_precedence_witness :
    (AuthenticationMiddleware (sampleConfig "s3cret")
        (sampleRequest [("X-Api-Key", "wrong")] [("api_key", "s3cret")] [])).accepted
      = (AuthenticationMiddleware (sampleConfig "s3cret")
        (sampleRequest [("X-Api-Key", "wrong")] [] [("api_key", "other")])).accepted ∧
    (AuthenticationMiddleware (sampleConfig "s3cret")
        (sampleRequest [("X-Api-Key", "wrong")] [("api_key", "s3cret")] [])).accepted = false ∧
    (AuthenticationMiddleware (sampleConfig "s3cret")
        (sampleRequest [] [("api_key", "s3cret")] [("api_key", "wrong")])).accepted
      = (AuthenticationMiddleware (sampleConfig "s3cret")
        (sampleRequest [] [("api_key", "s3cret")] [])).accepted :=
  ⟨(auth_source_precedence (sampleConfig "s3cret")
      (sampleRequest [("X-Api-Key", "wrong")] [("api_key", "s3cret")] [])
      (sampleRequest [("X-Api-Key", "wrong")] [] [("api_key", "other")])).1
      (by decide) (by decide),
   (auth_source_precedence (sampleConfig "s3cret")
      (sampleRequest [("X-Api-Key", "wrong")] [("api_key", "s3cret")] [])
      (sampleRequest [("X-Api-Key", "wrong")] [] [("api_key", "other")])).2.1
      (by decide) (by decide),
   (auth_source_precedence (sampleConfig "s3cret")
      (sampleRequest [] [("api_key", "s3cret")] [("api_key", "wrong")])
      (sampleRequest [] [("api_key", "s3cret")] [])).2.2
      (by decide) (by decide) (by decide) (by decide)⟩

/-- C4: with an empty configured key (what LoadConfig yields when API_KEY is
unset) the middleware never invokes the next handler and answers 500 with error
"Authentication not configured" and message "Missing API_KEY in environment",
whatever the request carries. -/
theorem auth_fails_closed_when_unconfigured :
    (∀ env : Environ, env "API_KEY" = "" → (LoadConfig env).APIKey = "") ∧
    (∀ (cfg : Config) (r : Request), cfg.APIKey = "" →
      AuthenticationMiddleware cfg r =
        MiddlewareResult.respond 500 "application/json"
          { Error := "Authentication not configured",
            Message := "Missing API_KEY in environment" } ∧
      (AuthenticationMiddleware cfg r).accepted = false) := by
  refine ⟨?_, ?_⟩
  · intro env h
    simp [LoadConfig, getEnv, h]
  · intro cfg r h
    simp [AuthenticationMiddleware, h, middleware.respondWithError, StatusInternalServerError,
      MiddlewareResult.accepted]

theorem auth_fails_closed_when_unconfigured_witness :
    (LoadConfig fun _ => "").APIKey = "" ∧
    AuthenticationMiddleware (LoadConfig fun _ => "")
        (sampleRequest [("X-Api-Key", "anything")] [("api_key", "x")] []) =
      MiddlewareResult.respond 500 "application/json"
        { Error := "Authentication not configured",
          Message := "Missing API_KEY in environment" } :=
  ⟨auth_fails_closed_when_unconfigured.1 (fun _ => "") rfl,
   (auth_fails_closed_when_unconfigured.2 (LoadConfig fun _ => "")
      (sampleRequest [("X-Api-Key", "anything")] [("api_key", "x")] []) (by decide)).1⟩

/-- C5: when the middleware calls the next handler, GetUserFromContext on the
context it hands over is the first non-empty value among header X-User, query
parameter user and form field user, or "api-key" when all three are empty; it is
never the empty string. -/
theorem auth_user_label (cfg : Config) (r r' : Request)
    (h : AuthenticationMiddleware cfg r = MiddlewareResult.callNext r') :
    GetUserFromContext r'.Ctx
        = (if presentedUser r = "" then "api-key" else presentedUser r) ∧
    GetUserFromContext r'.Ctx ≠ "" := by
  have hcfg : cfg.APIKey ≠ "" := by
    intro h0
    simp [AuthenticationMiddleware, h0, middleware.respondWithError] at h
  rw [auth_unfold cfg r hcfg] at h
  by_cases he : presentedKey r = ""
  · simp [he, middleware.respondWithError] at h
  · by_cases hk : presentedKey r = cfg.APIKey
    · rw [if_neg he, if_neg (not_not.mpr hk)] at h
      injection h with h
      subst h
      have hval : GetUserFromContext (Request.WithContext r (Context.WithValue r.Ctx userContextKey
          (CtxVal.str (if presentedUser r = "" then "api-key" else presentedUser r)))).Ctx
          = (if presentedUser r = "" then "api-key" else presentedUser r) := by
        simp [GetUserFromContext, Request.WithContext, Context.WithValue, Context.Value]
      refine ⟨hval, ?_⟩
      rw [hval]
      by_cases hu : presentedUser r = ""
      · simp [hu]
      · simp [hu]
    · simp [he, hk, middleware.respondWithError] at h

theorem auth_user_label_witness :
    GetUserFromContext (Request.WithContext
        (sampleRequest [("X-Api-Key", "s3cret")] [("user", "alice")] [])
        [(userContextKey, CtxVal.str "alice")]).Ctx
      = (if presentedUser (sampleRequest [("X-Api-Key", "s3cret")] [("user", "alice")] []) = ""
          then "api-key"
          else presentedUser (sampleRequest [("X-Api-Key", "s3cret")] [("user", "alice")] [])) ∧
    GetUserFromContext (Request.WithContext
        (sampleRequest [("X-Api-Key", "s3cret")] [("user", "alice")] [])
        [(userContextKey, CtxVal.str "alice")]).Ctx ≠ "" :=
  auth_user_label (sampleConfig "s3cret")
    (sampleRequest [("X-Api-Key", "s3cret")] [("user", "alice")] []) _ (by decide)

/-! ## Theorems: lead handlers -/

theorem mapIndex_validFields (field : String) :
    mapIndex validFields field = true ↔ field ∈ allowListedFields := by
  simp only [validFields, mapIndex, allowListedFields, List.mem_cons, List.mem_singleton,
    List.not_mem_nil, or_false]
  constructor
  · intro h
    split_ifs at h with h1 h2 h3 h4 h5 h6 h7 h8 h9
    · exact Or.inl h1.symm
    · exact Or.inr (Or.inl h2.symm)
    · exact Or.inr (Or.inr (Or.inl h3.symm))
    · exact Or.inr (Or.inr (Or.inr (Or.inl h4.symm)))
    · exact Or.inr (Or.inr (Or.inr (Or.inr (Or.inl h5.symm))))
    · exact Or.inr (Or.inr (Or.inr (Or.inr (Or.inr (Or.inl h6.symm)))))
    · exact Or.inr (Or.inr (Or.inr (Or.inr (Or.inr (Or.inr (Or.inl h7.symm))))))
    · exact Or.inr (Or.inr (Or.inr (Or.inr (Or.inr (Or.inr (Or.inr (Or.inl h8.symm)))))))
    · exact Or.inr (Or.inr (Or.inr (Or.inr (Or.inr (Or.inr (Or.inr (Or.inr h9.symm)))))))
  · intro h
    rcases h with h | h | h | h | h | h | h | h | h <;> subst h <;> decide

/-- C6: a field value outside the nine allow-listed names gets 400 and no
database call is made; for an allow-listed name exactly one call is made, the
row lookup with text "SELECT <field> FROM vicidial_list WHERE lead_id = ?" bound
to the lead id. -/
theorem leadFieldInfo_allow_list (queryRow : String → List SqlArg → Except RowError String)
    (leadID field : String) :
    (field ∉ allowListedFields →
      (LeadFieldInfo queryRow leadID field).1.code = 400 ∧
      (LeadFieldInfo queryRow leadID field).2 = []) ∧
    (field ∈ allowListedFields →
      (LeadFieldInfo queryRow leadID field).2 =
        [DBCall.QueryRow ("SELECT " ++ field ++ " FROM vicidial_list WHERE lead_id = ?")
          [SqlArg.str leadID]]) := by
  constructor
  · intro hno
    have hv : mapIndex validFields field = false := by
      cases hm : mapIndex validFields field with
      | false => rfl
      | true => exact absurd ((mapIndex_validFields field).1 hm) hno
    unfold LeadFieldInfo
    by_cases he : field = ""
    · simp [he, respondWithError, respondWithJSON, StatusBadRequest]
    · simp [he, hv, respondWithError, respondWithJSON, StatusBadRequest]
  · intro hyes
    have hv : mapIndex validFields field = true := (mapIndex_validFields field).2 hyes
    have he : field ≠ "" := by
      intro h0
      subst h0
      exact absurd hyes (by decide)
    unfold LeadFieldInfo
    simp only [he, hv, if_false, Bool.not_true]
    cases hq : queryRow ("SELECT " ++ field ++ " FROM vicidial_list WHERE lead_id = ?")
        [SqlArg.str leadID] with
    | ok value => simp
    | error e => cases e <;> simp

theorem leadFieldInfo_allow_list_witness :
    ((LeadFieldInfo (queryRowReturning "x") "5" "password; DROP TABLE vicidial_list").1.code = 400 ∧
      (LeadFieldInfo (queryRowReturning "x") "5" "password; DROP TABLE vicidial_list").2 = []) ∧
    (LeadFieldInfo (queryRowReturning "x") "5" "email").2 =
      [DBCall.QueryRow ("SELECT " ++ "email" ++ " FROM vicidial_list WHERE lead_id = ?")
        [SqlArg.str "5"]] :=
  ⟨(leadFieldInfo_allow_list (queryRowReturning "x") "5"
      "password; DROP TABLE vicidial_list").1 (by decide),
   (leadFieldInfo_allow_list (queryRowReturning "x") "5" "email").2 (by decide)⟩

/-- C7 as stated fails: a payload that carries a `lead_id` (here 999) gets a
data record whose `lead_id` is the id the insert reported (here 42), so not
every caller-supplied field outside status and country_code comes back
unchanged. -/
theorem addLead_replaces_supplied_lead_id :
    (AddLead (execAssigning 42) (some { scenarioLead with LeadID := 999 })).1.code = 200 ∧
    (AddLead (execAssigning 42) (some { scenarioLead with LeadID := 999 })).1.body.Data
      = some (Payload.lead
          { scenarioLead with LeadID := 42, Status := "NEW", CountryCode := "1" }) ∧
    ({ scenarioLead with LeadID := 42, Status := "NEW", CountryCode := "1" } : Lead).LeadID
      ≠ ({ scenarioLead with LeadID := 999 } : Lead).LeadID := by
  decide

/-- C7 (amended): for a payload with a non-empty phone number and a non-zero
list id whose insert succeeds, AddLead answers 200 with success true and a data
record that is the payload with status defaulted to "NEW" when empty,
country_code defaulted to "1" when empty, lead_id set to the id the insert
reported, and every other field unchanged. -/
theorem addLead_success_record (exec : String → List SqlArg → Except String SqlResult)
    (lead : Lead) (result : SqlResult)
    (hp : lead.PhoneNumber ≠ "") (hl : lead.ListID ≠ 0)
    (hok : exec addLeadQuery (addLeadArgs (leadWithDefaults lead)) = Except.ok result) :
    (AddLead exec (some lead)).1.code = 200 ∧
    (AddLead exec (some lead)).1.body.Success = true ∧
    (AddLead exec (some lead)).1.body.Data = some (Payload.lead
      { lead with
        LeadID := result.LastInsertId
        Status := if lead.Status = "" then "NEW" else lead.Status
        CountryCode := if lead.CountryCode = "" then "1" else lead.CountryCode }) := by
  have hdef : (if (if lead.Status = "" then { lead with Status := "NEW" } else lead).CountryCode = ""
      then { (if lead.Status = "" then { lead with Status := "NEW" } else lead) with
              CountryCode := "1" }
      else (if lead.Status = "" then { lead with Status := "NEW" } else lead))
      = leadWithDefaults lead := by
    unfold leadWithDefaults
    by_cases hs : lead.Status = "" <;> by_cases hc : lead.CountryCode = "" <;> simp [hs, hc]
  unfold AddLead
  simp only [hp, hl, or_self, if_false, hdef, hok]
  simp [respondWithSuccess, respondWithJSON, StatusOK, leadWithDefaults]

theorem addLead_success_record_witness :
    (AddLead (execAssigning 42) (some scenarioLead)).1.code = 200 ∧
    (AddLead (execAssigning 42) (some scenarioLead)).1.body.Success = true ∧
    (AddLead (execAssigning 42) (some scenarioLead)).1.body.Data = some (Payload.lead
      { scenarioLead with
        LeadID := (SqlResult.mk 42 1).LastInsertId
        Status := if scenarioLead.Status = "" then "NEW" else scenarioLead.Status
        CountryCode := if scenarioLead.CountryCode = "" then "1" else scenarioLead.CountryCode }) :=
  addLead_success_record (execAssigning 42) scenarioLead (SqlResult.mk 42 1)
    (by decide) (by decide) rfl

/-! ## Theorems: hopper bulk insert -/

theorem insertIgnore_count (eng : Engine) (rows : List HopperRow) :
    ∀ table : List HopperRow,
      0 ≤ (insertIgnore eng table rows).2 ∧ (insertIgnore eng table rows).2 ≤ rows.length := by
  induction rows with
  | nil => intro table; simp [insertIgnore]
  | cons row rest ih =>
    intro table
    unfold insertIgnore
    by_cases hc : eng.hopperKeyClash row table = true
    · have := ih table
      rw [if_pos hc]
      simp only [List.length_cons, Nat.cast_add, Nat.cast_one]
      omega
    · have := ih (table ++ [row])
      rw [if_neg hc]
      simp only [List.length_cons, Nat.cast_add, Nat.cast_one]
      omega

theorem filter_lead_id_length (leadID : Int) (l : List ListRow)
    (hkey : (l.map fun row => row.lead_id).Nodup) :
    (l.filter fun row => row.lead_id = leadID).length ≤ 1 := by
  induction l with
  | nil => simp
  | cons row rest ih =>
    rw [List.map_cons, List.nodup_cons] at hkey
    by_cases hr : row.lead_id = leadID
    · have hnone : (rest.filter fun r => r.lead_id = leadID) = [] := by
        rw [List.filter_eq_nil_iff]
        intro r hmem hdec
        have hreq : r.lead_id = leadID := by simpa using hdec
        apply hkey.1
        rw [hr, ← hreq]
        exact List.mem_map.2 ⟨r, hmem, rfl⟩
      simp [List.filter_cons, hr, hnone]
    · have := ih hkey.2
      simpa [List.filter_cons, hr] using this

theorem execHopperInsert_rows (eng : Engine) (w : DB) (campaignID : String) (priority : Int)
    (source : String) (leadID : Int)
    (hkey : (w.vicidial_list.map fun row => row.lead_id).Nodup) :
    0 ≤ (execHopperInsert eng w campaignID priority source leadID).2.RowsAffected ∧
    (execHopperInsert eng w campaignID priority source leadID).2.RowsAffected ≤ 1 ∧
    (execHopperInsert eng w campaignID priority source leadID).1.vicidial_list
      = w.vicidial_list := by
  have hlen := filter_lead_id_length leadID w.vicidial_list hkey
  refine ⟨?_, ?_, rfl⟩
  · exact (insertIgnore_count eng _ _).1
  · have h2 := (insertIgnore_count eng
      ((w.vicidial_list.filter fun row => row.lead_id = leadID).map fun row =>
        ({ lead_id := row.lead_id, campaign_id := campaignID, status := "READY",
           priority := priority, source := source, list_id := row.list_id } : HopperRow))
      w.vicidial_hopper).2
    rw [List.length_map] at h2
    simp only [execHopperInsert]
    omega

theorem hopperInsertLoop_ok_bound (eng : Engine) (faults : Faults) (campaignID : String)
    (priority : Int) (source : String) (ids : List Int) :
    ∀ (k : Nat) (w : DB) (c : Int) (tr : List DBCall) (w' : DB) (c' : Int) (tr' : List DBCall),
      (w.vicidial_list.map fun row => row.lead_id).Nodup →
      hopperInsertLoop eng faults campaignID priority source ids k w c tr
        = Except.ok (w', c', tr') →
      c ≤ c' ∧ c' ≤ c + ids.length := by
  induction ids with
  | nil =>
    intro k w c tr w' c' tr' _ h
    simp only [hopperInsertLoop, Except.ok.injEq, Prod.mk.injEq] at h
    simp [← h.2.1]
  | cons leadID rest ih =>
    intro k w c tr w' c' tr' hkey h
    unfold hopperInsertLoop at h
    cases hf : faults.exec k with
    | some err => simp [hf] at h
    | none =>
      simp only [hf] at h
      have hrows := execHopperInsert_rows eng w campaignID priority source leadID hkey
      have hkey' : ((execHopperInsert eng w campaignID priority source leadID).1.vicidial_list.map
          fun row => row.lead_id).Nodup := by rw [hrows.2.2]; exact hkey
      have := ih _ _ _ _ _ _ _ hkey' h
      simp only [List.length_cons, Nat.cast_add, Nat.cast_one]
      omega

theorem hopperInsertLoop_first_failure (eng : Engine) (faults : Faults) (campaignID : String)
    (priority : Int) (source : String) (err : String) (ids : List Int) :
    ∀ (k₀ k : Nat) (w : DB) (c : Int) (tr : List DBCall),
      k < ids.length → faults.exec (k₀ + k) = some err →
      (∀ j, j < k → faults.exec (k₀ + j) = Option.none) →
      hopperInsertLoop eng faults campaignID priority source ids k₀ w c tr
        = Except.error (err,
            tr ++ (ids.take (k + 1)).map (hopperExecCall campaignID priority source)) := by
  induction ids with
  | nil => intro k₀ k w c tr hk; simp at hk
  | cons leadID rest ih =>
    intro k₀ k w c tr hk hfail hfirst
    unfold hopperInsertLoop
    cases k with
    | zero =>
      have h0 : faults.exec k₀ = some err := by simpa using hfail
      simp [h0]
    | succ k =>
      have h0 : faults.exec k₀ = Option.none := by simpa using hfirst 0 (Nat.succ_pos k)
      simp only [h0]
      have hk' : k < rest.length := by simpa using hk
      have hfail' : faults.exec (k₀ + 1 + k) = some err := by
        rw [show k₀ + 1 + k = k₀ + (k + 1) by omega]; exact hfail
      have hfirst' : ∀ j, j < k → faults.exec (k₀ + 1 + j) = Option.none := by
        intro j hj
        rw [show k₀ + 1 + j = k₀ + (j + 1) by omega]
        exact hfirst (j + 1) (by omega)
      rw [ih (k₀ + 1) k _ _ _ hk' hfail' hfirst']
      simp

/-- C8: when lead_id is a key of vicidial_list (at most one row per lead id),
every hopper bulk insert that answers 200 reports requested equal to the number
of lead ids supplied and inserted between 0 and requested. -/
theorem hopper_inserted_le_requested (eng : Engine) (faults : Faults) (db : DB)
    (campaignID : String) (req : HopperRequest)
    (hkey : (db.vicidial_list.map fun row => row.lead_id).Nodup)
    (hok : (HopperBulkInsert eng faults db campaignID (some req)).response.code = 200) :
    ∃ inserted : Int,
      (HopperBulkInsert eng faults db campaignID (some req)).response.body.Data
        = some (Payload.intMap [("requested", (req.LeadIDs.length : Int)),
            ("inserted", inserted)]) ∧
      0 ≤ inserted ∧ inserted ≤ (req.LeadIDs.length : Int) := by
  unfold HopperBulkInsert at hok ⊢
  by_cases hlen : req.LeadIDs.length = 0
  · simp [hlen, respondWithError, respondWithJSON, StatusBadRequest] at hok
  · simp only [hlen, if_false] at hok ⊢
    cases hb : faults.beginTx with
    | some e =>
      simp [hb, respondWithError, respondWithJSON, StatusInternalServerError] at hok
    | none =>
      simp only [hb] at hok ⊢
      have hids : (if req.Source = "" then { req with Source := "API" } else req).LeadIDs
          = req.LeadIDs := by
        by_cases hs : req.Source = "" <;> simp [hs]
      have hpri : (if req.Source = "" then { req with Source := "API" } else req).Priority
          = req.Priority := by
        by_cases hs : req.Source = "" <;> simp [hs]
      simp only [hids, hpri] at hok ⊢
      cases hloop : hopperInsertLoop eng faults campaignID req.Priority
          (if req.Source = "" then { req with Source := "API" } else req).Source
          req.LeadIDs 0 db 0 [DBCall.Begin] with
      | error e =>
        obtain ⟨msg, tr⟩ := e
        simp [hloop, respondWithError, respondWithJSON, StatusInternalServerError] at hok
      | ok out =>
        obtain ⟨w, insertCount, tr⟩ := out
        have hb := hopperInsertLoop_ok_bound eng faults campaignID req.Priority _ req.LeadIDs
          0 db 0 [DBCall.Begin] w insertCount tr hkey hloop
        refine ⟨insertCount, ?_, ?_, ?_⟩
        · simp [respondWithSuccess, respondWithJSON]
        · omega
        · omega

theorem hopper_inserted_le_requested_witness :
    ∃ inserted : Int,
      (HopperBulkInsert sampleEngine Faults.none sampleDB "CAMP"
          (some { LeadIDs := [1, 2, 3, 1], Priority := 5, Source := "" })).response.body.Data
        = some (Payload.intMap
            [("requested",
                ((({ LeadIDs := [1, 2, 3, 1], Priority := 5, Source := "" } :
                  HopperRequest).LeadIDs.length : Nat) : Int)),
             ("inserted", inserted)]) ∧
      0 ≤ inserted ∧
      inserted ≤ ((({ LeadIDs := [1, 2, 3, 1], Priority := 5, Source := "" } :
        HopperRequest).LeadIDs.length : Nat) : Int) :=
  hopper_inserted_le_requested sampleEngine Faults.none sampleDB "CAMP"
    { LeadIDs := [1, 2, 3, 1], Priority := 5, Source := "" } (by decide) (by decide)

/-- C9: when the transaction starts and the driver fails the insert for the
k-th lead id (the first insert to fail), HopperBulkInsert answers 500, the
database is exactly as before the request, the calls made are Begin, the
inserts for the first k+1 ids and Rollback, so no later insert is attempted and
Commit is never called. -/
theorem hopper_all_or_nothing (eng : Engine) (faults : Faults) (db : DB) (campaignID : String)
    (req : HopperRequest) (k : Nat) (err : String)
    (hbegin : faults.beginTx = Option.none)
    (hk : k < req.LeadIDs.length)
    (hfail : faults.exec k = some err)
    (hfirst : ∀ j, j < k → faults.exec j = Option.none) :
    (HopperBulkInsert eng faults db campaignID (some req)).response
      = respondWithError 500 ("Failed to insert lead: " ++ err) ∧
    (HopperBulkInsert eng faults db campaignID (some req)).db = db ∧
    (HopperBulkInsert eng faults db campaignID (some req)).calls
      = [DBCall.Begin]
        ++ (req.LeadIDs.take (k + 1)).map
            (hopperExecCall campaignID req.Priority
              (if req.Source = "" then "API" else req.Source))
        ++ [DBCall.Rollback] ∧
    DBCall.Commit ∉ (HopperBulkInsert eng faults db campaignID (some req)).calls := by
  have hlen : req.LeadIDs.length ≠ 0 := by omega
  have hids : (if req.Source = "" then { req with Source := "API" } else req).LeadIDs
      = req.LeadIDs := by
    by_cases hs : req.Source = "" <;> simp [hs]
  have hpri : (if req.Source = "" then { req with Source := "API" } else req).Priority
      = req.Priority := by
    by_cases hs : req.Source = "" <;> simp [hs]
  have hsrc : (if req.Source = "" then { req with Source := "API" } else req).Source
      = (if req.Source = "" then "API" else req.Source) := by
    by_cases hs : req.Source = "" <;> simp [hs]
  have hloop := hopperInsertLoop_first_failure eng faults campaignID req.Priority
    (if req.Source = "" then "API" else req.Source) err req.LeadIDs 0 k db 0 [DBCall.Begin] hk
    (by simpa using hfail) (by simpa using hfirst)
  have hrun : HopperBulkInsert eng faults db campaignID (some req)
      = { response := respondWithError StatusInternalServerError
            ("Failed to insert lead: " ++ err),
          db := db,
          calls := ([DBCall.Begin] ++ (req.LeadIDs.take (k + 1)).map
            (hopperExecCall campaignID req.Priority
              (if req.Source = "" then "API" else req.Source))) ++ [DBCall.Rollback] } := by
    unfold HopperBulkInsert
    simp only [hlen, if_false, hbegin, hids, hpri, hsrc, hloop]
  rw [hrun]
  refine ⟨rfl, rfl, rfl, ?_⟩
  intro hmem
  rcases List.mem_append.1 hmem with h | h
  · rcases List.mem_append.1 h with h | h
    · simp at h
    · obtain ⟨id, _, hid⟩ := List.mem_map.1 h
      simp [hopperExecCall] at hid
  · simp at h

theorem hopper_all_or_nothing_witness :
    (HopperBulkInsert sampleEngine (failExecAt 1 "lock wait timeout") sampleDB "CAMP"
        (some { LeadIDs := [1, 2, 3], Priority := 5, Source := "" })).response
      = respondWithError 500 ("Failed to insert lead: " ++ "lock wait timeout") ∧
    (HopperBulkInsert sampleEngine (failExecAt 1 "lock wait timeout") sampleDB "CAMP"
        (some { LeadIDs := [1, 2, 3], Priority := 5, Source := "" })).db = sampleDB ∧
    (HopperBulkInsert sampleEngine (failExecAt 1 "lock wait timeout") sampleDB "CAMP"
        (some { LeadIDs := [1, 2, 3], Priority := 5, Source := "" })).calls
      = [DBCall.Begin]
        ++ ((({ LeadIDs := [1, 2, 3], Priority := 5, Source := "" } :
              HopperRequest).LeadIDs).take (1 + 1)).map
            (hopperExecCall "CAMP"
              ({ LeadIDs := [1, 2, 3], Priority := 5, Source := "" } : HopperRequest).Priority
              (if ({ LeadIDs := [1, 2, 3], Priority := 5, Source := "" } :
                  HopperRequest).Source = "" then "API"
               else ({ LeadIDs := [1, 2, 3], Priority := 5, Source := "" } :
                  HopperRequest).Source))
        ++ [DBCall.Rollback] ∧
    DBCall.Commit ∉ (HopperBulkInsert sampleEngine (failExecAt 1 "lock wait timeout") sampleDB
        "CAMP" (some { LeadIDs := [1, 2, 3], Priority := 5, Source := "" })).calls :=
  hopper_all_or_nothing sampleEngine (failExecAt 1 "lock wait timeout") sampleDB "CAMP"
    { LeadIDs := [1, 2, 3], Priority := 5, Source := "" } 1 "lock wait timeout"
    rfl (by decide) rfl (by intro j hj; interval_cases j; rfl)

/-! ## Theorems: lead dearchive -/

theorem insertAll_archive_unchanged (eng : Engine) (w w₁ : DB) (leadID : String)
    (h : execDearchiveInsert eng w leadID = some w₁) :
    w₁.vicidial_list_archive = w.vicidial_list_archive := by
  unfold execDearchiveInsert at h
  cases hi : insertAll eng w.vicidial_list
      (w.vicidial_list_archive.filter fun row => eng.intEqString row.lead_id leadID) with
  | none => simp [hi] at h
  | some table =>
    simp only [hi, Option.some.injEq] at h
    rw [← h]

theorem dearchive_restored_no_match (eng : Engine) (faults : Faults) (db : DB) (leadID : String)
    (h200 : (LeadDearchive eng faults db leadID).response.code = 200)
    (hcommit : faults.commit = Option.none) :
    ((LeadDearchive eng faults db leadID).db.vicidial_list_archive.filter
      fun row => eng.intEqString row.lead_id leadID) = [] := by
  unfold LeadDearchive at h200 ⊢
  generalize dearchiveLookup eng faults db leadID = lookup at h200 ⊢
  rcases lookup with (_ | msg) | lead
  · simp [respondWithError, respondWithJSON, StatusNotFound] at h200
  all_goals
    simp only [] at h200 ⊢
    cases hb : faults.beginTx with
    | some e =>
      simp [hb, respondWithError, respondWithJSON, StatusInternalServerError] at h200
    | none =>
      simp only [hb] at h200 ⊢
      cases h0 : faults.exec 0 with
      | some e =>
        simp [h0, respondWithError, respondWithJSON, StatusInternalServerError] at h200
      | none =>
        cases hi : execDearchiveInsert eng db leadID with
        | none =>
          simp [h0, hi, respondWithError, respondWithJSON, StatusInternalServerError] at h200
        | some w₁ =>
          simp only [h0, hi] at h200 ⊢
          cases h1 : faults.exec 1 with
          | some e =>
            simp [h1, respondWithError, respondWithJSON, StatusInternalServerError] at h200
          | none =>
            simp only [h1, commitTx, hcommit, execDearchiveDelete]
            rw [List.filter_eq_nil_iff]
            intro row hmem
            have := (List.mem_filter.1 hmem).2
            simpa using this

theorem dearchive_absent_lead (eng : Engine) (faults : Faults) (db : DB) (leadID : String)
    (hnone : (db.vicidial_list_archive.filter
      fun row => eng.intEqString row.lead_id leadID) = []) :
    (LeadDearchive eng faults db leadID).db = db ∧
    (faults.queryRow = Option.none →
      (LeadDearchive eng faults db leadID).response
        = respondWithError 404 "Archived lead not found" ∧
      (LeadDearchive eng faults db leadID).calls
        = [DBCall.QueryRow dearchiveLookupQuery [SqlArg.str leadID]]) := by
  have hins : execDearchiveInsert eng db leadID = some db := by
    simp [execDearchiveInsert, hnone, insertAll]
  have hdel : execDearchiveDelete eng db leadID = db := by
    have hsame : (db.vicidial_list_archive.filter
        fun row => !(eng.intEqString row.lead_id leadID)) = db.vicidial_list_archive := by
      rw [List.filter_eq_self]
      intro row hmem
      have hrow := (List.filter_eq_nil_iff.1 hnone) row hmem
      simpa using hrow
    simp [execDearchiveDelete, hsame]
  constructor
  · unfold LeadDearchive
    split
    · rfl
    · cases hb : faults.beginTx with
      | some e => rfl
      | none =>
        simp only [hb]
        cases h0 : faults.exec 0 with
        | some e => rfl
        | none =>
          simp only [h0, hins]
          cases h1 : faults.exec 1 with
          | some e => rfl
          | none =>
            simp only [h1, hdel, commitTx]
            cases faults.commit <;> rfl
  · intro hq
    have hlook : dearchiveLookup eng faults db leadID = Except.error RowError.ErrNoRows := by
      simp [dearchiveLookup, hq, hnone]
    unfold LeadDearchive
    simp [hlook, StatusNotFound]

/-- After a LeadDearchive invocation that answered 200 and whose commit went
through, a second invocation for the same lead id leaves the active and archive
tables (the whole database) unchanged whatever happens to it, and whenever its
archive lookup reaches the server it answers 404 "Archived lead not found" after
that single lookup. -/
theorem dearchive_second_invocation (eng : Engine) (first second : Faults) (db : DB)
    (leadID : String)
    (h200 : (LeadDearchive eng first db leadID).response.code = 200)
    (hcommit : first.commit = Option.none) :
    (LeadDearchive eng second (LeadDearchive eng first db leadID).db leadID).db
      = (LeadDearchive eng first db leadID).db ∧
    (second.queryRow = Option.none →
      (LeadDearchive eng second (LeadDearchive eng first db leadID).db leadID).response
        = respondWithError 404 "Archived lead not found" ∧
      (LeadDearchive eng second (LeadDearchive eng first db leadID).db leadID).calls
        = [DBCall.QueryRow dearchiveLookupQuery [SqlArg.str leadID]]) :=
  dearchive_absent_lead eng second _ leadID
    (dearchive_restored_no_match eng first db leadID h200 hcommit)

theorem dearchive_second_invocation_witness :
    (LeadDearchive sampleEngine Faults.none
        (LeadDearchive sampleEngine Faults.none sampleDB "7").db "7").db
      = (LeadDearchive sampleEngine Faults.none sampleDB "7").db ∧
    (Faults.none.queryRow = Option.none →
      (LeadDearchive sampleEngine Faults.none
          (LeadDearchive sampleEngine Faults.none sampleDB "7").db "7").response
        = respondWithError 404 "Archived lead not found" ∧
      (LeadDearchive sampleEngine Faults.none
          (LeadDearchive sampleEngine Faults.none sampleDB "7").db "7").calls
        = [DBCall.QueryRow dearchiveLookupQuery [SqlArg.str "7"]]) :=
  dearchive_second_invocation sampleEngine Faults.none Faults.none sampleDB "7"
    (by decide) rfl

theorem dearchive_error_keeps_tables (eng : Engine) (faults : Faults) (db : DB)
    (leadID : String) (herr : (LeadDearchive eng faults db leadID).response.code ≠ 200) :
    (LeadDearchive eng faults db leadID).db = db := by
  unfold LeadDearchive at herr ⊢
  generalize dearchiveLookup eng faults db leadID = lookup at herr ⊢
  rcases lookup with (_ | msg) | lead
  · rfl
  all_goals
    simp only [] at herr ⊢
    cases hb : faults.beginTx with
    | some e => rfl
    | none =>
      simp only [hb] at herr ⊢
      cases h0 : faults.exec 0 with
      | some e => rfl
      | none =>
        cases hi : execDearchiveInsert eng db leadID with
        | none => rfl
        | some w₁ =>
          simp only [h0, hi] at herr ⊢
          cases h1 : faults.exec 1 with
          | some e => rfl
          | none =>
            simp [h1, respondWithSuccess, respondWithJSON, StatusOK] at herr

/-- C11 (the code at the failing inputs): a driver error on the archive lookup
for lead "9", which is in neither table, is not treated as an error: the
handler commits an empty move and answers 200 "Lead restored successfully" with
lead_id 0 while no row of lead 9 is in the active table; and when Commit fails
for the archived lead "7" the handler still answers 200 while the row is still
in the archive table and not in the active table. -/
theorem dearchive_reports_success_without_restore :
    ((LeadDearchive sampleEngine { Faults.none with queryRow := some "invalid connection" }
        sampleDB "9").response
      = respondWithSuccess "Lead restored successfully" (Payload.intMap [("lead_id", 0)]) ∧
     (LeadDearchive sampleEngine { Faults.none with queryRow := some "invalid connection" }
        sampleDB "9").db.vicidial_list.filter (fun row => row.lead_id = 9) = []) ∧
    ((LeadDearchive sampleEngine { Faults.none with commit := some "connection lost" }
        sampleDB "7").response.code = 200 ∧
     (LeadDearchive sampleEngine { Faults.none with commit := some "connection lost" }
        sampleDB "7").db.vicidial_list.filter (fun row => row.lead_id = 7) = [] ∧
     (LeadDearchive sampleEngine { Faults.none with commit := some "connection lost" }
        sampleDB "7").db.vicidial_list_archive = sampleDB.vicidial_list_archive) := by
  decide

/-! ## Theorems: DNC -/

/-- C14: DeleteDNCPhone with a non-empty phone number and no campaign_id, when
the statement goes through, removes exactly the rows whose phone number the
server compares equal (whatever their campaign), keeps every other row as it
was and in order, and reports rows_deleted equal to the number of rows that
matched before the call. -/
theorem deleteDNC_all_campaigns (collate : String → String → Bool) (table : List DNCRow)
    (phoneNumber : String) (hp : phoneNumber ≠ "") :
    (DeleteDNCPhone collate Option.none table phoneNumber "").1
      = respondWithSuccess "DNC entry deleted"
          (Payload.intMap [("rows_deleted",
            ((table.filter fun row => collate row.phone_number phoneNumber).length : Int))]) ∧
    (DeleteDNCPhone collate Option.none table phoneNumber "").2.1
      = table.filter (fun row => !(collate row.phone_number phoneNumber)) ∧
    (∀ row ∈ (DeleteDNCPhone collate Option.none table phoneNumber "").2.1,
      collate row.phone_number phoneNumber = false) ∧
    (∀ row ∈ table, collate row.phone_number phoneNumber = false →
      row ∈ (DeleteDNCPhone collate Option.none table phoneNumber "").2.1) ∧
    (DeleteDNCPhone collate Option.none table phoneNumber "").2.2
      = [DBCall.Exec "DELETE FROM vicidial_dnc WHERE phone_number = ?"
          [SqlArg.str phoneNumber]] := by
  have hrun : DeleteDNCPhone collate Option.none table phoneNumber ""
      = (respondWithSuccess "DNC entry deleted"
          (Payload.intMap [("rows_deleted",
            ((table.filter fun row => collate row.phone_number phoneNumber).length : Int))]),
         table.filter (fun row => !(collate row.phone_number phoneNumber)),
         [DBCall.Exec "DELETE FROM vicidial_dnc WHERE phone_number = ?"
          [SqlArg.str phoneNumber]]) := by
    simp [DeleteDNCPhone, hp]
  rw [hrun]
  refine ⟨rfl, rfl, ?_, ?_, rfl⟩
  · intro row hrow
    have := (List.mem_filter.1 hrow).2
    simpa using this
  · intro row hrow hne
    exact List.mem_filter.2 ⟨hrow, by simp [hne]⟩

theorem deleteDNC_all_campaigns_witness :
    (DeleteDNCPhone binaryCollation Option.none sampleDNC "5551234567" "").1
      = respondWithSuccess "DNC entry deleted"
          (Payload.intMap [("rows_deleted",
            ((sampleDNC.filter fun row =>
              binaryCollation row.phone_number "5551234567").length : Int))]) ∧
    (DeleteDNCPhone binaryCollation Option.none sampleDNC "5551234567" "").2.1
      = sampleDNC.filter (fun row => !(binaryCollation row.phone_number "5551234567")) ∧
    (∀ row ∈ (DeleteDNCPhone binaryCollation Option.none sampleDNC "5551234567" "").2.1,
      binaryCollation row.phone_number "5551234567" = false) ∧
    (∀ row ∈ sampleDNC, binaryCollation row.phone_number "5551234567" = false →
      row ∈ (DeleteDNCPhone binaryCollation Option.none sampleDNC "5551234567" "").2.1) ∧
    (DeleteDNCPhone binaryCollation Option.none sampleDNC "5551234567" "").2.2
      = [DBCall.Exec "DELETE FROM vicidial_dnc WHERE phone_number = ?"
          [SqlArg.str "5551234567"]] :=
  deleteDNC_all_campaigns binaryCollation sampleDNC "5551234567" (by decide)

/-! ## Theorems: float64 rounding -/

theorem log2Aux_eq (fuel : Nat) : ∀ n, n ≤ fuel → log2Aux fuel n = Nat.log2 n := by
  induction fuel with
  | zero =>
    intro n hn
    have : n = 0 := by omega
    subst this
    simp [log2Aux]
  | succ fuel ih =>
    intro n hn
    rw [log2Aux, Nat.log2]
    by_cases h : 2 ≤ n
    · have h' : n ≥ 2 := h
      rw [if_pos h, if_pos h', ih (n / 2) (by omega)]
    · have h' : ¬ n ≥ 2 := h
      rw [if_neg h, if_neg h']

theorem floorLog2_eq (n : Nat) : floorLog2 n = Nat.log2 n := log2Aux_eq n n (le_refl n)

theorem roundHalfEven_near (N D : Nat) (hD : 0 < D) :
    2 * |(roundHalfEven N D : Int) * D - N| ≤ D := by
  have h1 := Nat.div_add_mod N D
  have h2 := Nat.mod_lt N hD
  unfold roundHalfEven
  simp only
  generalize N / D = q at *
  generalize N % D = r at *
  subst h1
  have key : ∀ m : Int, (m = q ∧ 2 * (r:Int) ≤ D) ∨ (m = q + 1 ∧ (D:Int) ≤ 2 * r) →
      2 * |m * D - ((D * q + r : Nat) : Int)| ≤ D := by
    intro m hm
    push_cast
    rcases hm with ⟨rfl, h⟩ | ⟨rfl, h⟩
    · rw [show (q:Int) * D - (D * q + r) = -(r:Int) by ring, abs_neg, abs_of_nonneg (by positivity)]
      exact h
    · rw [show ((q:Int) + 1) * D - (D * q + r) = (D:Int) - r by ring,
        abs_of_nonneg (by omega)]
      omega
  split_ifs with ha hb hc
  · exact key _ (Or.inl ⟨rfl, by omega⟩)
  · exact key _ (Or.inr ⟨by push_cast; rfl, by omega⟩)
  · exact key _ (Or.inl ⟨rfl, by omega⟩)
  · exact key _ (Or.inr ⟨by push_cast; rfl, by omega⟩)


theorem roundHalfEven_rel (N D : Nat) (hD : 0 < D) (hbig : 2 ^ 52 * D ≤ N) :
    |(roundHalfEven N D : ℚ) - (N : ℚ) / D| ≤ (N : ℚ) / D / 2 ^ 53 := by
  have hnear := roundHalfEven_near N D hD
  have hDq : (0 : ℚ) < D := by exact_mod_cast hD
  have h1 : (2 : ℚ) * |(roundHalfEven N D : ℚ) * D - N| ≤ D := by
    have : ((2 * |(roundHalfEven N D : Int) * D - N| : Int) : ℚ) ≤ ((D : Int) : ℚ) := by
      exact_mod_cast hnear
    push_cast at this
    exact this
  have h2 : (roundHalfEven N D : ℚ) - (N : ℚ) / D = ((roundHalfEven N D : ℚ) * D - N) / D := by
    field_simp
  have h3 : ((2 : ℚ) ^ 52) * D ≤ N := by exact_mod_cast hbig
  rw [h2, abs_div, abs_of_pos hDq, div_le_iff₀ hDq]
  have h4 : (N : ℚ) / D / 2 ^ 53 * D = N / 2 ^ 53 := by field_simp; ring
  rw [h4, le_div_iff₀ (by positivity)]
  nlinarith [abs_nonneg ((roundHalfEven N D : ℚ) * D - N)]

theorem round_scaled (n d : Nat) (e : Int) (k s : Nat) (hd : 0 < d)
    (hbig : 2 ^ 52 * (d * 2 ^ k) ≤ n * 2 ^ s) :
    |(roundHalfEven (n * 2 ^ s) (d * 2 ^ k) : ℚ) * (2 : ℚ) ^ (e + k - s)
        - (n : ℚ) / d * (2 : ℚ) ^ e|
      ≤ (n : ℚ) / d * (2 : ℚ) ^ e / 2 ^ 53 := by
  have hD : 0 < d * 2 ^ k := Nat.mul_pos hd (by positivity)
  have hrel := roundHalfEven_rel (n * 2 ^ s) (d * 2 ^ k) hD hbig
  have hdq : (0 : ℚ) < d := by exact_mod_cast hd
  have hpow : (2 : ℚ) ^ (e + k - s) = (2 : ℚ) ^ e * 2 ^ k / 2 ^ s := by
    rw [zpow_sub₀ (by norm_num), zpow_add₀ (by norm_num), zpow_natCast, zpow_natCast]
  have hscale : (0 : ℚ) < (2 : ℚ) ^ e * 2 ^ k / 2 ^ s := by positivity
  have hx : ((n * 2 ^ s : Nat) : ℚ) / ((d * 2 ^ k : Nat) : ℚ) * ((2 : ℚ) ^ e * 2 ^ k / 2 ^ s)
      = (n : ℚ) / d * (2 : ℚ) ^ e := by
    push_cast
    field_simp
    ring
  have hdiff : (roundHalfEven (n * 2 ^ s) (d * 2 ^ k) : ℚ) * (2 : ℚ) ^ (e + k - s)
        - (n : ℚ) / d * (2 : ℚ) ^ e
      = ((roundHalfEven (n * 2 ^ s) (d * 2 ^ k) : ℚ)
          - ((n * 2 ^ s : Nat) : ℚ) / ((d * 2 ^ k : Nat) : ℚ)) * ((2 : ℚ) ^ e * 2 ^ k / 2 ^ s) := by
    rw [sub_mul, hx, hpow]
  rw [hdiff, abs_mul, abs_of_pos hscale]
  calc |(roundHalfEven (n * 2 ^ s) (d * 2 ^ k) : ℚ)
          - ((n * 2 ^ s : Nat) : ℚ) / ((d * 2 ^ k : Nat) : ℚ)| * ((2 : ℚ) ^ e * 2 ^ k / 2 ^ s)
      ≤ (((n * 2 ^ s : Nat) : ℚ) / ((d * 2 ^ k : Nat) : ℚ) / 2 ^ 53)
          * ((2 : ℚ) ^ e * 2 ^ k / 2 ^ s) := by
        exact mul_le_mul_of_nonneg_right hrel (le_of_lt hscale)
    _ = (n : ℚ) / d * (2 : ℚ) ^ e / 2 ^ 53 := by
        rw [← hx]; ring

theorem roundPos_rel (n d : Nat) (e : Int) (hn : 0 < n) (hd : 0 < d) :
    |((Float64.roundPos n d e).1 : ℚ) * (2 : ℚ) ^ (Float64.roundPos n d e).2
        - (n : ℚ) / d * (2 : ℚ) ^ e|
      ≤ (n : ℚ) / d * (2 : ℚ) ^ e / 2 ^ 53 := by
  have hk : 2 ^ floorLog2 n ≤ n := by
    rw [floorLog2_eq]; exact Nat.log2_self_le (by omega)
  have hl : d < 2 ^ (floorLog2 d + 1) := by
    rw [floorLog2_eq]; exact (Nat.log2_lt (by omega)).1 (Nat.lt_succ_self _)
  -- value of a (mantissa, exponent) pair is unchanged by the renormalisation step
  have norm : ∀ (m : Nat) (x : Int),
      (((if m = 2 ^ 53 then ((2 ^ 52 : Int), x + 1) else ((m : Int), x)).1 : Int) : ℚ)
          * (2 : ℚ) ^ (if m = 2 ^ 53 then ((2 ^ 52 : Int), x + 1) else ((m : Int), x)).2
        = (m : ℚ) * (2 : ℚ) ^ x := by
    intro m x
    by_cases hm : m = 2 ^ 53
    · rw [if_pos hm, hm]
      push_cast
      rw [zpow_add₀ (by norm_num)]
      ring
    · rw [if_neg hm]
      push_cast
      rfl
  unfold Float64.roundPos
  simp only
  by_cases hc : n * 2 ^ (52 + floorLog2 d) < 2 ^ 52 * (d * 2 ^ floorLog2 n)
  · simp only [if_pos hc]
    rw [norm]
    have h2 : 2 * (n * 2 ^ (52 + floorLog2 d)) = n * 2 ^ (53 + floorLog2 d) := by
      rw [show 53 + floorLog2 d = (52 + floorLog2 d) + 1 by omega, pow_succ]; ring
    have hbig : 2 ^ 52 * (d * 2 ^ floorLog2 n) ≤ n * 2 ^ (53 + floorLog2 d) := by
      have a1 : 2 ^ 52 * (d * 2 ^ floorLog2 n)
          ≤ 2 ^ 52 * (2 ^ (floorLog2 d + 1) * 2 ^ floorLog2 n) :=
        Nat.mul_le_mul_left _ (Nat.mul_le_mul_right _ (le_of_lt hl))
      have a2 : 2 ^ floorLog2 n * 2 ^ (53 + floorLog2 d) ≤ n * 2 ^ (53 + floorLog2 d) :=
        Nat.mul_le_mul_right _ hk
      have a3 : 2 ^ 52 * (2 ^ (floorLog2 d + 1) * 2 ^ floorLog2 n)
          = 2 ^ floorLog2 n * 2 ^ (53 + floorLog2 d) := by
        rw [show 53 + floorLog2 d = 52 + (floorLog2 d + 1) by omega, pow_add]; ring
      omega
    rw [h2]
    have := round_scaled n d e (floorLog2 n) (53 + floorLog2 d) hd hbig
    rw [show e + (floorLog2 n : Int) - (floorLog2 d : Int) - 53
        = e + (floorLog2 n : Int) - ((53 + floorLog2 d : Nat) : Int) by push_cast; ring]
    exact this
  · simp only [if_neg hc]
    rw [norm]
    have hbig : 2 ^ 52 * (d * 2 ^ floorLog2 n) ≤ n * 2 ^ (52 + floorLog2 d) := by omega
    have := round_scaled n d e (floorLog2 n) (52 + floorLog2 d) hd hbig
    rw [show e + (floorLog2 n : Int) - (floorLog2 d : Int) - 52
        = e + (floorLog2 n : Int) - ((52 + floorLog2 d : Nat) : Int) by push_cast; ring]
    exact this


theorem roundPos_mant_nonneg (n d : Nat) (e : Int) : 0 ≤ (Float64.roundPos n d e).1 := by
  unfold Float64.roundPos
  simp only
  split_ifs <;> simp

theorem round_near (n d : Nat) (e : Int) (hd : 0 < d) :
    Float64.Near (Float64.round false n d e) ((n : ℚ) / d * (2 : ℚ) ^ e) := by
  unfold Float64.round
  by_cases hn : n = 0
  · subst hn
    exact ⟨0, 0, by simp, le_refl _, by simp⟩
  · rw [if_neg hn]
    refine ⟨(Float64.roundPos n d e).1, (Float64.roundPos n d e).2, by simp,
      roundPos_mant_nonneg n d e, ?_⟩
    exact roundPos_rel n d e (Nat.pos_of_ne_zero hn) hd

theorem natAbs_cast_rat (c : Int) (hc : 0 ≤ c) : ((c.natAbs : Nat) : ℚ) = (c : ℚ) := by
  rw [← Int.cast_natCast, Int.natAbs_of_nonneg hc]

theorem near_ofInt (c : Int) (hc : 0 ≤ c) : Float64.Near (Float64.ofInt c) c := by
  have h := round_near c.natAbs 1 0 (by norm_num)
  unfold Float64.ofInt
  have hdec : decide (c < 0) = false := by simpa using hc
  rw [hdec]
  have hcast := natAbs_cast_rat c hc
  simpa [hcast] using h

theorem near_div (a ea b eb : Int) (ha : 0 ≤ a) (hb : 0 < b) :
    Float64.Near (Float64.div (Float64.finite a ea) (Float64.finite b eb))
      ((Float64.finite a ea).toRat / (Float64.finite b eb).toRat) := by
  have h := round_near a.natAbs b.natAbs (ea - eb) (Int.natAbs_pos.2 (ne_of_gt hb))
  have hda : decide (a < 0) = false := by simpa using ha
  have hdb : decide (b < 0) = false := by simpa using le_of_lt hb
  have hca := natAbs_cast_rat a ha
  have hcb := natAbs_cast_rat b (le_of_lt hb)
  have hbq : (b : ℚ) ≠ 0 := by exact_mod_cast (ne_of_gt hb)
  have hx : (a : ℚ) / b * (2 : ℚ) ^ (ea - eb)
      = (a : ℚ) * (2 : ℚ) ^ ea / ((b : ℚ) * (2 : ℚ) ^ eb) := by
    rw [zpow_sub₀ (by norm_num)]
    field_simp
  simp only [Float64.div]
  rw [if_neg (ne_of_gt hb), hda, hdb]
  rw [hca, hcb, hx] at h
  simpa [Float64.toRat] using h

theorem near_mul (a ea b eb : Int) (ha : 0 ≤ a) (hb : 0 ≤ b) :
    Float64.Near (Float64.mul (Float64.finite a ea) (Float64.finite b eb))
      ((Float64.finite a ea).toRat * (Float64.finite b eb).toRat) := by
  have h := round_near (a.natAbs * b.natAbs) 1 (ea + eb) (by norm_num)
  have hda : decide (a < 0) = false := by simpa using ha
  have hdb : decide (b < 0) = false := by simpa using hb
  have hca := natAbs_cast_rat a ha
  have hcb := natAbs_cast_rat b hb
  have hx : ((a.natAbs * b.natAbs : Nat) : ℚ) / ((1 : Nat) : ℚ) * (2 : ℚ) ^ (ea + eb)
      = (a : ℚ) * (2 : ℚ) ^ ea * ((b : ℚ) * (2 : ℚ) ^ eb) := by
    rw [zpow_add₀ (by norm_num)]
    push_cast
    rw [hca, hcb]
    ring
  simp only [Float64.mul]
  rw [hda, hdb]
  rw [hx] at h
  simpa [Float64.toRat] using h

theorem near_bounds (f : Float64) (x : ℚ) (h : Float64.Near f x) :
    0 ≤ x ∧ x * (1 - 1 / 2 ^ 53) ≤ f.toRat ∧ f.toRat ≤ x * (1 + 1 / 2 ^ 53) := by
  obtain ⟨m, e, rfl, _, habs⟩ := h
  have hx : 0 ≤ x := by
    have := le_trans (abs_nonneg _) habs
    have h53 : (0 : ℚ) < 2 ^ 53 := by positivity
    exact (div_nonneg_iff.1 this).elim (fun h => h.1)
      (fun h => absurd h.2 (not_le.2 h53))
  rw [abs_le] at habs
  simp only [Float64.toRat]
  refine ⟨hx, ?_, ?_⟩
  · have := habs.1
    linarith [show x * (1 - 1 / 2 ^ 53) = x - x / 2 ^ 53 by ring]
  · have := habs.2
    linarith [show x * (1 + 1 / 2 ^ 53) = x + x / 2 ^ 53 by ring]


theorem ofInt_hundred : Float64.ofInt 100 = Float64.finite 7036874417766400 (-46) := by
  decide

theorem near_pos_mant (m e : Int) (x : ℚ) (hx : 0 < x)
    (h : x * (1 - 1 / 2 ^ 53) ≤ (Float64.finite m e).toRat) : 0 < m := by
  simp only [Float64.toRat] at h
  have hp : (0 : ℚ) < (2 : ℚ) ^ e := by positivity
  have hpos : (0 : ℚ) < (m : ℚ) * (2 : ℚ) ^ e := by
    have : (0 : ℚ) < x * (1 - 1 / 2 ^ 53) := by
      apply mul_pos hx
      norm_num
    linarith
  have : (0 : ℚ) < (m : ℚ) := by
    by_contra hneg
    push_neg at hneg
    have := mul_nonpos_of_nonpos_of_nonneg hneg (le_of_lt hp)
    linarith
  exact_mod_cast this

theorem percentage_bounds (c T : Int) (hc : 0 ≤ c) (hT : 0 < T) :
    ∃ m e, Float64.mul (Float64.div (Float64.ofInt c) (Float64.ofInt T)) (Float64.ofInt 100)
        = Float64.finite m e ∧
      100 * ((c : ℚ) / T) * ((1 - 1 / 2 ^ 53) ^ 3 / (1 + 1 / 2 ^ 53)) ≤ (m : ℚ) * (2 : ℚ) ^ e ∧
      (m : ℚ) * (2 : ℚ) ^ e ≤ 100 * ((c : ℚ) / T) * ((1 + 1 / 2 ^ 53) ^ 3 / (1 - 1 / 2 ^ 53)) := by
  have hcq : (0 : ℚ) ≤ c := by exact_mod_cast hc
  have hTq : (0 : ℚ) < T := by exact_mod_cast hT
  have hu1 : (0 : ℚ) < 1 - 1 / 2 ^ 53 := by norm_num
  have hu2 : (0 : ℚ) < 1 + 1 / 2 ^ 53 := by norm_num
  obtain ⟨mc, ec, hC, hmc, _⟩ := id (near_ofInt c hc)
  have bC := near_bounds _ _ (near_ofInt c hc)
  obtain ⟨mt, et, hTf, _, _⟩ := id (near_ofInt T (le_of_lt hT))
  have bT := near_bounds _ _ (near_ofInt T (le_of_lt hT))
  rw [hC] at bC
  rw [hTf] at bT
  have hmt : 0 < mt := near_pos_mant mt et T hTq bT.2.1
  have hTv : (0 : ℚ) < (Float64.finite mt et).toRat := by
    have : (0 : ℚ) < (T : ℚ) * (1 - 1 / 2 ^ 53) := mul_pos hTq hu1
    linarith [bT.2.1]
  have hCv : (0 : ℚ) ≤ (Float64.finite mc ec).toRat := by
    have : (0 : ℚ) ≤ (c : ℚ) * (1 - 1 / 2 ^ 53) := mul_nonneg hcq (le_of_lt hu1)
    linarith [bC.2.1]
  have nQ := near_div mc ec mt et hmc hmt
  obtain ⟨mq, eq, hQ, hmq, _⟩ := id nQ
  have bQ := near_bounds _ _ nQ
  rw [hQ] at bQ
  have nP := near_mul mq eq 7036874417766400 (-46) hmq (by norm_num)
  obtain ⟨mp, ep, hP, _, _⟩ := id nP
  have bP := near_bounds _ _ nP
  rw [hP] at bP
  have hH : (Float64.finite 7036874417766400 (-46)).toRat = 100 := by
    simp only [Float64.toRat]
    norm_num
  rw [hH] at bP
  refine ⟨mp, ep, ?_, ?_, ?_⟩
  · rw [hC, hTf, hQ, ofInt_hundred, hP]
  · -- lower bound
    have hq_lo : (c : ℚ) * (1 - 1 / 2 ^ 53) / ((T : ℚ) * (1 + 1 / 2 ^ 53))
        ≤ (Float64.finite mc ec).toRat / (Float64.finite mt et).toRat :=
      div_le_div₀ hCv bC.2.1 hTv bT.2.2
    have hq0 : (0 : ℚ) ≤ (c : ℚ) * (1 - 1 / 2 ^ 53) / ((T : ℚ) * (1 + 1 / 2 ^ 53)) := by positivity
    have h1 : (c : ℚ) * (1 - 1 / 2 ^ 53) / ((T : ℚ) * (1 + 1 / 2 ^ 53)) * (1 - 1 / 2 ^ 53)
        ≤ (Float64.finite mq eq).toRat :=
      le_trans (mul_le_mul_of_nonneg_right hq_lo (le_of_lt hu1)) bQ.2.1
    have h2 : (c : ℚ) * (1 - 1 / 2 ^ 53) / ((T : ℚ) * (1 + 1 / 2 ^ 53)) * (1 - 1 / 2 ^ 53) * 100
          * (1 - 1 / 2 ^ 53)
        ≤ (Float64.finite mp ep).toRat :=
      le_trans (mul_le_mul_of_nonneg_right
        (mul_le_mul_of_nonneg_right h1 (by norm_num)) (le_of_lt hu1)) bP.2.1
    have e : 100 * ((c : ℚ) / T) * ((1 - 1 / 2 ^ 53) ^ 3 / (1 + 1 / 2 ^ 53))
        = (c : ℚ) * (1 - 1 / 2 ^ 53) / ((T : ℚ) * (1 + 1 / 2 ^ 53)) * (1 - 1 / 2 ^ 53) * 100
          * (1 - 1 / 2 ^ 53) := by
      field_simp
      ring
    rw [e]
    simpa [Float64.toRat] using h2
  · -- upper bound
    have hq_hi : (Float64.finite mc ec).toRat / (Float64.finite mt et).toRat
        ≤ (c : ℚ) * (1 + 1 / 2 ^ 53) / ((T : ℚ) * (1 - 1 / 2 ^ 53)) :=
      div_le_div₀ (mul_nonneg hcq (le_of_lt hu2)) bC.2.2 (mul_pos hTq hu1) bT.2.1
    have h1 : (Float64.finite mq eq).toRat
        ≤ (c : ℚ) * (1 + 1 / 2 ^ 53) / ((T : ℚ) * (1 - 1 / 2 ^ 53)) * (1 + 1 / 2 ^ 53) :=
      le_trans bQ.2.2 (mul_le_mul_of_nonneg_right hq_hi (le_of_lt hu2))
    have h2 : (Float64.finite mp ep).toRat
        ≤ (c : ℚ) * (1 + 1 / 2 ^ 53) / ((T : ℚ) * (1 - 1 / 2 ^ 53)) * (1 + 1 / 2 ^ 53) * 100
          * (1 + 1 / 2 ^ 53) :=
      le_trans bP.2.2 (mul_le_mul_of_nonneg_right
        (mul_le_mul_of_nonneg_right h1 (by norm_num)) (le_of_lt hu2))
    have e : 100 * ((c : ℚ) / T) * ((1 + 1 / 2 ^ 53) ^ 3 / (1 - 1 / 2 ^ 53))
        = (c : ℚ) * (1 + 1 / 2 ^ 53) / ((T : ℚ) * (1 - 1 / 2 ^ 53)) * (1 + 1 / 2 ^ 53) * 100
          * (1 + 1 / 2 ^ 53) := by
      field_simp
      ring
    rw [e]
    simpa [Float64.toRat] using h2

theorem percentage_sum_bounds (T : Int) (hT : 0 < T) (cs : List Int) (hcs : ∀ c ∈ cs, 0 ≤ c) :
    100 * ((cs.sum : ℚ) / T) * ((1 - 1 / 2 ^ 53) ^ 3 / (1 + 1 / 2 ^ 53))
      ≤ (cs.map fun c => (Float64.mul (Float64.div (Float64.ofInt c) (Float64.ofInt T))
          (Float64.ofInt 100)).toRat).sum ∧
    (cs.map fun c => (Float64.mul (Float64.div (Float64.ofInt c) (Float64.ofInt T))
          (Float64.ofInt 100)).toRat).sum
      ≤ 100 * ((cs.sum : ℚ) / T) * ((1 + 1 / 2 ^ 53) ^ 3 / (1 - 1 / 2 ^ 53)) := by
  induction cs with
  | nil => simp
  | cons c rest ih =>
    have ih' := ih (fun x hx => hcs x (List.mem_cons_of_mem _ hx))
    obtain ⟨m, e, hP, hlo, hhi⟩ := percentage_bounds c T (hcs c (List.mem_cons_self _ _)) hT
    have hv : (Float64.finite m e).toRat = (m : ℚ) * (2 : ℚ) ^ e := rfl
    simp only [List.map_cons, List.sum_cons, Int.cast_add, hP, hv]
    constructor
    · have : 100 * (((c : ℚ) + (rest.sum : ℚ)) / T) * ((1 - 1 / 2 ^ 53) ^ 3 / (1 + 1 / 2 ^ 53))
          = 100 * ((c : ℚ) / T) * ((1 - 1 / 2 ^ 53) ^ 3 / (1 + 1 / 2 ^ 53))
            + 100 * ((rest.sum : ℚ) / T) * ((1 - 1 / 2 ^ 53) ^ 3 / (1 + 1 / 2 ^ 53)) := by ring
      rw [this]
      linarith [ih'.1]
    · have : 100 * (((c : ℚ) + (rest.sum : ℚ)) / T) * ((1 + 1 / 2 ^ 53) ^ 3 / (1 - 1 / 2 ^ 53))
          = 100 * ((c : ℚ) / T) * ((1 + 1 / 2 ^ 53) ^ 3 / (1 - 1 / 2 ^ 53))
            + 100 * ((rest.sum : ℚ) / T) * ((1 + 1 / 2 ^ 53) ^ 3 / (1 - 1 / 2 ^ 53)) := by ring
      rw [this]
      linarith [ih'.2]

theorem tolerance_numeric :
    (100 : ℚ) - 1 / 10 ^ 13 ≤ 100 * ((1 - 1 / 2 ^ 53) ^ 3 / (1 + 1 / 2 ^ 53)) ∧
    100 * ((1 + 1 / 2 ^ 53) ^ 3 / (1 - 1 / 2 ^ 53)) ≤ (100 : ℚ) + 1 / 10 ^ 13 := by
  constructor <;> norm_num

/-! ## Theorems: KPI by campaign -/

theorem wrapInt64_of_range (x : Int) (h1 : -(2 ^ 63) ≤ x) (h2 : x < 2 ^ 63) :
    wrapInt64 x = x := by
  unfold wrapInt64
  omega

theorem campaignCounts_append (campaignID : String) (pre : List KPICampaignRow)
    (r : KPICampaignRow) :
    campaignCounts campaignID (pre ++ [r])
      = campaignCounts campaignID pre ++ (if r.campaignID = campaignID then [r.count] else []) := by
  unfold campaignCounts
  by_cases h : r.campaignID = campaignID <;> simp [List.filter_append, h]

theorem kpiCampaignMapAdd_keys (m : List CampaignDispositionStats) (r : KPICampaignRow) :
    ((kpiCampaignMapAdd m r).map fun g => g.CampaignID)
      = if r.campaignID ∈ (m.map fun g => g.CampaignID) then (m.map fun g => g.CampaignID)
        else (m.map fun g => g.CampaignID) ++ [r.campaignID] := by
  induction m with
  | nil => simp [kpiCampaignMapAdd]
  | cons g rest ih =>
    unfold kpiCampaignMapAdd
    by_cases h : g.CampaignID = r.campaignID
    · simp [h]
    · have h' : ¬ r.campaignID = g.CampaignID := fun e => h e.symm
      simp only [h, if_false, List.map_cons, ih, List.mem_cons, h', false_or]
      by_cases hm : r.campaignID ∈ (rest.map fun g => g.CampaignID)
      · simp [hm]
      · simp [hm]

theorem kpiCampaignMapAdd_mem (m : List CampaignDispositionStats) (r : KPICampaignRow)
    (hnodup : (m.map fun g => g.CampaignID).Nodup) (g' : CampaignDispositionStats)
    (hg' : g' ∈ kpiCampaignMapAdd m r) :
    (g' ∈ m ∧ g'.CampaignID ≠ r.campaignID) ∨
    (∃ g ∈ m, g.CampaignID = r.campaignID ∧
      g' = { g with TotalCalls := wrapInt64 (g.TotalCalls + r.count),
                    Dispositions := g.Dispositions ++ [kpiDisposition r] }) ∨
    (r.campaignID ∉ (m.map fun g => g.CampaignID) ∧
      g' = { CampaignID := r.campaignID, CampaignName := r.campaignName,
             TotalCalls := wrapInt64 (0 + r.count),
             Dispositions := [] ++ [kpiDisposition r] }) := by
  induction m with
  | nil =>
    simp only [kpiCampaignMapAdd, List.mem_singleton] at hg'
    right; right
    exact ⟨by simp, hg'⟩
  | cons g rest ih =>
    rw [List.map_cons, List.nodup_cons] at hnodup
    unfold kpiCampaignMapAdd at hg'
    by_cases h : g.CampaignID = r.campaignID
    · rw [if_pos h] at hg'
      rcases List.mem_cons.1 hg' with heq | hmem
      · right; left
        exact ⟨g, List.mem_cons_self _ _, h, heq⟩
      · left
        refine ⟨List.mem_cons_of_mem _ hmem, ?_⟩
        intro hcid
        apply hnodup.1
        rw [h, ← hcid]
        exact List.mem_map.2 ⟨g', hmem, rfl⟩
    · rw [if_neg h] at hg'
      rcases List.mem_cons.1 hg' with heq | hmem
      · left
        subst heq
        exact ⟨List.mem_cons_self _ _, h⟩
      · rcases ih hnodup.2 hmem with ⟨h1, h2⟩ | ⟨g₀, hg₀, hc, he⟩ | ⟨h1, h2⟩
        · left; exact ⟨List.mem_cons_of_mem _ h1, h2⟩
        · right; left; exact ⟨g₀, List.mem_cons_of_mem _ hg₀, hc, he⟩
        · right; right
          refine ⟨?_, h2⟩
          intro hin
          rcases List.mem_cons.1 hin with e | e
          · exact h e.symm
          · exact h1 e

set_option maxRecDepth 100000 in
theorem kpi_scenario_groups :
    kpiCampaigns scenarioKPIRows
      = [{ CampaignID := "TESTCAMP", CampaignName := "Test campaign", TotalCalls := 4,
           Dispositions :=
            [{ Status := "SALE", Count := 3,
               Percentage := Float64.finite 5277655813324800 (-46),
               AvgTalkTime := Float64.finite 8444249301319680 (-48), TotalTalkTime := 90 },
             { Status := "NI", Count := 1,
               Percentage := Float64.finite 7036874417766400 (-48),
               AvgTalkTime := Float64.finite 6755399441055744 (-49), TotalTalkTime := 12 }] }] := by
  decide

set_option maxRecDepth 100000 in
theorem kpi_thirds_groups :
    kpiCampaigns thirdsKPIRows
      = [{ CampaignID := "C", CampaignName := "c", TotalCalls := 3,
           Dispositions :=
            [{ Status := "A", Count := 1,
               Percentage := Float64.finite 4691249611844266 (-47),
               AvgTalkTime := Float64.finite 0 0, TotalTalkTime := 0 },
             { Status := "B", Count := 2,
               Percentage := Float64.finite 4691249611844266 (-46),
               AvgTalkTime := Float64.finite 0 0, TotalTalkTime := 0 }] }] := by
  decide

/-- C13 as stated fails: for one call of status A and two of status B in one
campaign the group has total_calls 3 and the percentages are the float64 values
33.33333333333333 and 66.66666666666666, whose sum is
7036874417766399 / 70368744177664, just below 100. -/
theorem kpi_percentage_sum_not_exact :
    (kpiCampaigns thirdsKPIRows).map (fun g => g.TotalCalls) = [3] ∧
    (kpiCampaigns thirdsKPIRows).map
        (fun g => (g.Dispositions.map fun d => d.Percentage.toRat).sum)
      = [(7036874417766399 : ℚ) / 70368744177664] ∧
    (7036874417766399 : ℚ) / 70368744177664 ≠ 100 := by
  rw [kpi_thirds_groups]
  refine ⟨rfl, ?_, by norm_num⟩
  simp only [List.map_cons, List.map_nil, List.sum_cons, List.sum_nil, Float64.toRat]
  norm_num

/-! ## Theorems: test call -/

theorem utf8ByteSize_go_pos (c : Char) (cs : List Char) :
    0 < String.utf8ByteSize.go (c :: cs) := by
  have := Char.utf8Size_pos c
  simp only [String.utf8ByteSize.go]
  omega

theorem len_pos_iff (s : String) : 0 < len s ↔ s ≠ "" := by
  obtain ⟨cs⟩ := s
  cases cs with
  | nil => simp [len, String.utf8ByteSize, String.utf8ByteSize.go]
  | cons c cs =>
    constructor
    · intro _ h
      have hd := congrArg String.data h
      exact List.cons_ne_nil _ _ hd
    · intro _
      exact utf8ByteSize_go_pos c cs

theorem len_lt_one_iff (s : String) : len s < 1 ↔ s = "" := by
  have := len_pos_iff s
  constructor
  · intro h
    by_contra hne
    have := this.2 hne
    omega
  · intro h
    subst h
    decide

/-- C19: when 1000 times the campaign's dial_timeout fits a Go int, the dial
timeout in milliseconds is 1000 * dial_timeout when dial_timeout > 4 and 60000
otherwise; it is a multiple of 1000, at least 5000 and at least
1000 * dial_timeout, and it is the number written after "Timeout: ". -/
theorem testCall_dial_timeout (req : TestCallRequest) (camp : CampaignScan) (srv : ServerScan)
    (leadID : Int) (campaignCIDOverride : NullString) (cidDate : String)
    (hrange : camp.dialTimeout * 1000 < 2 ^ 63) :
    (testCallPlan req camp srv leadID campaignCIDOverride cidDate).localDialTimeoutMS
      = (if camp.dialTimeout > 4 then 1000 * camp.dialTimeout else 60000) ∧
    (1000 : Int) ∣ (testCallPlan req camp srv leadID campaignCIDOverride cidDate).localDialTimeoutMS ∧
    5000 ≤ (testCallPlan req camp srv leadID campaignCIDOverride cidDate).localDialTimeoutMS ∧
    1000 * camp.dialTimeout
      ≤ (testCallPlan req camp srv leadID campaignCIDOverride cidDate).localDialTimeoutMS ∧
    (testCallPlan req camp srv leadID campaignCIDOverride cidDate).cmdLineG
      = "Timeout: " ++ sprintfD
          (testCallPlan req camp srv leadID campaignCIDOverride cidDate).localDialTimeoutMS := by
  have hms : (testCallPlan req camp srv leadID campaignCIDOverride cidDate).localDialTimeoutMS
      = wrapInt64 ((if camp.dialTimeout > 4 then camp.dialTimeout else 60) * 1000) := rfl
  have hval : wrapInt64 ((if camp.dialTimeout > 4 then camp.dialTimeout else 60) * 1000)
      = (if camp.dialTimeout > 4 then 1000 * camp.dialTimeout else 60000) := by
    by_cases h : camp.dialTimeout > 4
    · rw [if_pos h, if_pos h, wrapInt64_of_range _ (by omega) (by omega)]
      ring
    · rw [if_neg h, if_neg h]
      decide
  rw [hms, hval]
  refine ⟨rfl, ?_, ?_, ?_, ?_⟩
  · by_cases h : camp.dialTimeout > 4
    · rw [if_pos h]; exact Dvd.intro _ rfl
    · rw [if_neg h]; decide
  · by_cases h : camp.dialTimeout > 4
    · rw [if_pos h]; omega
    · rw [if_neg h]; decide
  · by_cases h : camp.dialTimeout > 4
    · rw [if_pos h]
    · rw [if_neg h]; omega
  · show "Timeout: " ++ sprintfD (testCallPlan req camp srv leadID campaignCIDOverride
        cidDate).localDialTimeoutMS = _
    rw [hms, hval]

theorem testCall_dial_timeout_witness :
    (testCallPlan sampleTestCallRequest (sampleCampaignScan "9" 30) sampleServerScan 12345
        NullString.zero "030714").localDialTimeoutMS
      = (if (sampleCampaignScan "9" 30).dialTimeout > 4
          then 1000 * (sampleCampaignScan "9" 30).dialTimeout else 60000) ∧
    (1000 : Int) ∣ (testCallPlan sampleTestCallRequest (sampleCampaignScan "9" 30)
        sampleServerScan 12345 NullString.zero "030714").localDialTimeoutMS ∧
    5000 ≤ (testCallPlan sampleTestCallRequest (sampleCampaignScan "9" 30) sampleServerScan
        12345 NullString.zero "030714").localDialTimeoutMS ∧
    1000 * (sampleCampaignScan "9" 30).dialTimeout
      ≤ (testCallPlan sampleTestCallRequest (sampleCampaignScan "9" 30) sampleServerScan 12345
          NullString.zero "030714").localDialTimeoutMS ∧
    (testCallPlan sampleTestCallRequest (sampleCampaignScan "9" 30) sampleServerScan 12345
        NullString.zero "030714").cmdLineG
      = "Timeout: " ++ sprintfD
          (testCallPlan sampleTestCallRequest (sampleCampaignScan "9" 30) sampleServerScan 12345
            NullString.zero "030714").localDialTimeoutMS :=
  testCall_dial_timeout sampleTestCallRequest (sampleCampaignScan "9" 30) sampleServerScan 12345
    NullString.zero "030714" (by decide)

theorem testCall_out_prefix (req : TestCallRequest) (camp : CampaignScan) (srv : ServerScan)
    (leadID : Int) (campaignCIDOverride : NullString) (cidDate : String) :
    (testCallPlan req camp srv leadID campaignCIDOverride cidDate).localOutPrefix
      = (if Contains camp.dialPrefix "x" = true then ""
         else if camp.dialPrefix = "" then "9" else camp.dialPrefix) := by
  have hp : (testCallPlan req camp srv leadID campaignCIDOverride cidDate).localOutPrefix
      = (if (decide (len camp.dialPrefix > 0) && !(Contains camp.dialPrefix "x")) = true
          then camp.dialPrefix
         else if Contains camp.dialPrefix "x" = true then "" else "9") := rfl
  rw [hp]
  by_cases hx : Contains camp.dialPrefix "x" = true
  · have hcond : ¬ (decide (len camp.dialPrefix > 0) && !(Contains camp.dialPrefix "x")) = true := by
      simp [hx]
    rw [if_neg hcond, if_pos hx, if_pos hx]
  · by_cases he : camp.dialPrefix = ""
    · have hl : ¬ (len camp.dialPrefix > 0) := fun h => (len_pos_iff _).1 h he
      have hcond : ¬ (decide (len camp.dialPrefix > 0) && !(Contains camp.dialPrefix "x")) = true := by
        simp [hl]
      rw [if_neg hcond, if_neg hx, if_neg hx, if_pos he]
    · have hl : len camp.dialPrefix > 0 := (len_pos_iff _).2 he
      have hcond : (decide (len camp.dialPrefix > 0) && !(Contains camp.dialPrefix "x")) = true := by
        simp [hl, hx]
      rw [if_pos hcond, if_neg hx, if_neg he]

/-- C18 (the code at the failing input): for a campaign whose dial_prefix is
"X", the value VICIdial documents for "no prefix", the handler keeps "X" as the
outbound prefix, because it looks for a lower-case "x" only: the dial string is
"X15551234567" and the channel "Local/X15551234567@default". With the
lower-case "x" the prefix is empty. -/
theorem testCall_upper_case_placeholder_kept :
    (testCallPlan { sampleTestCallRequest with PhoneCode := "1" } (sampleCampaignScan "X" 30)
        sampleServerScan 12345 NullString.zero "030714").localOutPrefix = "X" ∧
    (testCallPlan { sampleTestCallRequest with PhoneCode := "1" } (sampleCampaignScan "X" 30)
        sampleServerScan 12345 NullString.zero "030714").nDialString = "X15551234567" ∧
    (testCallPlan { sampleTestCallRequest with PhoneCode := "1" } (sampleCampaignScan "X" 30)
        sampleServerScan 12345 NullString.zero "030714").channel
      = "Local/X15551234567@default" ∧
    (testCallPlan { sampleTestCallRequest with PhoneCode := "1" } (sampleCampaignScan "x" 30)
        sampleServerScan 12345 NullString.zero "030714").localOutPrefix = "" := by
  decide

theorem digitChar_ascii (k : Nat) (hk : k < 10) : (Nat.digitChar k).utf8Size = 1 := by
  interval_cases k <;> rfl

theorem toDigitsCore_ascii :
    ∀ (fuel n : Nat) (ds : List Char), (∀ c ∈ ds, c.utf8Size = 1) →
      ∀ c ∈ Nat.toDigitsCore 10 fuel n ds, c.utf8Size = 1 := by
  intro fuel
  induction fuel with
  | zero => intro n ds hds c hc; exact hds c (by simpa [Nat.toDigitsCore] using hc)
  | succ fuel ih =>
    intro n ds hds c hc
    have hcons : ∀ x ∈ Nat.digitChar (n % 10) :: ds, x.utf8Size = 1 := by
      intro x hx
      rcases List.mem_cons.1 hx with h | h
      · rw [h]; exact digitChar_ascii _ (Nat.mod_lt _ (by norm_num))
      · exact hds x h
    unfold Nat.toDigitsCore at hc
    simp only at hc
    split_ifs at hc
    · exact hcons c hc
    · exact ih _ _ hcons c hc

theorem repr_ascii (n : Nat) : ∀ c ∈ (Nat.repr n).data, c.utf8Size = 1 := by
  intro c hc
  have hdata : (Nat.repr n).data = Nat.toDigits 10 n := rfl
  rw [hdata] at hc
  exact toDigitsCore_ascii (n + 1) n [] (by simp) c hc

theorem utf8ByteSize_go_ascii (l : List Char) (h : ∀ c ∈ l, c.utf8Size = 1) :
    String.utf8ByteSize.go l = l.length := by
  induction l with
  | nil => rfl
  | cons c cs ih =>
    simp only [String.utf8ByteSize.go, List.length_cons]
    rw [ih (fun x hx => h x (List.mem_cons_of_mem _ hx)), h c (List.mem_cons_self _ _)]

theorem len_ascii (l : List Char) (h : ∀ c ∈ l, c.utf8Size = 1) : len (String.mk l) = l.length :=
  utf8ByteSize_go_ascii l h

theorem sprintfD010_data (n : Int) :
    (sprintfD010 n).data
      = (if n < 0 then ['-'] else []) ++ List.replicate
          (10 - ((if n < 0 then ['-'] else []).length + (Nat.repr n.natAbs).data.length)) '0'
        ++ (Nat.repr n.natAbs).data := rfl

theorem sprintfD010_len (n : Int) : len (sprintfD010 n) = (sprintfD010 n).data.length := by
  have h : sprintfD010 n = String.mk (sprintfD010 n).data := rfl
  conv_lhs => rw [h]
  apply len_ascii
  intro c hc
  rw [sprintfD010_data] at hc
  rcases List.mem_append.1 hc with h1 | h1
  · rcases List.mem_append.1 h1 with h2 | h2
    · by_cases hn : n < 0
      · rw [if_pos hn] at h2
        rw [List.mem_singleton.1 h2]; rfl
      · rw [if_neg hn] at h2
        exact absurd h2 (List.not_mem_nil _)
    · rw [(List.mem_replicate.1 h2).2]; rfl
  · exact repr_ascii _ c h1

theorem sprintfD010_length_ge (n : Int) : 10 ≤ (sprintfD010 n).data.length := by
  rw [sprintfD010_data]
  simp only [List.length_append, List.length_replicate]
  omega

theorem padLeadID_eq (req : TestCallRequest) (camp : CampaignScan) (srv : ServerScan)
    (leadID : Int) (campaignCIDOverride : NullString) (cidDate : String) :
    (testCallPlan req camp srv leadID campaignCIDOverride cidDate).padLeadID
      = String.mk (lastN 10 (sprintfD010 leadID).data) := by
  have hp : (testCallPlan req camp srv leadID campaignCIDOverride cidDate).padLeadID
      = (if len (sprintfD010 leadID) > 10 then
          String.mk ((sprintfD010 leadID).data.drop ((sprintfD010 leadID).data.length - 10))
         else sprintfD010 leadID) := rfl
  rw [hp, sprintfD010_len]
  have hge := sprintfD010_length_ge leadID
  by_cases h : (sprintfD010 leadID).data.length > 10
  · rw [if_pos h]; rfl
  · rw [if_neg h]
    have h10 : (sprintfD010 leadID).data.length = 10 := by omega
    unfold lastN
    rw [h10]
    simp

/-- C20: the caller-id token is "V", then the date stamp, then a lead-id field
of exactly 10 characters, so its length is the stamp's length plus 11; for a
non-negative lead id the field is the last 10 characters of the decimal lead
id left-padded with zeros to width 10. -/
theorem testCall_caller_id_token (req : TestCallRequest) (camp : CampaignScan)
    (srv : ServerScan) (leadID : Int) (campaignCIDOverride : NullString) (cidDate : String) :
    (testCallPlan req camp srv leadID campaignCIDOverride cidDate).vQueryCID
      = "V" ++ cidDate ++ (testCallPlan req camp srv leadID campaignCIDOverride cidDate).padLeadID ∧
    (testCallPlan req camp srv leadID campaignCIDOverride cidDate).padLeadID.length = 10 ∧
    (testCallPlan req camp srv leadID campaignCIDOverride cidDate).vQueryCID.length
      = cidDate.length + 11 ∧
    (0 ≤ leadID →
      (testCallPlan req camp srv leadID campaignCIDOverride cidDate).padLeadID
        = String.mk (lastN 10 (zeroPad 10 leadID.toNat))) := by
  have hv : (testCallPlan req camp srv leadID campaignCIDOverride cidDate).vQueryCID
      = "V" ++ cidDate ++ (testCallPlan req camp srv leadID campaignCIDOverride cidDate).padLeadID :=
    rfl
  have hlen : (testCallPlan req camp srv leadID campaignCIDOverride cidDate).padLeadID.length
      = 10 := by
    rw [padLeadID_eq, String.length_mk]
    unfold lastN
    have hge := sprintfD010_length_ge leadID
    rw [List.length_drop]
    omega
  refine ⟨hv, hlen, ?_, ?_⟩
  · rw [hv, String.length_append, String.length_append, hlen]
    have : "V".length = 1 := rfl
    omega
  · intro hpos
    rw [padLeadID_eq, sprintfD010_data]
    have hneg : ¬ leadID < 0 := by omega
    have habs : leadID.natAbs = leadID.toNat := by omega
    rw [if_neg hneg, habs]
    simp [zeroPad]

theorem testCall_caller_id_token_witness :
    ((testCallPlan sampleTestCallRequest (sampleCampaignScan "9" 30) sampleServerScan
        12345678901234 NullString.zero "030714").vQueryCID
      = "V" ++ "030714" ++ (testCallPlan sampleTestCallRequest (sampleCampaignScan "9" 30)
          sampleServerScan 12345678901234 NullString.zero "030714").padLeadID ∧
    (testCallPlan sampleTestCallRequest (sampleCampaignScan "9" 30) sampleServerScan
        12345678901234 NullString.zero "030714").padLeadID.length = 10 ∧
    (testCallPlan sampleTestCallRequest (sampleCampaignScan "9" 30) sampleServerScan
        12345678901234 NullString.zero "030714").vQueryCID.length = "030714".length + 11 ∧
    ((0 : Int) ≤ 12345678901234 →
      (testCallPlan sampleTestCallRequest (sampleCampaignScan "9" 30) sampleServerScan
          12345678901234 NullString.zero "030714").padLeadID
        = String.mk (lastN 10 (zeroPad 10 (12345678901234 : Int).toNat)))) ∧
    (testCallPlan sampleTestCallRequest (sampleCampaignScan "9" 30) sampleServerScan
        12345678901234 NullString.zero "030714").vQueryCID = "V0307145678901234" ∧
    (testCallPlan sampleTestCallRequest (sampleCampaignScan "9" 30) sampleServerScan
        12345 NullString.zero "030714").vQueryCID = "V0307140000012345" :=
  ⟨testCall_caller_id_token sampleTestCallRequest (sampleCampaignScan "9" 30) sampleServerScan
      12345678901234 NullString.zero "030714", by decide, by decide⟩

/-- C17: the routing extension is the first non-empty value, after trimming,
among the request's vdad_exten, the campaign's campaign_vdad_exten (NULL
counting as empty), the server's answer_transfer_agent (NULL counting as empty)
and "8368"; the server's routing_prefix is put in front of it exactly when
routing_prefix is non-empty and the integer before the first '.' of the
asterisk_version ("11" when empty) is at least 12. -/
theorem testCall_routing_extension (req : TestCallRequest) (camp : CampaignScan)
    (srv : ServerScan) (leadID : Int) (campaignCIDOverride : NullString) (cidDate : String) :
    (testCallPlan req camp srv leadID campaignCIDOverride cidDate).vdadDialExten
      = (if srv.routingPrefix ≠ "" ∧
            12 ≤ (Atoi (splitFirst
              (if srv.asteriskVersion = "" then "11" else srv.asteriskVersion) '.')).1
         then srv.routingPrefix ++ firstNonEmpty [TrimSpace req.VdadExten,
            nullStringText camp.campaignVdadExten, nullStringText srv.answerTransferAgent, "8368"]
         else firstNonEmpty [TrimSpace req.VdadExten,
            nullStringText camp.campaignVdadExten, nullStringText srv.answerTransferAgent,
            "8368"]) := by
  have hproj : (testCallPlan req camp srv leadID campaignCIDOverride cidDate).vdadDialExten
      = (if (decide ((Atoi (splitFirst
              (if srv.asteriskVersion = "" then "11" else srv.asteriskVersion) '.')).1 ≥ 12)
            && decide (len srv.routingPrefix > 0)) = true
         then srv.routingPrefix ++
          (if len (TrimSpace req.VdadExten) > 0 then TrimSpace req.VdadExten
           else if (camp.campaignVdadExten.Valid
              && decide (len (TrimSpace camp.campaignVdadExten.String) > 0)) = true
            then TrimSpace camp.campaignVdadExten.String
           else if (srv.answerTransferAgent.Valid
              && decide (len (TrimSpace srv.answerTransferAgent.String) > 0)) = true
            then TrimSpace srv.answerTransferAgent.String else "8368")
         else
          (if len (TrimSpace req.VdadExten) > 0 then TrimSpace req.VdadExten
           else if (camp.campaignVdadExten.Valid
              && decide (len (TrimSpace camp.campaignVdadExten.String) > 0)) = true
            then TrimSpace camp.campaignVdadExten.String
           else if (srv.answerTransferAgent.Valid
              && decide (len (TrimSpace srv.answerTransferAgent.String) > 0)) = true
            then TrimSpace srv.answerTransferAgent.String else "8368")) := rfl
  have hbase : (if len (TrimSpace req.VdadExten) > 0 then TrimSpace req.VdadExten
           else if (camp.campaignVdadExten.Valid
              && decide (len (TrimSpace camp.campaignVdadExten.String) > 0)) = true
            then TrimSpace camp.campaignVdadExten.String
           else if (srv.answerTransferAgent.Valid
              && decide (len (TrimSpace srv.answerTransferAgent.String) > 0)) = true
            then TrimSpace srv.answerTransferAgent.String else "8368")
      = firstNonEmpty [TrimSpace req.VdadExten, nullStringText camp.campaignVdadExten,
          nullStringText srv.answerTransferAgent, "8368"] := by
    simp only [gt_iff_lt, len_pos_iff, firstNonEmpty, nullStringText]
    by_cases h1 : TrimSpace req.VdadExten = "" <;>
      by_cases h2 : camp.campaignVdadExten.Valid = true <;>
      by_cases h3 : TrimSpace camp.campaignVdadExten.String = "" <;>
      by_cases h4 : srv.answerTransferAgent.Valid = true <;>
      by_cases h5 : TrimSpace srv.answerTransferAgent.String = "" <;>
      simp [h1, h2, h3, h4, h5]
  rw [hproj, hbase]
  have hcond : ((decide ((Atoi (splitFirst
              (if srv.asteriskVersion = "" then "11" else srv.asteriskVersion) '.')).1 ≥ 12)
            && decide (len srv.routingPrefix > 0)) = true)
      ↔ (srv.routingPrefix ≠ "" ∧
            12 ≤ (Atoi (splitFirst
              (if srv.asteriskVersion = "" then "11" else srv.asteriskVersion) '.')).1) := by
    simp only [Bool.and_eq_true, decide_eq_true_eq, gt_iff_lt, len_pos_iff, ge_iff_le]
    exact And.comm
  by_cases hc : (srv.routingPrefix ≠ "" ∧
            12 ≤ (Atoi (splitFirst
              (if srv.asteriskVersion = "" then "11" else srv.asteriskVersion) '.')).1)
  · rw [if_pos (hcond.2 hc), if_pos hc]
  · rw [if_neg (fun h => hc (hcond.1 h)), if_neg hc]

/-- The routing extension on the sample rows: the request override wins over
the server's " 8365 ", the empty override falls back to it, and the prefix "13"
of the Asterisk 13 server is put in front. -/
theorem testCall_routing_extension_samples :
    (testCallPlan { sampleTestCallRequest with VdadExten := " 8369 " } (sampleCampaignScan "9" 30)
        sampleServerScan 1 NullString.zero "030714").vdadDialExten = "138369" ∧
    (testCallPlan sampleTestCallRequest (sampleCampaignScan "9" 30)
        sampleServerScan 1 NullString.zero "030714").vdadDialExten = "138365" ∧
    (testCallPlan sampleTestCallRequest (sampleCampaignScan "9" 30)
        { sampleServerScan with asteriskVersion := "", answerTransferAgent := NullString.zero }
        1 NullString.zero "030714").vdadDialExten = "8368" := by
  decide

/-! ## Theorems: point lookups -/

theorem leadAllInfo_status (queryRow : String → List SqlArg → Except RowError Lead)
    (leadIDVar : String) (hid : (Atoi leadIDVar).2 = true) :
    (queryRow leadAllInfoQuery [SqlArg.int (Atoi leadIDVar).1] = Except.error RowError.ErrNoRows →
      (LeadAllInfo queryRow leadIDVar).1.code = 404) ∧
    ((LeadAllInfo queryRow leadIDVar).1.code = 500 →
      ∃ msg, queryRow leadAllInfoQuery [SqlArg.int (Atoi leadIDVar).1]
        = Except.error (RowError.other msg)) := by
  unfold LeadAllInfo
  simp only [hid, Bool.not_true, Bool.false_eq_true, if_false]
  generalize queryRow leadAllInfoQuery [SqlArg.int (Atoi leadIDVar).1] = res
  rcases res with (_ | msg) | lead
  · exact ⟨fun _ => rfl, fun h => by simp [respondWithError, respondWithJSON, StatusNotFound] at h⟩
  · exact ⟨fun h => by simp at h, fun _ => ⟨msg, rfl⟩⟩
  · exact ⟨fun h => by simp at h,
      fun h => by simp [respondWithSuccess, respondWithJSON, StatusOK] at h⟩

theorem leadFieldInfo_status (queryRow : String → List SqlArg → Except RowError String)
    (leadID field : String) (hf : field ∈ allowListedFields) :
    (queryRow ("SELECT " ++ field ++ " FROM vicidial_list WHERE lead_id = ?") [SqlArg.str leadID]
        = Except.error RowError.ErrNoRows →
      (LeadFieldInfo queryRow leadID field).1.code = 404) ∧
    ((LeadFieldInfo queryRow leadID field).1.code = 500 →
      ∃ msg, queryRow ("SELECT " ++ field ++ " FROM vicidial_list WHERE lead_id = ?")
        [SqlArg.str leadID] = Except.error (RowError.other msg)) := by
  have hv : mapIndex validFields field = true := (mapIndex_validFields field).2 hf
  have he : field ≠ "" := by
    intro h0
    subst h0
    exact absurd hf (by decide)
  unfold LeadFieldInfo
  simp only [he, hv, if_false, Bool.not_true]
  generalize queryRow ("SELECT " ++ field ++ " FROM vicidial_list WHERE lead_id = ?")
    [SqlArg.str leadID] = res
  rcases res with (_ | msg) | value
  · exact ⟨fun _ => rfl, fun h => by simp [respondWithError, respondWithJSON, StatusNotFound] at h⟩
  · exact ⟨fun h => by simp at h, fun _ => ⟨msg, rfl⟩⟩
  · exact ⟨fun h => by simp at h,
      fun h => by simp [respondWithSuccess, respondWithJSON, StatusOK] at h⟩

theorem listInfo_status (queryRow : String → List SqlArg → Except RowError models.List)
    (countRow : String → List SqlArg → Except RowError Int) (listID : String) :
    (queryRow listInfoQuery [SqlArg.str listID] = Except.error RowError.ErrNoRows →
      (ListInfo queryRow countRow listID).1.code = 404) ∧
    ((ListInfo queryRow countRow listID).1.code = 500 →
      ∃ msg, queryRow listInfoQuery [SqlArg.str listID] = Except.error (RowError.other msg)) := by
  unfold ListInfo
  generalize queryRow listInfoQuery [SqlArg.str listID] = res
  rcases res with (_ | msg) | list
  · exact ⟨fun _ => rfl, fun h => by simp [respondWithError, respondWithJSON, StatusNotFound] at h⟩
  · exact ⟨fun h => by simp at h, fun _ => ⟨msg, rfl⟩⟩
  · exact ⟨fun h => by simp at h,
      fun h => by simp [respondWithSuccess, respondWithJSON, StatusOK] at h⟩

theorem userDetails_status (queryRow : String → List SqlArg → Except RowError models.User)
    (userID : String) :
    (queryRow userDetailsQuery [SqlArg.str userID] = Except.error RowError.ErrNoRows →
      (UserDetails queryRow userID).1.code = 404) ∧
    ((UserDetails queryRow userID).1.code = 500 →
      ∃ msg, queryRow userDetailsQuery [SqlArg.str userID] = Except.error (RowError.other msg)) := by
  unfold UserDetails
  generalize queryRow userDetailsQuery [SqlArg.str userID] = res
  rcases res with (_ | msg) | user
  · exact ⟨fun _ => rfl, fun h => by simp [respondWithError, respondWithJSON, StatusNotFound] at h⟩
  · exact ⟨fun h => by simp at h, fun _ => ⟨msg, rfl⟩⟩
  · exact ⟨fun h => by simp at h,
      fun h => by simp [respondWithSuccess, respondWithJSON, StatusOK] at h⟩

theorem callidInfo_status (queryRow : String → List SqlArg → Except RowError CallInfo)
    (callID : String) :
    (queryRow callidInfoQuery [SqlArg.str callID] = Except.error RowError.ErrNoRows →
      queryRow callidInfoCloserQuery [SqlArg.str callID] = Except.error RowError.ErrNoRows →
      (CallidInfo queryRow callID).1.code = 404) ∧
    ((CallidInfo queryRow callID).1.code = 500 →
      ∃ msg, queryRow callidInfoQuery [SqlArg.str callID] = Except.error (RowError.other msg) ∨
        queryRow callidInfoCloserQuery [SqlArg.str callID]
          = Except.error (RowError.other msg)) := by
  unfold CallidInfo
  generalize queryRow callidInfoQuery [SqlArg.str callID] = res
  generalize queryRow callidInfoCloserQuery [SqlArg.str callID] = res₂
  rcases res with (_ | msg) | info
  · rcases res₂ with (_ | msg₂) | info₂
    · exact ⟨fun _ _ => rfl,
        fun h => by simp [respondWithError, respondWithJSON, StatusNotFound] at h⟩
    · exact ⟨fun _ h => by simp at h, fun _ => ⟨msg₂, Or.inr rfl⟩⟩
    · exact ⟨fun _ h => by simp at h,
        fun h => by simp [respondWithSuccess, respondWithJSON, StatusOK] at h⟩
  · exact ⟨fun h => by simp at h, fun _ => ⟨msg, Or.inl rfl⟩⟩
  · exact ⟨fun h => by simp at h,
      fun h => by simp [respondWithSuccess, respondWithJSON, StatusOK] at h⟩

theorem testCall_after_validation (db : TestCallDB) (now : Clock) (req : TestCallRequest)
    (hv : req.passesValidation) :
    (∀ tr, testCallCampaignLookup db req.CampaignID = (Except.error RowError.ErrNoRows, tr) →
      SendTestCall db now (some req) = (respondWithError 404 "Campaign not found", tr)) ∧
    (∀ msg tr, testCallCampaignLookup db req.CampaignID
        = (Except.error (RowError.other msg), tr) →
      SendTestCall db now (some req)
        = (respondWithError 500 ("Failed to retrieve campaign: " ++ msg), tr)) ∧
    (∀ camp tr err tr₂, testCallCampaignLookup db req.CampaignID = (Except.ok camp, tr) →
      testCallServerLookup db (TrimSpace req.ServerIP) = (Except.error err, tr₂) →
      SendTestCall db now (some req)
        = (respondWithError 500 ("Failed to retrieve server: " ++ err.Error), tr ++ tr₂)) := by
  obtain ⟨h1, h2, h3⟩ := hv
  have hcid : (if (if req.PhoneCode = "" then { req with PhoneCode := "1" } else req).User = ""
      then { (if req.PhoneCode = "" then { req with PhoneCode := "1" } else req) with User := "API" }
      else (if req.PhoneCode = "" then { req with PhoneCode := "1" } else req)).CampaignID
      = req.CampaignID := by
    by_cases a : req.PhoneCode = "" <;> by_cases b : req.User = "" <;> simp [a, b]
  have hsip : (if (if req.PhoneCode = "" then { req with PhoneCode := "1" } else req).User = ""
      then { (if req.PhoneCode = "" then { req with PhoneCode := "1" } else req) with User := "API" }
      else (if req.PhoneCode = "" then { req with PhoneCode := "1" } else req)).ServerIP
      = req.ServerIP := by
    by_cases a : req.PhoneCode = "" <;> by_cases b : req.User = "" <;> simp [a, b]
  refine ⟨?_, ?_, ?_⟩
  · intro tr hl
    unfold SendTestCall
    simp only [h1, h2, h3, if_false, hcid, hl]
    rfl
  · intro msg tr hl
    unfold SendTestCall
    simp only [h1, h2, h3, if_false, hcid, hl]
    rfl
  · intro camp tr err tr₂ hl hs
    unfold SendTestCall
    simp only [h1, h2, h3, if_false, hcid, hsip, hl, hs]
    rfl

/-- C16 (the code at the failing input): with a campaign found and no row in
`servers` (for the six-column query and for its fallback) SendTestCall answers
500 "Failed to retrieve server: sql: no rows in result set", not 404: the
server lookup lacks the test for `sql.ErrNoRows` that the campaign lookup of the
same handler makes. -/
theorem testCall_missing_server_is_500 :
    (testCallServerLookup noServerTestCallDB "").1 = Except.error RowError.ErrNoRows ∧
    (SendTestCall noServerTestCallDB sampleClock (some sampleTestCallRequest)).1
      = respondWithError 500 "Failed to retrieve server: sql: no rows in result set" ∧
    (SendTestCall noServerTestCallDB sampleClock (some sampleTestCallRequest)).1.code ≠ 404 :=
  ⟨rfl, by decide, by decide⟩

/-! ## Theorems: response envelope -/

theorem respondWithError_envelope (code : Nat) (message : String) :
    (respondWithError code message).isErrorEnvelope := by
  refine ⟨rfl, rfl, ?_, ?_⟩
  · simp [respondWithError, respondWithJSON, APIResponse.jsonFields, jsonMember]
  · by_cases h : message = ""
    · simp [respondWithError, respondWithJSON, APIResponse.jsonFields, jsonMember, h]
    · simp [respondWithError, respondWithJSON, APIResponse.jsonFields, jsonMember, h]

theorem standard_error_envelope (r : Response) (hs : r.isStandard) (herr : r.code ≠ 200) :
    r.isErrorEnvelope := by
  rcases hs with ⟨code, message, rfl⟩ | h
  · exact respondWithError_envelope code message
  · exact absurd h herr

theorem isStandard_error (code : Nat) (message : String) :
    (respondWithError code message).isStandard := Or.inl ⟨code, message, rfl⟩

theorem isStandard_success (message : String) (data : Payload) :
    (respondWithSuccess message data).isStandard := Or.inr rfl

theorem addLead_standard (exec : String → List SqlArg → Except String SqlResult)
    (decoded : Option Lead) : (AddLead exec decoded).1.isStandard := by
  unfold AddLead
  repeat' first | split | simp only []
  all_goals first | exact isStandard_error _ _ | exact isStandard_success _ _

theorem leadFieldInfo_standard (queryRow : String → List SqlArg → Except RowError String)
    (leadID field : String) : (LeadFieldInfo queryRow leadID field).1.isStandard := by
  unfold LeadFieldInfo
  repeat' first | split | simp only []
  all_goals first | exact isStandard_error _ _ | exact isStandard_success _ _

theorem leadAllInfo_standard (queryRow : String → List SqlArg → Except RowError Lead)
    (leadIDVar : String) : (LeadAllInfo queryRow leadIDVar).1.isStandard := by
  unfold LeadAllInfo
  repeat' first | split | simp only []
  all_goals first | exact isStandard_error _ _ | exact isStandard_success _ _

theorem listInfo_standard (queryRow : String → List SqlArg → Except RowError models.List)
    (countRow : String → List SqlArg → Except RowError Int) (listID : String) :
    (ListInfo queryRow countRow listID).1.isStandard := by
  unfold ListInfo
  split
  all_goals first | exact isStandard_error _ _ | exact isStandard_success _ _

theorem userDetails_standard (queryRow : String → List SqlArg → Except RowError models.User)
    (userID : String) : (UserDetails queryRow userID).1.isStandard := by
  unfold UserDetails
  repeat' first | split | simp only []
  all_goals first | exact isStandard_error _ _ | exact isStandard_success _ _

theorem callidInfo_standard (queryRow : String → List SqlArg → Except RowError CallInfo)
    (callID : String) : (CallidInfo queryRow callID).1.isStandard := by
  unfold CallidInfo
  repeat' first | split | simp only []
  all_goals first | exact isStandard_error _ _ | exact isStandard_success _ _

theorem deleteDNC_standard (collate : String → String → Bool) (fault : Option String)
    (table : List DNCRow) (phoneNumber campaignID : String) :
    (DeleteDNCPhone collate fault table phoneNumber campaignID).1.isStandard := by
  unfold DeleteDNCPhone
  repeat' first | split | simp only []
  all_goals first | exact isStandard_error _ _ | exact isStandard_success _ _

theorem getKPIByCampaign_standard
    (query : String → List SqlArg → Except String (List KPICampaignRow))
    (campaignID startDate endDate : String) :
    (getKPIByCampaign query campaignID startDate endDate).1.isStandard := by
  unfold getKPIByCampaign
  simp only
  split
  · exact isStandard_error _ _
  · exact isStandard_success _ _

theorem hopperBulkInsert_standard (eng : Engine) (faults : Faults) (db : DB)
    (campaignID : String) (decoded : Option HopperRequest) :
    (HopperBulkInsert eng faults db campaignID decoded).response.isStandard := by
  unfold HopperBulkInsert
  repeat' first | split | simp only []
  all_goals first | exact isStandard_error _ _ | exact isStandard_success _ _

theorem leadDearchive_standard (eng : Engine) (faults : Faults) (db : DB) (leadID : String) :
    (LeadDearchive eng faults db leadID).response.isStandard := by
  unfold LeadDearchive
  repeat' first | split | simp only []
  all_goals first | exact isStandard_error _ _ | exact isStandard_success _ _

theorem sendTestCall_standard (db : TestCallDB) (now : Clock) (decoded : Option TestCallRequest) :
    (SendTestCall db now decoded).1.isStandard := by
  unfold SendTestCall
  repeat' first | split | simp only []
  all_goals first | exact isStandard_error _ _ | exact isStandard_success _ _

theorem auth_error_body_shape (cfg : Config) (r : Request) (code : Nat) (ct : String)
    (body : ErrorResponse)
    (_h : AuthenticationMiddleware cfg r = MiddlewareResult.respond code ct body) :
    body.jsonFields.map Prod.fst = ["error", "message"] ∧
    jsonMember body.jsonFields "success" = Option.none ∧
    jsonMember body.jsonFields "data" = Option.none := by
  refine ⟨rfl, ?_, ?_⟩
  · simp [ErrorResponse.jsonFields, jsonMember]
  · simp [ErrorResponse.jsonFields, jsonMember]

/-- C15 as stated fails for the authentication gate: the body of its 401 is the
two-member object with "error" and "message"; it has no "success" member, so no
success flag set to false. -/
theorem auth_error_body_without_success_flag :
    AuthenticationMiddleware (sampleConfig "s3cret") (sampleRequest [] [] [])
      = MiddlewareResult.respond 401 "application/json"
          { Error := "Authentication required",
            Message := "Missing API key (use header X-API-Key or query param api_key)" } ∧
    (ErrorResponse.jsonFields
        { Error := "Authentication required",
          Message := "Missing API key (use header X-API-Key or query param api_key)" }).map
        Prod.fst = ["error", "message"] ∧
    jsonMember (ErrorResponse.jsonFields
        { Error := "Authentication required",
          Message := "Missing API key (use header X-API-Key or query param api_key)" })
        "success" = Option.none := by
  decide

/-- C15 (amended): every error response written by `respondWithError`, the only
way a domain handler writes an error, is the envelope with success false and no
data member, and so is every non-200 response of the handlers embedded here;
every response the authentication gate writes is instead the two-member object
with "error" and "message", with neither a success flag nor a data member. -/
theorem error_response_shapes :
    (∀ (code : Nat) (message : String), (respondWithError code message).isErrorEnvelope) ∧
    (∀ (exec : String → List SqlArg → Except String SqlResult) (decoded : Option Lead),
      (AddLead exec decoded).1.code ≠ 200 → (AddLead exec decoded).1.isErrorEnvelope) ∧
    (∀ (queryRow : String → List SqlArg → Except RowError String) (leadID field : String),
      (LeadFieldInfo queryRow leadID field).1.code ≠ 200 →
      (LeadFieldInfo queryRow leadID field).1.isErrorEnvelope) ∧
    (∀ (queryRow : String → List SqlArg → Except RowError Lead) (leadIDVar : String),
      (LeadAllInfo queryRow leadIDVar).1.code ≠ 200 →
      (LeadAllInfo queryRow leadIDVar).1.isErrorEnvelope) ∧
    (∀ (queryRow : String → List SqlArg → Except RowError models.List)
      (countRow : String → List SqlArg → Except RowError Int) (listID : String),
      (ListInfo queryRow countRow listID).1.code ≠ 200 →
      (ListInfo queryRow countRow listID).1.isErrorEnvelope) ∧
    (∀ (queryRow : String → List SqlArg → Except RowError models.User) (userID : String),
      (UserDetails queryRow userID).1.code ≠ 200 →
      (UserDetails queryRow userID).1.isErrorEnvelope) ∧
    (∀ (queryRow : String → List SqlArg → Except RowError CallInfo) (callID : String),
      (CallidInfo queryRow callID).1.code ≠ 200 →
      (CallidInfo queryRow callID).1.isErrorEnvelope) ∧
    (∀ (collate : String → String → Bool) (fault : Option String) (table : List DNCRow)
      (phoneNumber campaignID : String),
      (DeleteDNCPhone collate fault table phoneNumber campaignID).1.code ≠ 200 →
      (DeleteDNCPhone collate fault table phoneNumber campaignID).1.isErrorEnvelope) ∧
    (∀ (query : String → List SqlArg → Except String (List KPICampaignRow))
      (campaignID startDate endDate : String),
      (getKPIByCampaign query campaignID startDate endDate).1.code ≠ 200 →
      (getKPIByCampaign query campaignID startDate endDate).1.isErrorEnvelope) ∧
    (∀ (eng : Engine) (faults : Faults) (db : DB) (campaignID : String)
      (decoded : Option HopperRequest),
      (HopperBulkInsert eng faults db campaignID decoded).response.code ≠ 200 →
      (HopperBulkInsert eng faults db campaignID decoded).response.isErrorEnvelope) ∧
    (∀ (eng : Engine) (faults : Faults) (db : DB) (leadID : String),
      (LeadDearchive eng faults db leadID).response.code ≠ 200 →
      (LeadDearchive eng faults db leadID).response.isErrorEnvelope) ∧
    (∀ (db : TestCallDB) (now : Clock) (decoded : Option TestCallRequest),
      (SendTestCall db now decoded).1.code ≠ 200 →
      (SendTestCall db now decoded).1.isErrorEnvelope) ∧
    (∀ (cfg : Config) (r : Request) (code : Nat) (ct : String) (body : ErrorResponse),
      AuthenticationMiddleware cfg r = MiddlewareResult.respond code ct body →
      body.jsonFields.map Prod.fst = ["error", "message"] ∧
      jsonMember body.jsonFields "success" = Option.none ∧
      jsonMember body.jsonFields "data" = Option.none) :=
  ⟨respondWithError_envelope,
   fun exec decoded => standard_error_envelope _ (addLead_standard exec decoded),
   fun q l f => standard_error_envelope _ (leadFieldInfo_standard q l f),
   fun q l => standard_error_envelope _ (leadAllInfo_standard q l),
   fun q c l => standard_error_envelope _ (listInfo_standard q c l),
   fun q u => standard_error_envelope _ (userDetails_standard q u),
   fun q c => standard_error_envelope _ (callidInfo_standard q c),
   fun c f t p k => standard_error_envelope _ (deleteDNC_standard c f t p k),
   fun q c a b => standard_error_envelope _ (getKPIByCampaign_standard q c a b),
   fun e f d c r => standard_error_envelope _ (hopperBulkInsert_standard e f d c r),
   fun e f d l => standard_error_envelope _ (leadDearchive_standard e f d l),
   fun d n r => standard_error_envelope _ (sendTestCall_standard d n r),
   auth_error_body_shape⟩

theorem error_response_shapes_witness :
    (respondWithError 400 "Invalid field name").isErrorEnvelope ∧
    (LeadFieldInfo (queryRowReturning "x") "5" "password").1.isErrorEnvelope ∧
    (SendTestCall noServerTestCallDB sampleClock (some sampleTestCallRequest)).1.isErrorEnvelope ∧
    ((ErrorResponse.mk "Authentication failed" "Invalid API key").jsonFields.map Prod.fst
        = ["error", "message"] ∧
      jsonMember (ErrorResponse.mk "Authentication failed" "Invalid API key").jsonFields
        "success" = Option.none ∧
      jsonMember (ErrorResponse.mk "Authentication failed" "Invalid API key").jsonFields
        "data" = Option.none) :=
  ⟨error_response_shapes.1 400 "Invalid field name",
   error_response_shapes.2.2.1 (queryRowReturning "x") "5" "password" (by decide),
   error_response_shapes.2.2.2.2.2.2.2.2.2.2.2.1 noServerTestCallDB sampleClock
     (some sampleTestCallRequest) (by decide),
   error_response_shapes.2.2.2.2.2.2.2.2.2.2.2.2 (sampleConfig "s3cret")
     (sampleRequest [("X-Api-Key", "nope")] [] []) 401 "application/json"
     (ErrorResponse.mk "Authentication failed" "Invalid API key") (by decide)⟩

/-! ## Theorems: test call, writes and derived values -/

theorem testCallDefaults_campaignID (req : TestCallRequest) :
    (testCallDefaults req).CampaignID = req.CampaignID := by
  unfold testCallDefaults
  by_cases a : req.PhoneCode = "" <;> by_cases b : req.User = "" <;> simp [a, b]

theorem testCallDefaults_phoneNumber (req : TestCallRequest) :
    (testCallDefaults req).PhoneNumber = req.PhoneNumber := by
  unfold testCallDefaults
  by_cases a : req.PhoneCode = "" <;> by_cases b : req.User = "" <;> simp [a, b]

theorem testCallDefaults_serverIP (req : TestCallRequest) :
    (testCallDefaults req).ServerIP = TrimSpace req.ServerIP := by
  unfold testCallDefaults
  by_cases a : req.PhoneCode = "" <;> by_cases b : req.User = "" <;> simp [a, b]

theorem sendTestCall_writes (db : TestCallDB) (now : Clock) (req : TestCallRequest)
    (camp : CampaignScan) (srv : ServerScan) (tr₁ tr₂ : List DBCall)
    (hv : req.passesValidation)
    (hc : testCallCampaignLookup db req.CampaignID = (Except.ok camp, tr₁))
    (hs : testCallServerLookup db (TrimSpace req.ServerIP) = (Except.ok srv, tr₂)) :
    SendTestCall db now (some req)
      = testCallWrites db now (testCallDefaults req) camp srv (tr₁ ++ tr₂) := by
  obtain ⟨h1, h2, h3⟩ := hv
  unfold SendTestCall testCallWrites testCallDefaults
  by_cases a : req.PhoneCode = "" <;> by_cases b : req.User = ""
  all_goals
    simp only [h1, h2, h3, a, b, if_false, if_true, hc, hs]
    rfl


theorem testCallCampaignLookup_reads (db : TestCallDB) (campaignID : String) :
    ∀ c ∈ (testCallCampaignLookup db campaignID).2, c.isWrite = false := by
  unfold testCallCampaignLookup
  simp only []
  generalize db.campaign campaignQuery [SqlArg.str campaignID] = r₁
  generalize db.campaign campaignFallbackQuery [SqlArg.str campaignID] = r₂
  rcases r₁ with e | row
  · by_cases h : Contains e.Error "Unknown column 'ext_context'" = true
    · rcases r₂ with e₂ | row₂ <;> simp [h, DBCall.isWrite]
    · simp [h, DBCall.isWrite]
  · simp [DBCall.isWrite]

theorem testCallServerLookup_reads (db : TestCallDB) (serverIP : String) :
    ∀ c ∈ (testCallServerLookup db serverIP).2, c.isWrite = false := by
  unfold testCallServerLookup
  simp only []
  generalize db.server _ _ = r₁
  generalize db.server _ _ = r₂
  rcases r₁ with e | row
  · rcases r₂ with e₂ | row₂ <;> simp [DBCall.isWrite]
  · simp [DBCall.isWrite]

theorem filter_isWrite_reads (tr : List DBCall) (h : ∀ c ∈ tr, c.isWrite = false) :
    tr.filter DBCall.isWrite = [] := by
  apply List.filter_eq_nil_iff.2
  intro c hc
  simp [h c hc]

/-- C24: for a valid request whose campaign and server lookups succeed,
SendTestCall answers 200 with the success flag exactly when the insert of the
test lead succeeds and the insert of the origination command, built from the
id of that lead, succeeds; replacing the result of every other Exec (the five
audit writes) by anything leaves the response and the calls made unchanged;
and when the lead insert fails the lead insert is the only write attempted. -/
theorem testCall_fatal_and_audit_writes (db : TestCallDB) (now : Clock) (req : TestCallRequest)
    (camp : CampaignScan) (srv : ServerScan) (tr₁ tr₂ : List DBCall)
    (hv : req.passesValidation)
    (hc : testCallCampaignLookup db req.CampaignID = (Except.ok camp, tr₁))
    (hs : testCallServerLookup db (TrimSpace req.ServerIP) = (Except.ok srv, tr₂)) :
    (((SendTestCall db now (some req)).1.code = 200 ∧
        (SendTestCall db now (some req)).1.body.Success = true) ↔
      ∃ lead manager,
        db.exec leadQuery (testCallLeadArgs (testCallDefaults req) camp
            (now.Format "2006-01-02 15:04:05")) = Except.ok lead ∧
        db.exec managerQuery (testCallManagerArgs srv (now.Format "2006-01-02 15:04:05")
            (testCallPlan (testCallDefaults req) camp srv lead.LastInsertId
              (testCallListOverride db camp) (now.Format "010215"))) = Except.ok manager) ∧
    (∀ audit, SendTestCall (db.withAudit audit) now (some req)
        = SendTestCall db now (some req)) ∧
    (∀ err, db.exec leadQuery (testCallLeadArgs (testCallDefaults req) camp
          (now.Format "2006-01-02 15:04:05")) = Except.error err →
      (SendTestCall db now (some req)).1
          = respondWithError 500 ("Failed to create test lead: " ++ err) ∧
      (SendTestCall db now (some req)).2.filter DBCall.isWrite
          = [DBCall.Exec leadQuery (testCallLeadArgs (testCallDefaults req) camp
              (now.Format "2006-01-02 15:04:05"))]) ∧
    [autoCallQuery, dialLogQuery, cidLogQuery, userDialLogQuery, userCallLogQuery].all
      (fun q => q ≠ leadQuery ∧ q ≠ managerQuery) = true := by
  have hrun := sendTestCall_writes db now req camp srv tr₁ tr₂ hv hc hs
  refine ⟨?_, ?_, ?_, by decide⟩
  · rw [hrun]
    unfold testCallWrites
    simp only []
    generalize db.exec leadQuery _ = r₁
    rcases r₁ with e | lead
    · simp [respondWithError, respondWithJSON, StatusInternalServerError]
    · simp only []
      generalize hr₂ : db.exec managerQuery _ = r₂
      rcases r₂ with e | manager
      · constructor
        · intro h
          simp [respondWithError, respondWithJSON, StatusInternalServerError] at h
        · rintro ⟨lead', manager', hl, hm⟩
          injection hl with hl
          subst hl
          rw [hr₂] at hm
          simp at hm
      · constructor
        · intro _
          exact ⟨lead, manager, rfl, hr₂⟩
        · intro _
          exact ⟨rfl, rfl⟩
  · intro audit
    have hrun' := sendTestCall_writes (db.withAudit audit) now req camp srv tr₁ tr₂ hv hc hs
    rw [hrun, hrun']
    unfold testCallWrites
    have hl : ∀ args, (db.withAudit audit).exec leadQuery args = db.exec leadQuery args := by
      intro args
      simp [TestCallDB.withAudit]
    have hm : ∀ args, (db.withAudit audit).exec managerQuery args = db.exec managerQuery args := by
      intro args
      simp [TestCallDB.withAudit]
    have ho : testCallListOverride (db.withAudit audit) camp = testCallListOverride db camp := rfl
    simp only [hl, hm, ho]
  · intro err he
    rw [hrun]
    unfold testCallWrites
    simp only [he]
    refine ⟨rfl, ?_⟩
    have h₁ := filter_isWrite_reads _ (testCallCampaignLookup_reads db req.CampaignID)
    have h₂ := filter_isWrite_reads _ (testCallServerLookup_reads db (TrimSpace req.ServerIP))
    rw [hc] at h₁
    rw [hs] at h₂
    simp only [] at h₁ h₂
    rw [List.filter_append, List.filter_append, h₁, h₂]
    rfl

theorem testCall_fatal_and_audit_writes_witness :
    (((SendTestCall (sampleTestCallDB "9") sampleClock (some sampleTestCallRequest)).1.code = 200 ∧
        (SendTestCall (sampleTestCallDB "9") sampleClock
          (some sampleTestCallRequest)).1.body.Success = true) ↔
      ∃ lead manager,
        (sampleTestCallDB "9").exec leadQuery (testCallLeadArgs
            (testCallDefaults sampleTestCallRequest) (sampleCampaignScan "9" 30)
            (sampleClock.Format "2006-01-02 15:04:05")) = Except.ok lead ∧
        (sampleTestCallDB "9").exec managerQuery (testCallManagerArgs sampleServerScan
            (sampleClock.Format "2006-01-02 15:04:05")
            (testCallPlan (testCallDefaults sampleTestCallRequest) (sampleCampaignScan "9" 30)
              sampleServerScan lead.LastInsertId
              (testCallListOverride (sampleTestCallDB "9") (sampleCampaignScan "9" 30))
              (sampleClock.Format "010215"))) = Except.ok manager) ∧
    (∀ audit, SendTestCall ((sampleTestCallDB "9").withAudit audit) sampleClock
          (some sampleTestCallRequest)
        = SendTestCall (sampleTestCallDB "9") sampleClock (some sampleTestCallRequest)) ∧
    (∀ err, (sampleTestCallDB "9").exec leadQuery (testCallLeadArgs
          (testCallDefaults sampleTestCallRequest) (sampleCampaignScan "9" 30)
          (sampleClock.Format "2006-01-02 15:04:05")) = Except.error err →
      (SendTestCall (sampleTestCallDB "9") sampleClock (some sampleTestCallRequest)).1
          = respondWithError 500 ("Failed to create test lead: " ++ err) ∧
      (SendTestCall (sampleTestCallDB "9") sampleClock
          (some sampleTestCallRequest)).2.filter DBCall.isWrite
          = [DBCall.Exec leadQuery (testCallLeadArgs (testCallDefaults sampleTestCallRequest)
              (sampleCampaignScan "9" 30) (sampleClock.Format "2006-01-02 15:04:05"))]) ∧
    [autoCallQuery, dialLogQuery, cidLogQuery, userDialLogQuery, userCallLogQuery].all
      (fun q => q ≠ leadQuery ∧ q ≠ managerQuery) = true :=
  testCall_fatal_and_audit_writes (sampleTestCallDB "9") sampleClock sampleTestCallRequest
    (sampleCampaignScan "9" 30) sampleServerScan
    [DBCall.QueryRow campaignQuery [SqlArg.str "TESTCAMP"]]
    [DBCall.QueryRow (serverInfoQuery "active = 'Y'") []]
    ⟨by decide, by decide, by decide⟩ rfl rfl

theorem foldl_digits (ys : List Char) (a : Nat) :
    ys.foldl (fun n c => n * 10 + (c.toNat - 48)) a
      = a * 10 ^ ys.length + ys.foldl (fun n c => n * 10 + (c.toNat - 48)) 0 := by
  induction ys generalizing a with
  | nil => simp
  | cons y ys ih =>
    simp only [List.foldl_cons, List.length_cons]
    rw [ih (a * 10 + (y.toNat - 48)), ih (0 * 10 + (y.toNat - 48))]
    ring

theorem digitsValue_cons (c : Char) (ds : List Char) :
    digitsValue (c :: ds) = (c.toNat - 48) * 10 ^ ds.length + digitsValue ds := by
  unfold digitsValue
  simp only [List.foldl_cons]
  rw [foldl_digits]
  ring_nf

theorem digitChar_value (k : Nat) (hk : k < 10) : (Nat.digitChar k).toNat - 48 = k := by
  interval_cases k <;> rfl

theorem digitsValue_toDigitsCore :
    ∀ (fuel n : Nat) (ds : List Char), n < fuel →
      digitsValue (Nat.toDigitsCore 10 fuel n ds) = n * 10 ^ ds.length + digitsValue ds := by
  intro fuel
  induction fuel with
  | zero => intro n ds h; omega
  | succ fuel ih =>
    intro n ds h
    have hd : digitsValue (Nat.digitChar (n % 10) :: ds)
        = (n % 10) * 10 ^ ds.length + digitsValue ds := by
      rw [digitsValue_cons, digitChar_value _ (Nat.mod_lt _ (by norm_num))]
    unfold Nat.toDigitsCore
    simp only
    split_ifs with h0
    · rw [hd]
      have : n % 10 = n := by omega
      rw [this]
    · have hlt : n / 10 < fuel := by omega
      rw [ih (n / 10) _ hlt, hd, List.length_cons, pow_succ]
      have hn : n * 10 ^ ds.length = (10 * (n / 10) + n % 10) * 10 ^ ds.length := by
        rw [Nat.div_add_mod n 10]
      rw [hn]
      ring

theorem digitsValue_repr (n : Nat) : digitsValue (Nat.repr n).data = n := by
  have hdata : (Nat.repr n).data = Nat.toDigits 10 n := rfl
  rw [hdata]
  have := digitsValue_toDigitsCore (n + 1) n [] (by omega)
  simpa [digitsValue] using this

theorem digitsValue_replicate_zero (k : Nat) (l : List Char) :
    digitsValue (List.replicate k '0' ++ l) = digitsValue l := by
  induction k with
  | zero => simp
  | succ k ih =>
    rw [List.replicate_succ, List.cons_append, digitsValue_cons, ih]
    simp

theorem digitsValue_zeroPad (w n : Nat) : digitsValue (zeroPad w n) = n := by
  unfold zeroPad
  rw [digitsValue_replicate_zero, digitsValue_repr]

theorem zeroPad_length (w n : Nat) (h : n < 10 ^ w) (hw : 0 < w) : (zeroPad w n).length = w := by
  unfold zeroPad
  have := Nat.repr_length n w hw h
  simp only [List.length_append, List.length_replicate]
  have h2 : (Nat.repr n).data.length = (Nat.repr n).length := rfl
  omega

theorem lastN_of_length (n : Nat) (l : List Char) (h : l.length = n) : lastN n l = l := by
  unfold lastN
  rw [h]
  simp

theorem lastN_append (n : Nat) (xs l : List Char) (h : l.length = n) : lastN n (xs ++ l) = l := by
  unfold lastN
  rw [List.length_append, h, Nat.add_sub_cancel]
  exact List.drop_left _ _

theorem padLeadID_nonneg (req : TestCallRequest) (camp : CampaignScan) (srv : ServerScan)
    (leadID : Int) (campaignCIDOverride : NullString) (cidDate : String) (hpos : 0 ≤ leadID) :
    (testCallPlan req camp srv leadID campaignCIDOverride cidDate).padLeadID
      = String.mk (lastN 10 (zeroPad 10 leadID.toNat)) := by
  rw [padLeadID_eq, sprintfD010_data]
  have hneg : ¬ leadID < 0 := by omega
  have habs : leadID.natAbs = leadID.toNat := by omega
  rw [if_neg hneg, habs]
  simp [zeroPad]

theorem padLeadID_length (req : TestCallRequest) (camp : CampaignScan) (srv : ServerScan)
    (leadID : Int) (campaignCIDOverride : NullString) (cidDate : String) :
    (testCallPlan req camp srv leadID campaignCIDOverride cidDate).padLeadID.data.length = 10 := by
  rw [padLeadID_eq]
  unfold lastN
  have hge := sprintfD010_length_ge leadID
  rw [List.length_drop]
  omega

theorem vQueryCID_data (req : TestCallRequest) (camp : CampaignScan) (srv : ServerScan)
    (leadID : Int) (campaignCIDOverride : NullString) (cidDate : String) :
    (testCallPlan req camp srv leadID campaignCIDOverride cidDate).vQueryCID.data
      = ('V' :: cidDate.data)
        ++ (testCallPlan req camp srv leadID campaignCIDOverride cidDate).padLeadID.data := by
  have hv : (testCallPlan req camp srv leadID campaignCIDOverride cidDate).vQueryCID
      = "V" ++ cidDate ++ (testCallPlan req camp srv leadID campaignCIDOverride cidDate).padLeadID :=
    rfl
  rw [hv]
  simp [String.data_append]

/-- C21 as stated fails: the token keeps only the last ten digits of the lead
id, so the placements whose test leads get the ids 1 and 10000000001 in the
same hour both carry the token "V0307140000000001". -/
theorem testCall_token_collision :
    (SendTestCall (testCallDBAssigning 1) sampleClock
        (some sampleTestCallRequest)).1.dataField "lead_id" = some (JsonValue.int 1) ∧
    (SendTestCall (testCallDBAssigning 10000000001) sampleClock
        (some sampleTestCallRequest)).1.dataField "lead_id" = some (JsonValue.int 10000000001) ∧
    (SendTestCall (testCallDBAssigning 1) sampleClock
        (some sampleTestCallRequest)).1.dataField "caller_code"
      = some (JsonValue.str "V0307140000000001") ∧
    (SendTestCall (testCallDBAssigning 10000000001) sampleClock
        (some sampleTestCallRequest)).1.dataField "caller_code"
      = some (JsonValue.str "V0307140000000001") := by
  decide

/-- C21 (amended): two placements whose test leads have different ids, both
at least 0 and below 10^10, carry different caller-id tokens, whatever the
requests, the campaign and server rows and the date stamps. -/
theorem testCall_token_unique_below_ten_digits (req₁ req₂ : TestCallRequest)
    (camp₁ camp₂ : CampaignScan) (srv₁ srv₂ : ServerScan) (ov₁ ov₂ : NullString)
    (cidDate₁ cidDate₂ : String) (a b : Int)
    (ha : 0 ≤ a) (ha10 : a < 10 ^ 10) (hb : 0 ≤ b) (hb10 : b < 10 ^ 10) (hab : a ≠ b) :
    (testCallPlan req₁ camp₁ srv₁ a ov₁ cidDate₁).vQueryCID
      ≠ (testCallPlan req₂ camp₂ srv₂ b ov₂ cidDate₂).vQueryCID := by
  intro heq
  have hdata := congrArg String.data heq
  rw [vQueryCID_data, vQueryCID_data] at hdata
  have hl := congrArg (lastN 10) hdata
  rw [lastN_append _ _ _ (padLeadID_length _ _ _ _ _ _),
    lastN_append _ _ _ (padLeadID_length _ _ _ _ _ _),
    padLeadID_nonneg _ _ _ _ _ _ ha, padLeadID_nonneg _ _ _ _ _ _ hb] at hl
  have ha' : a.toNat < 10 ^ 10 := by omega
  have hb' : b.toNat < 10 ^ 10 := by omega
  rw [lastN_of_length _ _ (zeroPad_length 10 _ ha' (by norm_num)),
    lastN_of_length _ _ (zeroPad_length 10 _ hb' (by norm_num))] at hl
  have hv := congrArg digitsValue hl
  rw [digitsValue_zeroPad, digitsValue_zeroPad] at hv
  omega

theorem testCall_token_unique_below_ten_digits_witness :
    (testCallPlan sampleTestCallRequest (sampleCampaignScan "9" 30) sampleServerScan 1
        NullString.zero "030714").vQueryCID
      ≠ (testCallPlan sampleTestCallRequest (sampleCampaignScan "9" 30) sampleServerScan
          9999999999 NullString.zero "030714").vQueryCID :=
  testCall_token_unique_below_ten_digits sampleTestCallRequest sampleTestCallRequest
    (sampleCampaignScan "9" 30) (sampleCampaignScan "9" 30) sampleServerScan sampleServerScan
    NullString.zero NullString.zero "030714" "030714" 1 9999999999
    (by decide) (by decide) (by decide) (by decide) (by decide)

/-- C22 as stated fails: for a campaign whose omit_phone_code is "Y" the
country code "1" of the request is left out of the dial string, and the
channel is "Local/95551234567@default". -/
theorem testCall_channel_omits_phone_code :
    (SendTestCall omitCodeTestCallDB sampleClock (some sampleTestCallRequest)).1.dataField
        "phone_code" = some (JsonValue.str "1") ∧
    (SendTestCall omitCodeTestCallDB sampleClock (some sampleTestCallRequest)).1.dataField
        "phone_number" = some (JsonValue.str "5551234567") ∧
    (SendTestCall omitCodeTestCallDB sampleClock (some sampleTestCallRequest)).1.dataField
        "channel" = some (JsonValue.str "Local/95551234567@default") ∧
    (SendTestCall omitCodeTestCallDB sampleClock (some sampleTestCallRequest)).1.dataField
        "channel" ≠ some (JsonValue.str ("Local/" ++ "9" ++ "1" ++ "5551234567" ++ "@" ++ "default")) := by
  decide

/-- C22 (amended): the channel is "Local/", the dial string, "@" and the
dialing context, and it is what the command row carries after "Channel: ". The
dial string is the outbound prefix (empty when the campaign's dial_prefix
contains "x", "9" when dial_prefix is empty, dial_prefix otherwise), then the
country code unless the campaign's omit_phone_code is "Y" in either case, then
the phone number. The dialing context is the first non-empty value, after
trimming, among the server's ext_context (NULL counting as empty), the
campaign's ext_context and "default". -/
theorem testCall_channel (req : TestCallRequest) (camp : CampaignScan) (srv : ServerScan)
    (leadID : Int) (campaignCIDOverride : NullString) (cidDate : String) :
    (testCallPlan req camp srv leadID campaignCIDOverride cidDate).channel
      = "Local/" ++ (testCallPlan req camp srv leadID campaignCIDOverride cidDate).nDialString
          ++ "@" ++ (testCallPlan req camp srv leadID campaignCIDOverride cidDate).extContext ∧
    (testCallPlan req camp srv leadID campaignCIDOverride cidDate).cmdLineD
      = "Channel: " ++ (testCallPlan req camp srv leadID campaignCIDOverride cidDate).channel ∧
    (testCallPlan req camp srv leadID campaignCIDOverride cidDate).nDialString
      = (if Contains camp.dialPrefix "x" = true then ""
          else if camp.dialPrefix = "" then "9" else camp.dialPrefix)
        ++ (if camp.omitPhoneCode.Valid = true ∧ ToUpper camp.omitPhoneCode.String = "Y" then ""
            else req.PhoneCode)
        ++ req.PhoneNumber ∧
    (testCallPlan req camp srv leadID campaignCIDOverride cidDate).extContext
      = firstNonEmpty [nullStringText srv.serverExtContext, TrimSpace camp.extContext,
          "default"] := by
  refine ⟨rfl, rfl, ?_, ?_⟩
  · have hn : (testCallPlan req camp srv leadID campaignCIDOverride cidDate).nDialString
        = (if (camp.omitPhoneCode.Valid && decide (ToUpper camp.omitPhoneCode.String = "Y")) = true
            then (testCallPlan req camp srv leadID campaignCIDOverride cidDate).localOutPrefix
              ++ req.PhoneNumber
            else (testCallPlan req camp srv leadID campaignCIDOverride cidDate).localOutPrefix
              ++ req.PhoneCode ++ req.PhoneNumber) := rfl
    rw [hn, testCall_out_prefix]
    by_cases hc : camp.omitPhoneCode.Valid = true ∧ ToUpper camp.omitPhoneCode.String = "Y"
    · have hb : (camp.omitPhoneCode.Valid
          && decide (ToUpper camp.omitPhoneCode.String = "Y")) = true := by
        simp [hc.1, hc.2]
      rw [if_pos hb, if_pos hc]
      simp
    · have hb : ¬ (camp.omitPhoneCode.Valid
          && decide (ToUpper camp.omitPhoneCode.String = "Y")) = true := by
        intro h
        simp only [Bool.and_eq_true, decide_eq_true_eq] at h
        exact hc h
      rw [if_neg hb, if_neg hc]
  · have he : (testCallPlan req camp srv leadID campaignCIDOverride cidDate).extContext
        = (if len (if (srv.serverExtContext.Valid
                && decide (len (TrimSpace srv.serverExtContext.String) > 0)) = true
              then TrimSpace srv.serverExtContext.String else TrimSpace camp.extContext) < 1
            then "default"
           else (if (srv.serverExtContext.Valid
                && decide (len (TrimSpace srv.serverExtContext.String) > 0)) = true
              then TrimSpace srv.serverExtContext.String else TrimSpace camp.extContext)) := rfl
    rw [he]
    simp only [gt_iff_lt, len_pos_iff, len_lt_one_iff, firstNonEmpty, nullStringText]
    by_cases h1 : srv.serverExtContext.Valid = true <;>
      by_cases h2 : TrimSpace srv.serverExtContext.String = "" <;>
      by_cases h3 : TrimSpace camp.extContext = "" <;>
      simp [h1, h2, h3]

set_option maxRecDepth 100000 in
/-- C23 as stated fails: the target list has the caller-id override "123456",
yet the CID log and the user call log are written with the campaign's caller
id "5551112222", which is also the one in the Callerid of the call. -/
theorem testCall_short_override_ignored :
    (overrideTestCallDB "123456").list listQuery [SqlArg.int 998]
      = Except.ok ({ String := "123456", Valid := true }, NullString.zero) ∧
    DBCall.Exec cidLogQuery [SqlArg.str "V0307140000012345",
        SqlArg.str "2024-03-07 14:05:09", SqlArg.str "5551112222"]
      ∈ (SendTestCall (overrideTestCallDB "123456") sampleClock (some sampleTestCallRequest)).2 ∧
    DBCall.Exec userCallLogQuery [SqlArg.str "API", SqlArg.str "2024-03-07 14:05:09",
        SqlArg.str "10.0.0.1", SqlArg.str "5551234567", SqlArg.str "915551234567",
        SqlArg.int 12345, SqlArg.str "5551112222"]
      ∈ (SendTestCall (overrideTestCallDB "123456") sampleClock (some sampleTestCallRequest)).2 ∧
    (SendTestCall (overrideTestCallDB "123456") sampleClock
        (some sampleTestCallRequest)).1.dataField "caller_id"
      = some (JsonValue.str "\"V0307140000012345\" <5551112222>") := by
  refine ⟨rfl, ?_, ?_, ?_⟩ <;> decide

/-- C23 (amended): the caller id `ccid` is the list's override when the
override is not NULL and longer than 6 bytes, and the campaign's caller id
otherwise; it is the caller id written to the CID log and to the user call log;
the Callerid of the origination command is the token followed by `ccid` in
angle brackets when `ccid` is longer than 6 bytes and the bare token otherwise. -/
theorem testCall_caller_id_override (req : TestCallRequest) (camp : CampaignScan)
    (srv : ServerScan) (leadID : Int) (campaignCIDOverride : NullString)
    (cidDate sqlDate : String) :
    (testCallPlan req camp srv leadID campaignCIDOverride cidDate).ccid
      = (if campaignCIDOverride.Valid = true ∧ 6 < len campaignCIDOverride.String
          then campaignCIDOverride.String else camp.campaignCID) ∧
    (testCallPlan req camp srv leadID campaignCIDOverride cidDate).cidString
      = (if 6 < len (testCallPlan req camp srv leadID campaignCIDOverride cidDate).ccid
          then "\"" ++ (testCallPlan req camp srv leadID campaignCIDOverride cidDate).vQueryCID
            ++ "\" <" ++ (testCallPlan req camp srv leadID campaignCIDOverride cidDate).ccid ++ ">"
          else (testCallPlan req camp srv leadID campaignCIDOverride cidDate).vQueryCID) ∧
    (testCallPlan req camp srv leadID campaignCIDOverride cidDate).cmdLineF
      = "Callerid: " ++ (testCallPlan req camp srv leadID campaignCIDOverride cidDate).cidString ∧
    DBCall.Exec cidLogQuery
        [SqlArg.str (testCallPlan req camp srv leadID campaignCIDOverride cidDate).vQueryCID,
         SqlArg.str sqlDate,
         SqlArg.str (testCallPlan req camp srv leadID campaignCIDOverride cidDate).ccid]
      ∈ testCallAuditCalls req srv.serverIP sqlDate leadID
          (testCallPlan req camp srv leadID campaignCIDOverride cidDate) ∧
    DBCall.Exec userCallLogQuery
        [SqlArg.str req.User, SqlArg.str sqlDate, SqlArg.str srv.serverIP,
         SqlArg.str req.PhoneNumber,
         SqlArg.str (testCallPlan req camp srv leadID campaignCIDOverride cidDate).nDialString,
         SqlArg.int leadID,
         SqlArg.str (testCallPlan req camp srv leadID campaignCIDOverride cidDate).ccid]
      ∈ testCallAuditCalls req srv.serverIP sqlDate leadID
          (testCallPlan req camp srv leadID campaignCIDOverride cidDate) := by
  refine ⟨?_, rfl, rfl, ?_, ?_⟩
  · have hc : (testCallPlan req camp srv leadID campaignCIDOverride cidDate).ccid
        = (if (campaignCIDOverride.Valid && decide (len campaignCIDOverride.String > 6)) = true
            then campaignCIDOverride.String else camp.campaignCID) := rfl
    rw [hc]
    by_cases h : campaignCIDOverride.Valid = true ∧ 6 < len campaignCIDOverride.String
    · rw [if_pos h, if_pos (by simp [h.1, h.2])]
    · rw [if_neg h, if_neg]
      intro hb
      simp only [Bool.and_eq_true, decide_eq_true_eq, gt_iff_lt] at hb
      exact h hb
  · simp [testCallAuditCalls]
  · simp [testCallAuditCalls]

/-- C27 (the code at the failing input): the layout "010215" is read as month,
day and hour, so the date stamp is those three two-digit fields and nothing
else; the minute and the second of the call do not enter the stamp. On
7 March 2024, 14:05:09 the stamp is "030714", not "0307140509", and the token
of lead 12345 is "V0307140000012345". -/
theorem testCall_date_stamp_omits_minute_and_second (t : Clock) (minute second : Nat) :
    t.Format "010215" = String.mk (zeroPad 2 t.month ++ zeroPad 2 t.day ++ zeroPad 2 t.hour) ∧
    ({ t with minute := minute, second := second } : Clock).Format "010215"
      = t.Format "010215" ∧
    sampleClock.Format "010215" = "030714" ∧
    (SendTestCall (sampleTestCallDB "9") sampleClock (some sampleTestCallRequest)).1.dataField
        "caller_code" = some (JsonValue.str "V0307140000012345") ∧
    (SendTestCall (sampleTestCallDB "9") sampleClock (some sampleTestCallRequest)).1.dataField
        "call_date" = some (JsonValue.str "2024-03-07 14:05:09") := by
  refine ⟨?_, ?_, by decide, by decide, by decide⟩
  · simp [Clock.Format, formatLayout]
  · simp [Clock.Format, formatLayout]

/-- C29 as stated fails: the phone number "abcdef" has no digit and is not
rejected; the call is placed. -/
theorem testCall_accepts_number_without_digits :
    digitCount "abcdef" = 0 ∧
    (SendTestCall (sampleTestCallDB "9") sampleClock
        (some { sampleTestCallRequest with PhoneNumber := "abcdef" })).1.code = 200 ∧
    (SendTestCall (sampleTestCallDB "9") sampleClock
        (some { sampleTestCallRequest with PhoneNumber := "abcdef" })).1.dataField "dial_string"
      = some (JsonValue.str "91abcdef") := by
  decide

theorem isDigit_utf8Size (c : Char) (h : c.isDigit = true) : c.utf8Size = 1 := by
  unfold Char.isDigit at h
  unfold Char.utf8Size
  simp only [Bool.and_eq_true, decide_eq_true_eq] at h
  have h57 : c.val.toNat ≤ 57 := h.2
  have h2 : c.val ≤ 127 := by
    show c.val.toNat ≤ 127
    omega
  simp [h2]

theorem countP_all (l : List Char) (h : l.all Char.isDigit = true) :
    l.countP Char.isDigit = l.length := by
  rw [List.countP_eq_length]
  intro c hc
  exact (List.all_eq_true.1 h) c hc

/-- C29 (amended): a request SendTestCall does not answer with 400 has a
phone_number of at least 6 bytes, which are 6 digits when the number consists
of decimal digits only; a request with a campaign_id and a non-empty
phone_number shorter than 6 bytes is answered 400 with the message
"phone_number too small, must be at least 6 digits" and no database call. -/
theorem testCall_phone_number_length (db : TestCallDB) (now : Clock) (req : TestCallRequest) :
    ((SendTestCall db now (some req)).1.code ≠ 400 → 6 ≤ len req.PhoneNumber) ∧
    ((SendTestCall db now (some req)).1.code ≠ 400 →
      req.PhoneNumber.data.all Char.isDigit = true → 6 ≤ digitCount req.PhoneNumber) ∧
    (req.CampaignID ≠ "" → req.PhoneNumber ≠ "" → len req.PhoneNumber < 6 →
      SendTestCall db now (some req)
        = (respondWithError 400 "phone_number too small, must be at least 6 digits", [])) := by
  have hlen : (SendTestCall db now (some req)).1.code ≠ 400 → 6 ≤ len req.PhoneNumber := by
    intro hcode
    by_contra hlt
    apply hcode
    unfold SendTestCall
    by_cases h1 : req.CampaignID = ""
    · simp [h1, respondWithError, respondWithJSON, StatusBadRequest]
    · by_cases h2 : req.PhoneNumber = ""
      · simp [h1, h2, respondWithError, respondWithJSON, StatusBadRequest]
      · have h3 : len req.PhoneNumber < 6 := by omega
        simp [h1, h2, h3, respondWithError, respondWithJSON, StatusBadRequest]
  refine ⟨hlen, ?_, ?_⟩
  · intro hcode hdig
    have h6 := hlen hcode
    have hl : len req.PhoneNumber = req.PhoneNumber.data.length := by
      have hs : req.PhoneNumber = String.mk req.PhoneNumber.data := rfl
      conv_lhs => rw [hs]
      exact len_ascii _ (fun c hc => isDigit_utf8Size c ((List.all_eq_true.1 hdig) c hc))
    unfold digitCount
    rw [countP_all _ hdig, ← hl]
    exact h6
  · intro h1 h2 h3
    unfold SendTestCall
    simp only [h1, h2, h3, if_false, if_true]
    rfl

theorem testCall_phone_number_length_witness :
    ((SendTestCall (sampleTestCallDB "9") sampleClock
        (some { sampleTestCallRequest with PhoneNumber := "12345" })).1.code ≠ 400 →
      6 ≤ len "12345") ∧
    ((SendTestCall (sampleTestCallDB "9") sampleClock
        (some { sampleTestCallRequest with PhoneNumber := "12345" })).1.code ≠ 400 →
      "12345".data.all Char.isDigit = true → 6 ≤ digitCount "12345") ∧
    ("TESTCAMP" ≠ "" → "12345" ≠ "" → len "12345" < 6 →
      SendTestCall (sampleTestCallDB "9") sampleClock
          (some { sampleTestCallRequest with PhoneNumber := "12345" })
        = (respondWithError 400 "phone_number too small, must be at least 6 digits", [])) :=
  testCall_phone_number_length (sampleTestCallDB "9") sampleClock
    { sampleTestCallRequest with PhoneNumber := "12345" }

/-! ## Theorems: create handlers -/

theorem addList_active (exec : String → List SqlArg → Except String SqlResult)
    (list : models.List) (h : list.ListName ≠ "") :
    (AddList exec (some list)).2
      = [DBCall.Exec addListQuery [SqlArg.str list.ListName, SqlArg.str list.CampaignID,
          SqlArg.str (storedActive list.Active), SqlArg.str list.ListDescription,
          SqlArg.str list.Script, SqlArg.str list.WebForm]] := by
  unfold AddList storedActive
  by_cases ha : list.Active = ""
  · simp only [h, ha, if_false, if_true]
    generalize exec _ _ = r
    rcases r with e | r <;> rfl
  · simp only [h, ha, if_false]
    generalize exec _ _ = r
    rcases r with e | r <;> rfl

theorem addUser_active (exec : String → List SqlArg → Except String SqlResult)
    (user : models.User) (h : ¬ (user.User = "" ∨ user.Pass = "")) :
    (AddUser exec (some user)).2
      = [DBCall.Exec addUserQuery [SqlArg.str user.User, SqlArg.str user.Pass,
          SqlArg.str user.FullName, SqlArg.int user.UserLevel, SqlArg.str user.UserGroup,
          SqlArg.str user.PhoneLogin, SqlArg.str user.PhonePass,
          SqlArg.str (storedActive user.Active), SqlArg.str user.Email]] := by
  unfold AddUser storedActive
  by_cases ha : user.Active = ""
  · simp only [h, ha, if_false, if_true]
    generalize exec _ _ = r
    rcases r with e | r <;> rfl
  · simp only [h, ha, if_false]
    generalize exec _ _ = r
    rcases r with e | r <;> rfl

theorem addPhone_active (exec : String → List SqlArg → Except String SqlResult)
    (phone : models.Phone) (h : phone.Extension ≠ "") :
    (AddPhone exec (some phone)).2
      = [DBCall.Exec addPhoneQuery [SqlArg.str phone.Extension, SqlArg.str phone.Dialplan,
          SqlArg.str phone.VoicemailExt, SqlArg.str phone.PhoneIP, SqlArg.str phone.ComputerIP,
          SqlArg.str phone.ServerIP, SqlArg.str phone.Login, SqlArg.str phone.Pass,
          SqlArg.str phone.Status, SqlArg.str (storedActive phone.Active),
          SqlArg.str phone.PhoneType, SqlArg.str phone.FullName, SqlArg.str phone.CompanyName,
          SqlArg.str phone.OutboundCID]] := by
  unfold AddPhone storedActive
  by_cases ha : phone.Active = ""
  · simp only [h, ha, if_false, if_true]
    generalize exec _ _ = r
    rcases r with e | r <;> rfl
  · simp only [h, ha, if_false]
    generalize exec _ _ = r
    rcases r with e | r <;> rfl

theorem addDID_active (exec : String → List SqlArg → Except String SqlResult)
    (did : models.DID) (h : did.DIDPattern ≠ "") :
    (AddDID exec (some did)).2
      = [DBCall.Exec addDIDQuery [SqlArg.str did.DIDPattern, SqlArg.str did.DIDDescription,
          SqlArg.str did.DIDRoute, SqlArg.str did.RecordCall, SqlArg.str did.Extension,
          SqlArg.str did.Exten, SqlArg.str did.VoicemailExt, SqlArg.str did.FilterInboundGroup,
          SqlArg.str did.Group, SqlArg.str did.User, SqlArg.str (storedActive did.Active)]] := by
  unfold AddDID storedActive
  by_cases ha : did.Active = ""
  · simp only [h, ha, if_false, if_true]
    generalize exec _ _ = r
    rcases r with e | r <;> rfl
  · simp only [h, ha, if_false]
    generalize exec _ _ = r
    rcases r with e | r <;> rfl

theorem addGroupAlias_active (exec : String → List SqlArg → Except String SqlResult)
    (req : GroupAliasRequest) :
    (AddGroupAlias exec (some req)).2
      = [DBCall.Exec addGroupAliasQuery [SqlArg.str req.GroupAliasID,
          SqlArg.str req.GroupAliasName, SqlArg.str req.CallerIDGroup,
          SqlArg.str (storedActive req.Active)]] := by
  unfold AddGroupAlias storedActive
  by_cases ha : req.Active = ""
  · simp only [ha, if_true]
    generalize exec _ _ = r
    rcases r with e | r <;> rfl
  · simp only [ha, if_false]
    generalize exec _ _ = r
    rcases r with e | r <;> rfl

/-- C25 (the code at the failing input): AddPhoneAlias binds the active flag
exactly as the request sent it, for every request and every database; a
request without the flag is answered 200 and stores the empty string where the
specification has "Y". -/
theorem addPhoneAlias_stores_flag_as_sent
    (exec : String → List SqlArg → Except String SqlResult) (req : PhoneAliasRequest) :
    (AddPhoneAlias exec (some req)).2
      = [DBCall.Exec addPhoneAliasQuery [SqlArg.str req.AliasID, SqlArg.str req.AliasName,
          SqlArg.str req.Extension, SqlArg.str req.Active]] ∧
    (AddPhoneAlias (execAssigning 1) (some samplePhoneAlias)).1.code = 200 ∧
    (AddPhoneAlias (execAssigning 1) (some samplePhoneAlias)).2
      = [DBCall.Exec addPhoneAliasQuery [SqlArg.str "front", SqlArg.str "Front desk",
          SqlArg.str "100,101", SqlArg.str ""]] ∧
    storedActive samplePhoneAlias.Active = "Y" := by
  refine ⟨?_, by decide, by decide, by decide⟩
  unfold AddPhoneAlias
  simp only []
  generalize exec _ _ = r
  rcases r with e | r <;> rfl

/-! ## Theorems: statement builders -/

theorem placeholders_append (a b : String) :
    placeholders (a ++ b) = placeholders a + placeholders b := by
  unfold placeholders
  rw [String.data_append, List.count_append]

theorem andIf_fst (st : Statement) (cond : Bool) (clause : String) (arg : SqlArg) :
    (st.andIf cond clause arg).1 = if cond then st.1 ++ clause else st.1 := by
  unfold Statement.andIf
  split <;> rfl

theorem andIf_balanced (st : Statement) (cond : Bool) (clause : String) (arg : SqlArg)
    (hc : placeholders clause = 1) (h : placeholders st.1 = st.2.length) :
    placeholders (st.andIf cond clause arg).1 = (st.andIf cond clause arg).2.length := by
  unfold Statement.andIf
  split
  · simp only [placeholders_append, hc, h, List.length_append, List.length_singleton]
  · exact h

theorem batchUpdateIn_fst : ∀ (l₁ l₂ : List Int) (i : Nat) (st₁ st₂ : Statement),
    l₁.length = l₂.length → st₁.1 = st₂.1 →
    (batchUpdateIn l₁ i st₁).1 = (batchUpdateIn l₂ i st₂).1 := by
  intro l₁
  induction l₁ with
  | nil =>
    intro l₂ i st₁ st₂ hl hs
    cases l₂ with
    | nil => exact hs
    | cons b l₂ => simp at hl
  | cons a l₁ ih =>
    intro l₂ i st₁ st₂ hl hs
    cases l₂ with
    | nil => simp at hl
    | cons b l₂ =>
      simp only [batchUpdateIn]
      apply ih
      · simpa using hl
      · simp only [hs]

theorem batchUpdateIn_balanced : ∀ (l : List Int) (i : Nat) (st : Statement),
    placeholders st.1 = st.2.length →
    placeholders (batchUpdateIn l i st).1 = (batchUpdateIn l i st).2.length := by
  intro l
  induction l with
  | nil => intro i st h; exact h
  | cons a l ih =>
    intro i st h
    simp only [batchUpdateIn]
    apply ih
    have hq : placeholders "?" = 1 := by decide
    have hcm : placeholders "," = 0 := by decide
    by_cases hi : i > 0
    · simp only [hi, if_true, placeholders_append, hq, hcm, h, List.length_append,
        List.length_singleton, Nat.add_zero]
    · simp only [hi, if_false, placeholders_append, hq, h, List.length_append,
        List.length_singleton]

set_option maxRecDepth 100000 in
theorem statement_balanced (r : BuilderRequest) (st : Statement) (h : r.statement = some st) :
    placeholders st.1 = st.2.length := by
  have hb : ∀ (s : Statement) (tail : String), placeholders tail = 0 →
      placeholders s.1 = s.2.length → placeholders (s.1 ++ tail) = s.2.length := by
    intro s tail ht hs
    rw [placeholders_append, ht, hs, Nat.add_zero]
  cases r with
  | leadSearch phoneNumber firstName lastName email listID status =>
    simp only [BuilderRequest.statement, Option.some.injEq] at h
    subst h
    unfold leadSearchStatement
    apply hb _ _ (by decide)
    repeat' apply andIf_balanced
    all_goals decide
  | leadStatusSearch status listID =>
    simp only [BuilderRequest.statement, leadStatusSearchStatement] at h
    by_cases hs : status = ""
    · simp [hs] at h
    · simp only [hs, if_false, Option.some.injEq] at h
      subst h
      apply hb _ _ (by decide)
      repeat' apply andIf_balanced
      all_goals first | decide | rfl
  | batchUpdateLead leadIDs status owner =>
    simp only [BuilderRequest.statement, batchUpdateLeadStatement] at h
    by_cases hs : leadIDs.length = 0
    · simp [hs] at h
    · simp only [hs, if_false, Option.some.injEq] at h
      subst h
      apply hb _ _ (by decide)
      apply batchUpdateIn_balanced
      apply hb _ _ (by decide)
      repeat' apply andIf_balanced
      all_goals decide
  | sipLog startDate endDate leadID serverIP dialStatus sipHangupCause limit =>
    simp only [BuilderRequest.statement, Option.some.injEq] at h
    subst h
    unfold sipLogStatement
    simp only [placeholders_append, List.length_append, List.length_singleton]
    have hl : placeholders " ORDER BY call_date DESC LIMIT ?" = 1 := by decide
    rw [hl]
    congr 1
    repeat' apply andIf_balanced
    all_goals decide
  | kpiByList listID campaignID startDate endDate =>
    simp only [BuilderRequest.statement, Option.some.injEq] at h
    subst h
    unfold kpiListStatement
    apply hb _ _ (by decide)
    repeat' apply andIf_balanced
    all_goals decide

theorem statement_text (r₁ r₂ : BuilderRequest) (h : r₁.shape = r₂.shape) :
    r₁.statement.map Prod.fst = r₂.statement.map Prod.fst := by
  cases r₁ <;> cases r₂ <;>
    simp only [BuilderRequest.shape, Prod.mk.injEq, List.cons.injEq, OfNat.ofNat_ne_zero,
      OfNat.zero_ne_ofNat, OfNat.ofNat_ne_one, OfNat.one_ne_ofNat, Nat.reduceEqDiff,
      zero_ne_one, one_ne_zero, false_and, and_true, true_and] at h
  case leadSearch.leadSearch =>
    obtain ⟨h1, h2, h3, h4, h5, h6⟩ := h
    simp only [BuilderRequest.statement, leadSearchStatement, andIf_fst, Option.map_some',
      h1, h2, h3, h4, h5, h6]
  case leadStatusSearch.leadStatusSearch s₁ l₁ s₂ l₂ =>
    obtain ⟨h1, h2⟩ := h
    have hs : (s₁ = "") ↔ (s₂ = "") := by
      have := congrArg (fun b => b = true) h1
      simp only [decide_eq_true_eq, ne_eq, eq_iff_iff] at this
      exact not_iff_not.1 this
    by_cases e : s₁ = ""
    · simp [BuilderRequest.statement, leadStatusSearchStatement, e, hs.1 e]
    · have e₂ : ¬ s₂ = "" := fun x => e (hs.2 x)
      simp only [BuilderRequest.statement, leadStatusSearchStatement, e, e₂, if_false,
        andIf_fst, Option.map_some', h2]
  case batchUpdateLead.batchUpdateLead ids₁ s₁ o₁ ids₂ s₂ o₂ =>
    obtain ⟨⟨h1, h2⟩, h3⟩ := h
    by_cases e : ids₁.length = 0
    · have e₂ : ids₂.length = 0 := by omega
      simp [BuilderRequest.statement, batchUpdateLeadStatement, e, e₂]
    · have e₂ : ¬ ids₂.length = 0 := by omega
      simp only [BuilderRequest.statement, batchUpdateLeadStatement, e, e₂, if_false,
        Option.map_some', Option.some.injEq]
      congr 1
      apply batchUpdateIn_fst _ _ _ _ _ h3
      simp only [andIf_fst, h1, h2]
  case sipLog.sipLog =>
    obtain ⟨h1, h2, h3, h4, h5, h6⟩ := h
    simp only [BuilderRequest.statement, sipLogStatement, andIf_fst, Option.map_some',
      h1, h2, h3, h4, h5, h6]
  case kpiByList.kpiByList =>
    obtain ⟨h1, h2, h3, h4⟩ := h
    simp only [BuilderRequest.statement, kpiListStatement, andIf_fst, Option.map_some',
      h1, h2, h3, h4]

/-- C26: for LeadSearch, LeadStatusSearch, BatchUpdateLead, GetSIPLog and
getKPIByList, two requests to the same handler that agree on which optional
parameters are non-empty and on the number of lead ids are sent with the same
SQL text (or both without a statement), whatever the values; and in every
statement sent the number of '?' placeholders in the text is the number of
bound arguments. -/
theorem query_text_fixed_by_shape (r₁ r₂ : BuilderRequest) (h : r₁.shape = r₂.shape) :
    r₁.statement.map Prod.fst = r₂.statement.map Prod.fst ∧
    (∀ st, r₁.statement = some st → placeholders st.1 = st.2.length) ∧
    (∀ st, r₂.statement = some st → placeholders st.1 = st.2.length) :=
  ⟨statement_text r₁ r₂ h, statement_balanced r₁, statement_balanced r₂⟩

theorem query_text_fixed_by_shape_witness :
    (BuilderRequest.leadSearch "555" "" "" "" "10" "").statement.map Prod.fst
      = (BuilderRequest.leadSearch "%' OR '1'='1" "" "" "" "10; DROP TABLE vicidial_list" ""
          ).statement.map Prod.fst ∧
    (∀ st, (BuilderRequest.leadSearch "555" "" "" "" "10" "").statement = some st →
      placeholders st.1 = st.2.length) ∧
    (∀ st, (BuilderRequest.leadSearch "%' OR '1'='1" "" "" "" "10; DROP TABLE vicidial_list" ""
        ).statement = some st → placeholders st.1 = st.2.length) :=
  query_text_fixed_by_shape (BuilderRequest.leadSearch "555" "" "" "" "10" "")
    (BuilderRequest.leadSearch "%' OR '1'='1" "" "" "" "10; DROP TABLE vicidial_list" "")
    (by decide)

set_option maxRecDepth 100000 in
/-- The statements of the sample requests: the hostile values appear among the
bound arguments only, and a batch update of three leads has three placeholders
in its IN list. -/
theorem query_builder_samples :
    (BuilderRequest.leadSearch "%' OR '1'='1" "" "" "" "10; DROP TABLE vicidial_list" ""
        ).statement
      = some ("SELECT lead_id, list_id, phone_number, first_name, last_name, email, status, entry_date FROM vicidial_list WHERE 1=1 AND phone_number LIKE ? AND list_id = ? LIMIT 100",
          [SqlArg.str "%%' OR '1'='1%", SqlArg.str "10; DROP TABLE vicidial_list"]) ∧
    (BuilderRequest.batchUpdateLead [4, 5, 6] "NEW" "").statement
      = some ("UPDATE vicidial_list SET modify_date = NOW(), status = ? WHERE lead_id IN (?,?,?)",
          [SqlArg.str "NEW", SqlArg.int 4, SqlArg.int 5, SqlArg.int 6]) ∧
    (BuilderRequest.batchUpdateLead [] "NEW" "").statement = Option.none ∧
    (BuilderRequest.leadStatusSearch "" "10").statement = Option.none := by
  decide

/-! ## Theorems: test call status and listing -/

theorem startsWith_append (p l : List Char) : startsWith (p ++ l) p = true := by
  induction p with
  | nil => cases l <;> rfl
  | cons c p ih => simp [startsWith, ih]

theorem trimPrefix_append (pre s : String) : TrimPrefix (pre ++ s) pre = s := by
  unfold TrimPrefix
  rw [String.data_append, startsWith_append, if_pos rfl, List.drop_left]

theorem trimPrefix_exten (s : String) : TrimPrefix ("Exten: " ++ s) "Channel: " = "Exten: " ++ s := by
  unfold TrimPrefix
  have h : startsWith ("Exten: " ++ s).data "Channel: ".data = false := by
    rw [String.data_append]
    rfl
  rw [h]
  rfl

theorem vQueryCID_ne_empty (req : TestCallRequest) (camp : CampaignScan) (srv : ServerScan)
    (leadID : Int) (campaignCIDOverride : NullString) (cidDate : String) :
    (testCallPlan req camp srv leadID campaignCIDOverride cidDate).vQueryCID ≠ "" := by
  intro h
  have hd := congrArg String.data h
  rw [vQueryCID_data] at hd
  exact List.cons_ne_nil _ _ hd

set_option maxRecDepth 100000 in
/-- C28 (the code at the failing input): of the command row SendTestCall
writes, GetTestCallStatus reads cmd_line_b, where SendTestCall stored
"Exten: " and the routing extension, and reports that text unchanged as the
channel; the channel SendTestCall stored after "Channel: " is in cmd_line_d
and is never read. The context, read from cmd_line_c, is the one stored. For
the sample call the channel reported is "Exten: 138365", the channel stored
"Local/915551234567@default". -/
theorem getTestCallStatus_reports_extension_as_channel (req : TestCallRequest)
    (camp : CampaignScan) (srv : ServerScan) (leadID manID : Int)
    (campaignCIDOverride : NullString) (cidDate sqlDate : String)
    (dialLog : String → List SqlArg → DialLogScan) :
    ∃ row, managerRowWritten manID (testCallManagerArgs srv sqlDate
          (testCallPlan req camp srv leadID campaignCIDOverride cidDate)) = some row ∧
      row.cmd_line_d = "Channel: "
        ++ (testCallPlan req camp srv leadID campaignCIDOverride cidDate).channel ∧
      row.cmd_line_c = "Context: "
        ++ (testCallPlan req camp srv leadID campaignCIDOverride cidDate).extContext ∧
      (GetTestCallStatus (fun _ _ => Except.ok row) dialLog
          (testCallPlan req camp srv leadID campaignCIDOverride cidDate).vQueryCID).1.dataField
          "channel"
        = some (JsonValue.str ("Exten: "
            ++ (testCallPlan req camp srv leadID campaignCIDOverride cidDate).vdadDialExten)) ∧
      (GetTestCallStatus (fun _ _ => Except.ok row) dialLog
          (testCallPlan req camp srv leadID campaignCIDOverride cidDate).vQueryCID).1.dataField
          "context"
        = some (JsonValue.str
            (testCallPlan req camp srv leadID campaignCIDOverride cidDate).extContext) ∧
      DBCall.Exec managerQuery (testCallManagerArgs sampleServerScan "2024-03-07 14:05:09"
          samplePlan)
        ∈ (SendTestCall (sampleTestCallDB "9") sampleClock (some sampleTestCallRequest)).2 ∧
      managerRowWritten 1 (testCallManagerArgs sampleServerScan "2024-03-07 14:05:09"
          samplePlan) = some sampleManagerRow ∧
      (GetTestCallStatus (fun _ _ => Except.ok sampleManagerRow) (fun _ _ => DialLogScan.zero)
          "V0307140000012345").1.dataField "channel" = some (JsonValue.str "Exten: 138365") ∧
      samplePlan.channel = "Local/915551234567@default" := by
  refine ⟨_, rfl, rfl, rfl, ?_, ?_, by decide, by decide, by decide, by decide⟩
  · have hne := vQueryCID_ne_empty req camp srv leadID campaignCIDOverride cidDate
    unfold GetTestCallStatus
    simp only [hne, if_false]
    show (Response.dataField (respondWithSuccess _ _) "channel") = _
    simp only [Response.dataField, respondWithSuccess, respondWithJSON]
    have hb : (testCallPlan req camp srv leadID campaignCIDOverride cidDate).cmdLineB
        = "Exten: " ++ (testCallPlan req camp srv leadID campaignCIDOverride cidDate).vdadDialExten :=
      rfl
    simp [List.find?, hb, trimPrefix_exten]
  · have hne := vQueryCID_ne_empty req camp srv leadID campaignCIDOverride cidDate
    unfold GetTestCallStatus
    simp only [hne, if_false]
    simp only [Response.dataField, respondWithSuccess, respondWithJSON]
    have hc : (testCallPlan req camp srv leadID campaignCIDOverride cidDate).cmdLineC
        = "Context: " ++ (testCallPlan req camp srv leadID campaignCIDOverride cidDate).extContext :=
      rfl
    simp [List.find?, hc, trimPrefix_append]

theorem sqlLike_TC (fold : Char → Char) (v : List Char)
    (h : sqlLike fold "TC%".data v = true) : ∃ c cs, v = c :: cs ∧ fold 'T' = fold c := by
  have hp : "TC%".data = ['T', 'C', '%'] := rfl
  rw [hp] at h
  cases v with
  | nil => simp [sqlLike] at h
  | cons c cs =>
    simp only [sqlLike, Bool.and_eq_true, beq_iff_eq] at h
    exact ⟨c, cs, rfl, h.1⟩

theorem listTestCallsRows_like (fold : Char → Char) (maxRows : Nat) (dialLog : List DialLogRow)
    (manager : List ManagerRow) (pattern : Option String) :
    ∀ r ∈ listTestCallsRows fold maxRows dialLog manager pattern,
      r.1 ∈ dialLog ∧ sqlLike fold "TC%".data r.1.caller_code.data = true := by
  intro r hr
  unfold listTestCallsRows at hr
  simp only [] at hr
  have h1 := List.mem_of_mem_take hr
  rw [List.mem_insertionSort] at h1
  rw [List.mem_flatMap] at h1
  obtain ⟨dl, hdl, hr2⟩ := h1
  have hfst : r.1 = dl := by
    generalize manager.filter _ = vms at hr2
    cases vms with
    | nil =>
      simp only [List.mem_singleton] at hr2
      rw [hr2]
    | cons vm vms =>
      simp only [List.mem_map] at hr2
      obtain ⟨x, _, hx⟩ := hr2
      rw [← hx]
  rw [List.mem_filter] at hdl
  rw [hfst]
  refine ⟨hdl.1, ?_⟩
  have := hdl.2
  simp only [Bool.and_eq_true] at this
  exact this.1

/-- C30: every caller-id token of SendTestCall begins with "V" and so not with
"TC"; the dial-log row SendTestCall writes carries the token as caller_code;
and under a collation that tells "T" from "V", whatever the tables hold, no row
with a token as caller_code is among the rows the statement of ListTestCalls
selects, and no entry of a ListTestCalls response carries a token. -/
theorem listTestCalls_excludes_sendTestCall_rows (fold : Char → Char) (limitRows : String → Nat)
    (fault : Option String) (dialLog : List DialLogRow) (manager : List ManagerRow)
    (limit phoneLogin : String) (req : TestCallRequest) (camp : CampaignScan) (srv : ServerScan)
    (leadID : Int) (campaignCIDOverride : NullString) (cidDate sqlDate : String)
    (hfold : fold 'T' ≠ fold 'V') :
    (testCallPlan req camp srv leadID campaignCIDOverride cidDate).vQueryCID.data.head?
      = some 'V' ∧
    startsWith (testCallPlan req camp srv leadID campaignCIDOverride cidDate).vQueryCID.data
      "TC".data = false ∧
    (∃ row, dialLogRowWritten (testCallDialLogArgs srv sqlDate leadID
          (testCallPlan req camp srv leadID campaignCIDOverride cidDate)) = some row ∧
      row.caller_code = (testCallPlan req camp srv leadID campaignCIDOverride cidDate).vQueryCID ∧
      DBCall.Exec dialLogQuery (testCallDialLogArgs srv sqlDate leadID
          (testCallPlan req camp srv leadID campaignCIDOverride cidDate))
        ∈ testCallAuditCalls req srv.serverIP sqlDate leadID
            (testCallPlan req camp srv leadID campaignCIDOverride cidDate)) ∧
    (∀ maxRows pattern, ∀ r ∈ listTestCallsRows fold maxRows dialLog manager pattern,
      r.1.caller_code ≠ (testCallPlan req camp srv leadID campaignCIDOverride cidDate).vQueryCID) ∧
    (∀ entry ∈ (ListTestCalls fold limitRows fault dialLog manager limit phoneLogin).1.testCalls,
      entry.CallerCode
        ≠ (testCallPlan req camp srv leadID campaignCIDOverride cidDate).vQueryCID) := by
  have hdata := vQueryCID_data req camp srv leadID campaignCIDOverride cidDate
  have hrows : ∀ maxRows pattern, ∀ r ∈ listTestCallsRows fold maxRows dialLog manager pattern,
      r.1.caller_code
        ≠ (testCallPlan req camp srv leadID campaignCIDOverride cidDate).vQueryCID := by
    intro maxRows pattern r hr heq
    obtain ⟨c, cs, hv, hc⟩ :=
      sqlLike_TC fold _ (listTestCallsRows_like fold maxRows dialLog manager pattern r hr).2
    rw [heq, hdata] at hv
    simp only [List.cons_append, List.cons.injEq] at hv
    rw [← hv.1] at hc
    exact hfold hc
  refine ⟨?_, ?_, ⟨_, rfl, rfl, ?_⟩, hrows, ?_⟩
  · rw [hdata]
    rfl
  · rw [hdata]
    rfl
  · simp [testCallAuditCalls, testCallDialLogArgs]
  · intro entry he
    unfold ListTestCalls at he
    cases fault with
    | some err => simp [Response.testCalls, respondWithError, respondWithJSON] at he
    | none =>
      simp only [Response.testCalls, respondWithSuccess, respondWithJSON, List.mem_map] at he
      obtain ⟨r, hr, hre⟩ := he
      rw [← hre]
      exact hrows _ _ r hr

theorem listTestCalls_excludes_sendTestCall_rows_witness :
    samplePlan.vQueryCID.data.head? = some 'V' ∧
    startsWith samplePlan.vQueryCID.data "TC".data = false ∧
    (∃ row, dialLogRowWritten (testCallDialLogArgs sampleServerScan "2024-03-07 14:05:09" 12345
          samplePlan) = some row ∧
      row.caller_code = samplePlan.vQueryCID ∧
      DBCall.Exec dialLogQuery (testCallDialLogArgs sampleServerScan "2024-03-07 14:05:09" 12345
          samplePlan)
        ∈ testCallAuditCalls (testCallDefaults sampleTestCallRequest) sampleServerScan.serverIP
            "2024-03-07 14:05:09" 12345 samplePlan) ∧
    (∀ maxRows pattern, ∀ r ∈ listTestCallsRows Char.toLower maxRows sampleDialLog
        [sampleManagerRow] pattern, r.1.caller_code ≠ samplePlan.vQueryCID) ∧
    (∀ entry ∈ (ListTestCalls Char.toLower (fun _ => 50) Option.none sampleDialLog
        [sampleManagerRow] "" "").1.testCalls, entry.CallerCode ≠ samplePlan.vQueryCID) :=
  listTestCalls_excludes_sendTestCall_rows Char.toLower (fun _ => 50) Option.none sampleDialLog
    [sampleManagerRow] "" "" (testCallDefaults sampleTestCallRequest) (sampleCampaignScan "9" 30)
    sampleServerScan 12345 NullString.zero "030714" "2024-03-07 14:05:09" (by decide)

set_option maxRecDepth 100000 in
/-- The listing on the sample tables: the dial log holds the row of the sample
test call and a row with the caller code "TC1001"; only the latter is listed. -/
theorem listTestCalls_sample :
    samplePlan.vQueryCID = "V0307140000012345" ∧
    (ListTestCalls Char.toLower (fun _ => 50) Option.none sampleDialLog [sampleManagerRow]
        "" "").1.testCalls
      = [{ CallerCode := "TC1001", CallDate := "2024-03-06 09:00:00", Extension := "8368",
           Channel := "Local/915550000007@default", ServerIP := "10.0.0.1", Status := "",
           Response := "" }] := by
  decide

/-! ## Theorems: revised properties of the dearchive, KPI and dial timeout -/

theorem wrapInt64_add (a b : Int) : wrapInt64 (wrapInt64 a + b) = wrapInt64 (a + b) := by
  unfold wrapInt64
  omega

theorem kpiMapWrapInv_step (m : List CampaignDispositionStats) (pre : List KPICampaignRow)
    (r : KPICampaignRow) (hinv : KpiMapWrapInv m pre) :
    KpiMapWrapInv (kpiCampaignMapAdd m r) (pre ++ [r]) := by
  obtain ⟨hnodup, hseen, hgroups⟩ := hinv
  refine ⟨?_, ?_, ?_⟩
  · rw [kpiCampaignMapAdd_keys]
    by_cases hm : r.campaignID ∈ (m.map fun g => g.CampaignID)
    · rw [if_pos hm]; exact hnodup
    · rw [if_neg hm]
      exact List.Nodup.append hnodup (List.nodup_singleton _) (by simpa using hm)
  · intro x hx
    rw [kpiCampaignMapAdd_keys]
    rcases List.mem_append.1 hx with hx | hx
    · have := hseen x hx
      by_cases hm : r.campaignID ∈ (m.map fun g => g.CampaignID)
      · rw [if_pos hm]; exact this
      · rw [if_neg hm]; exact List.mem_append_left _ this
    · have hxr : x = r := by simpa using hx
      subst hxr
      by_cases hm : x.campaignID ∈ (m.map fun g => g.CampaignID)
      · rw [if_pos hm]; exact hm
      · rw [if_neg hm]; simp
  · intro g' hg'
    rcases kpiCampaignMapAdd_mem m r hnodup g' hg' with ⟨h1, h2⟩ | ⟨g, hg, hc, he⟩ | ⟨h1, h2⟩
    · have h2' : ¬ r.campaignID = g'.CampaignID := fun e => h2 e.symm
      rw [campaignCounts_append, if_neg h2', List.append_nil]
      exact hgroups g' h1
    · obtain ⟨ht, hd⟩ := hgroups g hg
      subst he
      simp only
      rw [campaignCounts_append, if_pos hc.symm, List.sum_append, List.map_append, hd, ht]
      refine ⟨?_, ?_⟩
      · rw [wrapInt64_add]
        simp
      · simp [kpiDisposition]
    · subst h2
      have hempty : campaignCounts r.campaignID pre = [] := by
        unfold campaignCounts
        rw [List.map_eq_nil_iff, List.filter_eq_nil_iff]
        intro x hx hdec
        have hxe : x.campaignID = r.campaignID := by simpa using hdec
        exact h1 (hxe ▸ hseen x hx)
      simp only
      rw [campaignCounts_append, if_pos rfl, hempty]
      refine ⟨?_, ?_⟩
      · simp
      · simp [kpiDisposition]

theorem kpiMapWrapInv_foldl (rows : List KPICampaignRow) :
    ∀ (m : List CampaignDispositionStats) (pre : List KPICampaignRow),
      KpiMapWrapInv m pre → KpiMapWrapInv (rows.foldl kpiCampaignMapAdd m) (pre ++ rows) := by
  induction rows with
  | nil => intro m pre hinv; simpa using hinv
  | cons r rest ih =>
    intro m pre hinv
    have hassoc : pre ++ r :: rest = (pre ++ [r]) ++ rest := by simp
    rw [List.foldl_cons, hassoc]
    exact ih _ _ (kpiMapWrapInv_step m pre r hinv)

theorem kpiCampaigns_inv (rows : List KPICampaignRow) :
    KpiMapWrapInv (rows.foldl kpiCampaignMapAdd []) rows := by
  have h := kpiMapWrapInv_foldl rows [] [] (by simp [KpiMapWrapInv])
  simpa using h

theorem kpiCampaigns_ids (rows : List KPICampaignRow) :
    ((kpiCampaigns rows).map fun g => g.CampaignID)
      = ((rows.foldl kpiCampaignMapAdd []).map fun g => g.CampaignID) := by
  unfold kpiCampaigns
  rw [List.map_map]
  rfl

theorem kpiCampaigns_group (rows : List KPICampaignRow) (g : CampaignDispositionStats)
    (hg : g ∈ kpiCampaigns rows) :
    g.TotalCalls = wrapInt64 (campaignCounts g.CampaignID rows).sum ∧
    (g.Dispositions.map fun d => d.Count) = campaignCounts g.CampaignID rows ∧
    (∀ d ∈ g.Dispositions, d.Percentage
      = Float64.mul (Float64.div (Float64.ofInt d.Count) (Float64.ofInt g.TotalCalls))
          (Float64.ofInt 100)) := by
  have hinv := kpiCampaigns_inv rows
  unfold kpiCampaigns at hg
  obtain ⟨g₀, hg₀, rfl⟩ := List.mem_map.1 hg
  obtain ⟨ht, hd⟩ := hinv.2.2 g₀ hg₀
  refine ⟨?_, ?_, ?_⟩
  · simpa [kpiCampaignPercentages] using ht
  · simpa [kpiCampaignPercentages, Function.comp] using hd
  · intro d hd'
    simp only [kpiCampaignPercentages, List.mem_map] at hd'
    obtain ⟨d₀, _, rfl⟩ := hd'
    rfl

set_option maxRecDepth 100000 in
/-- C12 as stated fails: for two rows of one campaign with 2^62 calls each the
handler answers 200 with one group whose total_calls is -9223372036854775808,
while the counts of the rows sum to 9223372036854775808: the total is a Go int
and wraps. -/
theorem kpi_total_calls_wraps :
    (getKPIByCampaign (fun _ _ => Except.ok wrapKPIRows) "" "" "").1.code = 200 ∧
    (getKPIByCampaign (fun _ _ => Except.ok wrapKPIRows) "" "" "").1.bodyWritten = true ∧
    (getKPIByCampaign (fun _ _ => Except.ok wrapKPIRows) "" "" "").1.body.Data
      = some (Payload.kpiCampaigns 1 (kpiCampaigns wrapKPIRows)) ∧
    (kpiCampaigns wrapKPIRows).map (fun g => (g.CampaignID, g.TotalCalls))
      = [("C", -9223372036854775808)] ∧
    (campaignCounts "C" wrapKPIRows).sum = 9223372036854775808 := by
  decide

/-- C12 (amended): when the query returns `rows`, the response of the
KPI-by-campaign aggregation carries exactly the groups computed from them, one
per campaign id among the rows, and its body is written exactly when every
percentage and average is finite. For every group, total_calls is the sum of
the counts of the rows carrying its campaign id reduced to a 64-bit integer,
hence that sum whenever the sum fits; the disposition counts are the counts of
these rows in order; and each percentage is
float64(count) / float64(total_calls) * 100. -/
theorem kpi_campaign_totals_and_percentages
    (query : String → List SqlArg → Except String (List KPICampaignRow))
    (campaignID startDate endDate : String) (rows : List KPICampaignRow)
    (hq : query (kpiCampaignQuery campaignID startDate endDate)
      (kpiCampaignArgs campaignID startDate endDate) = Except.ok rows) :
    (getKPIByCampaign query campaignID startDate endDate).1.code = 200 ∧
    (getKPIByCampaign query campaignID startDate endDate).1.body.Data
      = some (Payload.kpiCampaigns ((kpiCampaigns rows).length : Int) (kpiCampaigns rows)) ∧
    ((getKPIByCampaign query campaignID startDate endDate).1.bodyWritten = true ↔
      ∀ g ∈ kpiCampaigns rows, ∀ d ∈ g.Dispositions,
        d.Percentage.isFinite = true ∧ d.AvgTalkTime.isFinite = true) ∧
    ((kpiCampaigns rows).map fun g => g.CampaignID).Nodup ∧
    (∀ r ∈ rows, ∃ g ∈ kpiCampaigns rows, g.CampaignID = r.campaignID) ∧
    (∀ g ∈ kpiCampaigns rows,
      g.TotalCalls = wrapInt64 (campaignCounts g.CampaignID rows).sum ∧
      (-(2 ^ 63) ≤ (campaignCounts g.CampaignID rows).sum →
        (campaignCounts g.CampaignID rows).sum < 2 ^ 63 →
        g.TotalCalls = (campaignCounts g.CampaignID rows).sum) ∧
      (g.Dispositions.map fun d => d.Count) = campaignCounts g.CampaignID rows ∧
      ∀ d ∈ g.Dispositions, d.Percentage
        = Float64.mul (Float64.div (Float64.ofInt d.Count) (Float64.ofInt g.TotalCalls))
            (Float64.ofInt 100)) := by
  have hinv := kpiCampaigns_inv rows
  refine ⟨?_, ?_, ?_, ?_, ?_, ?_⟩
  · simp [getKPIByCampaign, hq, respondWithSuccess, respondWithJSON, StatusOK]
  · simp [getKPIByCampaign, hq, respondWithSuccess, respondWithJSON]
  · simp [getKPIByCampaign, hq, respondWithSuccess, respondWithJSON, APIResponse.encodable,
      Payload.encodable, List.all_eq_true]
  · rw [kpiCampaigns_ids]
    exact hinv.1
  · intro r hr
    have h := hinv.2.1 r hr
    rw [← kpiCampaigns_ids] at h
    obtain ⟨g, hg, hid⟩ := List.mem_map.1 h
    exact ⟨g, hg, hid⟩
  · intro g hg
    obtain ⟨ht, hd, hp⟩ := kpiCampaigns_group rows g hg
    refine ⟨ht, ?_, hd, hp⟩
    intro hlo hhi
    rw [ht, wrapInt64_of_range _ hlo hhi]

set_option maxRecDepth 100000 in
theorem kpi_scenario_response :
    (getKPIByCampaign (fun _ _ => Except.ok scenarioKPIRows) "TESTCAMP" "" "").1
      = { code := 200, contentType := "application/json",
          body := { Success := true,
                    Message := "KPI dispositions by campaign retrieved successfully",
                    Data := some (Payload.kpiCampaigns 1
                      [{ CampaignID := "TESTCAMP", CampaignName := "Test campaign",
                         TotalCalls := 4,
                         Dispositions :=
                          [{ Status := "SALE", Count := 3,
                             Percentage := Float64.finite 5277655813324800 (-46),
                             AvgTalkTime := Float64.finite 8444249301319680 (-48),
                             TotalTalkTime := 90 },
                           { Status := "NI", Count := 1,
                             Percentage := Float64.finite 7036874417766400 (-48),
                             AvgTalkTime := Float64.finite 6755399441055744 (-49),
                             TotalTalkTime := 12 }] }]),
                    Error := "" },
          bodyWritten := true } := by
  decide

theorem kpi_campaign_totals_and_percentages_witness :
    ((getKPIByCampaign (fun _ _ => Except.ok scenarioKPIRows) "TESTCAMP" "" "").1.code = 200 ∧
    (getKPIByCampaign (fun _ _ => Except.ok scenarioKPIRows) "TESTCAMP" "" "").1.body.Data
      = some (Payload.kpiCampaigns ((kpiCampaigns scenarioKPIRows).length : Int)
          (kpiCampaigns scenarioKPIRows)) ∧
    ((getKPIByCampaign (fun _ _ => Except.ok scenarioKPIRows) "TESTCAMP" "" "").1.bodyWritten
        = true ↔
      ∀ g ∈ kpiCampaigns scenarioKPIRows, ∀ d ∈ g.Dispositions,
        d.Percentage.isFinite = true ∧ d.AvgTalkTime.isFinite = true) ∧
    ((kpiCampaigns scenarioKPIRows).map fun g => g.CampaignID).Nodup ∧
    (∀ r ∈ scenarioKPIRows, ∃ g ∈ kpiCampaigns scenarioKPIRows, g.CampaignID = r.campaignID) ∧
    (∀ g ∈ kpiCampaigns scenarioKPIRows,
      g.TotalCalls = wrapInt64 (campaignCounts g.CampaignID scenarioKPIRows).sum ∧
      (-(2 ^ 63) ≤ (campaignCounts g.CampaignID scenarioKPIRows).sum →
        (campaignCounts g.CampaignID scenarioKPIRows).sum < 2 ^ 63 →
        g.TotalCalls = (campaignCounts g.CampaignID scenarioKPIRows).sum) ∧
      (g.Dispositions.map fun d => d.Count) = campaignCounts g.CampaignID scenarioKPIRows ∧
      ∀ d ∈ g.Dispositions, d.Percentage
        = Float64.mul (Float64.div (Float64.ofInt d.Count) (Float64.ofInt g.TotalCalls))
            (Float64.ofInt 100))) ∧
    (kpiCampaigns scenarioKPIRows).map (fun g => (g.CampaignID, g.TotalCalls,
        g.Dispositions.map fun d => (d.Status, d.Count, d.Percentage.toRat)))
      = [("TESTCAMP", 4, [("SALE", 3, 75), ("NI", 1, 25)])] :=
  ⟨kpi_campaign_totals_and_percentages (fun _ _ => Except.ok scenarioKPIRows) "TESTCAMP" ""
      "" scenarioKPIRows rfl,
    by
      rw [kpi_scenario_groups]
      simp only [List.map_cons, List.map_nil, Float64.toRat]
      norm_num⟩

/-- C13 (amended): for every campaign group with total_calls > 0 whose rows
have non-negative counts with a sum below 2^63, the sum of percentage over the
group's disposition rows differs from 100 by at most 10^-13: it is 100 up to
float64 rounding. -/
theorem kpi_percentage_sum_within_tolerance (rows : List KPICampaignRow)
    (g : CampaignDispositionStats) (hg : g ∈ kpiCampaigns rows)
    (hnonneg : ∀ r ∈ rows, r.campaignID = g.CampaignID → 0 ≤ r.count)
    (hsum : (campaignCounts g.CampaignID rows).sum < 2 ^ 63) (hpos : 0 < g.TotalCalls) :
    |(g.Dispositions.map fun d => d.Percentage.toRat).sum - 100| ≤ 1 / 10 ^ 13 := by
  obtain ⟨htw, hd, hp⟩ := kpiCampaigns_group rows g hg
  have hcs : ∀ c ∈ campaignCounts g.CampaignID rows, 0 ≤ c := by
    intro c hc
    unfold campaignCounts at hc
    obtain ⟨r, hr, rfl⟩ := List.mem_map.1 hc
    have hr' := List.mem_filter.1 hr
    exact hnonneg r hr'.1 (by simpa using hr'.2)
  have hs0 : 0 ≤ (campaignCounts g.CampaignID rows).sum := List.sum_nonneg hcs
  have ht : g.TotalCalls = (campaignCounts g.CampaignID rows).sum := by
    rw [htw, wrapInt64_of_range _ (by omega) hsum]
  have hlist : (g.Dispositions.map fun d => d.Percentage.toRat)
      = (campaignCounts g.CampaignID rows).map fun c =>
          (Float64.mul (Float64.div (Float64.ofInt c) (Float64.ofInt g.TotalCalls))
            (Float64.ofInt 100)).toRat := by
    rw [← hd, List.map_map]
    apply List.map_congr_left
    intro d hdm
    simp only [Function.comp]
    rw [hp d hdm]
  have hb := percentage_sum_bounds g.TotalCalls hpos (campaignCounts g.CampaignID rows) hcs
  rw [← hlist, ← ht] at hb
  have hTq : ((g.TotalCalls : Int) : ℚ) ≠ 0 := by
    have : (0 : ℚ) < (g.TotalCalls : ℚ) := by exact_mod_cast hpos
    exact ne_of_gt this
  rw [div_self hTq, mul_one] at hb
  have hn := tolerance_numeric
  rw [abs_le]
  constructor
  · linarith [hb.1, hn.1]
  · linarith [hb.2, hn.2]

theorem kpi_percentage_sum_within_tolerance_witness :
    |(({ CampaignID := "C", CampaignName := "c", TotalCalls := 3,
         Dispositions :=
          [{ Status := "A", Count := 1,
             Percentage := Float64.finite 4691249611844266 (-47),
             AvgTalkTime := Float64.finite 0 0, TotalTalkTime := 0 },
           { Status := "B", Count := 2,
             Percentage := Float64.finite 4691249611844266 (-46),
             AvgTalkTime := Float64.finite 0 0, TotalTalkTime := 0 }] } :
        CampaignDispositionStats).Dispositions.map fun d => d.Percentage.toRat).sum - 100|
      ≤ 1 / 10 ^ 13 :=
  kpi_percentage_sum_within_tolerance thirdsKPIRows _
    (by rw [kpi_thirds_groups]; exact List.mem_singleton.2 rfl) (by decide) (by decide)
    (by decide)

/-- C10 (the code at the failing input): the archived lead "7" is restored by
a first invocation, which answers 200. A second invocation whose archive lookup
fails with a driver error does not answer 404: the error is not `sql.ErrNoRows`,
the handler goes on with an empty lead, commits a move of no row and answers
200 "Lead restored successfully" with lead_id 0. The tables stay as the first
invocation left them. -/
theorem dearchive_second_invocation_driver_error :
    (LeadDearchive sampleEngine Faults.none sampleDB "7").response
      = respondWithSuccess "Lead restored successfully" (Payload.intMap [("lead_id", 7)]) ∧
    (LeadDearchive sampleEngine { Faults.none with queryRow := some "invalid connection" }
        (LeadDearchive sampleEngine Faults.none sampleDB "7").db "7").response
      = respondWithSuccess "Lead restored successfully" (Payload.intMap [("lead_id", 0)]) ∧
    (LeadDearchive sampleEngine { Faults.none with queryRow := some "invalid connection" }
        (LeadDearchive sampleEngine Faults.none sampleDB "7").db "7").response.code ≠ 404 ∧
    DBCall.Commit ∈ (LeadDearchive sampleEngine
        { Faults.none with queryRow := some "invalid connection" }
        (LeadDearchive sampleEngine Faults.none sampleDB "7").db "7").calls ∧
    (LeadDearchive sampleEngine { Faults.none with queryRow := some "invalid connection" }
        (LeadDearchive sampleEngine Faults.none sampleDB "7").db "7").db
      = (LeadDearchive sampleEngine Faults.none sampleDB "7").db := by
  decide

set_option maxRecDepth 100000 in
/-- C19 as stated fails: for a campaign whose dial_timeout is 9223372036854776
the product with 1000 does not fit a Go int and wraps: the timeout in
milliseconds is -9223372036854775616, which is below 5000, no multiple of 1000
and not 1000 times dial_timeout, and it is the value written to the command row
and to the dial log. -/
theorem testCall_dial_timeout_wraps :
    (testCallPlan (testCallDefaults sampleTestCallRequest)
        (sampleCampaignScan "9" 9223372036854776) sampleServerScan 12345 NullString.zero
        "030714").localDialTimeoutMS = -9223372036854775616 ∧
    ¬ ((1000 : Int) ∣ -9223372036854775616) ∧
    (1000 : Int) * 9223372036854776 ≠ -9223372036854775616 ∧
    DBCall.Exec dialLogQuery
        [SqlArg.str "V0307140000012345", SqlArg.int 12345, SqlArg.str "10.0.0.1",
         SqlArg.str "2024-03-07 14:05:09", SqlArg.str "138365",
         SqlArg.str "Local/915551234567@default", SqlArg.int (-9223372036854775616),
         SqlArg.str "\"V0307140000012345\" <5551112222>", SqlArg.str "default"]
      ∈ (SendTestCall longTimeoutTestCallDB sampleClock (some sampleTestCallRequest)).2 ∧
    (SendTestCall longTimeoutTestCallDB sampleClock (some sampleTestCallRequest)).1.code = 200 := by
  decide

set_option maxRecDepth 100000 in
/-- A group whose rows all have count 0 has total_calls 0 and percentages that
are not finite; the encoder then fails and the 200 response has no body. -/
theorem kpi_zero_total_body_not_written :
    (getKPIByCampaign (fun _ _ => Except.ok
        [{ campaignID := "C", campaignName := "c", status := "A", count := 0,
           avgTalkTime := Float64.ofInt 0, totalTalkTime := Float64.ofInt 0 }]) "" "" "").1.code
      = 200 ∧
    (getKPIByCampaign (fun _ _ => Except.ok
        [{ campaignID := "C", campaignName := "c", status := "A", count := 0,
           avgTalkTime := Float64.ofInt 0, totalTalkTime := Float64.ofInt 0 }]) "" "" ""
      ).1.bodyWritten = false := by
  decide

end Vicidial
